import Mathlib

/-!
# AC simulator: appliance state machine and frame driver

A shallow embedding of `src/Source/State.cpp` (the five per-frame update
functions over `AppState`), of the parts of the frame loop in
`src/Source/Main.cpp` that read or write `AppState`, of its pixel-to-world
mapping, ray/box slab test and sequence of render calls, and of the camera
state machine of `src/Source/Camera3D.cpp`.

Conventions of the embedding

* C++ `float`/`double` values are exact rationals (`ℚ`), and infinities and
  NaN occur only in the ray/box slab test, whose values are of type `FVal`.
  Where the rounding of binary32 decides a discrete outcome (the end of the
  fill loop, the number of calls of a temperature run, a ray hit far from the
  box) the definitions named `...F32` round every operation with `f32`.
* A function that mutates `AppState&` becomes a function returning the new
  `AppState`.
* `glm::normalize`, `glm::dot`, `glm::inverse` and `sqrt` are library code; a
  scalar or boolean they produce is handed to the embedding as an argument
  and the place is marked in the doc comment of the definition concerned.
-/

namespace ACSim

/-! ## Data model -/

/-- Modelled from the spec: `Header/State.h` is not among the sources, so the
record is rebuilt from section 3 of the specification and from the fields
`State.cpp` and `Main.cpp` read and write. -/
structure AppState where
  isOn : Bool
  lockedByFullBowl : Bool
  ventOpenness : ℚ
  desiredTemp : ℚ
  currentTemp : ℚ
  waterLevel : ℚ
  holdingBowl : Bool
  prevMouseDown : Bool
  prevUpPressed : Bool
  prevDownPressed : Bool
  prevSpacePressed : Bool
  waterAccum : ℚ
  tempChangeStep : ℚ
  ventAnimSpeed : ℚ
  tempDriftSpeed : ℚ
  waterFillPerSecond : ℚ
deriving DecidableEq, Repr

/-- Modelled from the spec: `Header/Renderer2D.h` is not among the sources; a
circle of the 2D layout with the fields `State.cpp` and `Main.cpp` use (the
colour plays no part in the simulation). -/
structure CircleShape where
  x : ℚ
  y : ℚ
  radius : ℚ
deriving DecidableEq, Repr

/-- Modelled from the spec: `Header/Renderer2D.h` is not among the sources; a
rectangle of the 2D layout with the fields `Controls.cpp` and `Main.cpp` use. -/
structure RectShape where
  x : ℚ
  y : ℚ
  w : ℚ
  h : ℚ
deriving DecidableEq, Repr

/-! ## `State.cpp` -/

/-- `handlePowerToggle` (State.cpp 6-21): toggle on a lamp click, ignored while
locked by the full bowl; the mouse latch is stored in every case. -/
def handlePowerToggle (state : AppState) (mouseX mouseY : ℚ) (mouseDown : Bool)
    (lamp : CircleShape) : AppState :=
  let state1 : AppState :=
    if mouseDown = true ∧ state.prevMouseDown = false then
      let dx := mouseX - lamp.x
      let dy := mouseY - lamp.y
      let distSq := dx * dx + dy * dy
      if distSq ≤ lamp.radius * lamp.radius ∧ state.lockedByFullBowl = false then
        { state with isOn := !state.isOn }
      else state
    else state
  { state1 with prevMouseDown := mouseDown }

/-- The target `updateVent` animates toward (State.cpp 26). -/
def targetOpenness (state : AppState) : ℚ :=
  if state.isOn = true ∧ state.lockedByFullBowl = false then 1 else 0

/-- `updateVent` (State.cpp 23-35). -/
def updateVent (state : AppState) (deltaTime : ℚ) : AppState :=
  if state.ventOpenness < targetOpenness state then
    { state with
      ventOpenness :=
        min (targetOpenness state) (state.ventOpenness + state.ventAnimSpeed * deltaTime) }
  else if state.ventOpenness > targetOpenness state then
    { state with
      ventOpenness :=
        max (targetOpenness state) (state.ventOpenness - state.ventAnimSpeed * deltaTime) }
  else state

/-- The two clamping statements shared by every place that changes
`desiredTemp` (State.cpp 52-53, Main.cpp 405-406 and 575-576). -/
def clampDesired (state : AppState) : AppState :=
  let state1 : AppState :=
    if state.desiredTemp < -10 then { state with desiredTemp := -10 } else state
  if state1.desiredTemp > 40 then { state1 with desiredTemp := 40 } else state1

/-- `handleTemperatureInput` (State.cpp 37-57). -/
def handleTemperatureInput (state : AppState) (upPressed downPressed : Bool) : AppState :=
  let upEdge : Bool := upPressed && !state.prevUpPressed
  let downEdge : Bool := downPressed && !state.prevDownPressed
  let state1 : AppState :=
    if upEdge = true then
      { state with desiredTemp := state.desiredTemp + state.tempChangeStep }
    else state
  let state2 : AppState :=
    if downEdge = true then
      { state1 with desiredTemp := state1.desiredTemp - state1.tempChangeStep }
    else state1
  let state3 := clampDesired state2
  { state3 with prevUpPressed := upPressed, prevDownPressed := downPressed }

/-- `updateTemperature` (State.cpp 59-75). -/
def updateTemperature (state : AppState) (deltaTime : ℚ) : AppState :=
  if state.isOn = false ∨ state.lockedByFullBowl = true then state
  else
    let diff := state.desiredTemp - state.currentTemp
    let step := state.tempDriftSpeed * deltaTime
    if |diff| ≤ step then
      { state with currentTemp := state.desiredTemp }
    else
      { state with currentTemp := state.currentTemp + (if diff > 0 then step else -step) }

/-- The `while (state.waterAccum >= 1.0f)` loop of `updateWater`
(State.cpp 115-119) on the pair (`waterAccum`, `waterLevel`), in exact
arithmetic; `fillLoopF32` is the loop with the rounding of binary32, which
agrees with this one on `waterAccum` up to 2^24 and does not end above. -/
def fillLoop (waterAccum waterLevel waterFillPerSecond : ℚ) : ℚ × ℚ :=
  if 1 ≤ waterAccum then
    fillLoop (waterAccum - 1) (waterLevel + waterFillPerSecond) waterFillPerSecond
  else (waterAccum, waterLevel)
termination_by ⌊waterAccum⌋.toNat
decreasing_by
  have h1 : (1 : ℤ) ≤ ⌊waterAccum⌋ := Int.le_floor.mpr (by simpa using ‹1 ≤ waterAccum›)
  have h2 : ⌊waterAccum - 1⌋ = ⌊waterAccum⌋ - 1 := Int.floor_sub_one waterAccum
  rw [h2]
  omega

/-- The Space branch of `updateWater` (State.cpp 80-110). `dot` is the value
of `glm::dot(glm::normalize(camForward), glm::normalize(-camPos))`. -/
def spaceAction (state : AppState) (spacePressed : Bool) (dot : ℚ) : AppState :=
  let spaceEdge : Bool := spacePressed && !state.prevSpacePressed
  if spaceEdge = true then
    if state.holdingBowl = true then
      if state.waterLevel ≥ 99 / 100 then
        if dot ≤ -(9 / 10) then
          { state with waterLevel := 0, lockedByFullBowl := false }
        else state
      else
        if dot ≥ 9 / 10 then
          { state with holdingBowl := false, waterLevel := 0, lockedByFullBowl := false }
        else state
    else state
  else state

/-- The fill step of `updateWater` (State.cpp 112-120). -/
def fillStep (state : AppState) (deltaTime : ℚ) : AppState :=
  if state.isOn = true ∧ state.lockedByFullBowl = false then
    let r := fillLoop (state.waterAccum + deltaTime) state.waterLevel state.waterFillPerSecond
    { state with waterAccum := r.1, waterLevel := r.2 }
  else state

/-- The cap and the forced lock at the end of `updateWater` (State.cpp 122-131). -/
def capAndLock (state : AppState) : AppState :=
  let state1 : AppState :=
    if state.waterLevel > 1 then { state with waterLevel := 1 } else state
  if state1.waterLevel ≥ 1 then
    { state1 with isOn := false, lockedByFullBowl := true }
  else state1

/-- `updateWater` (State.cpp 77-134): Space branch, fill, cap and lock, latch.
The camera arguments enter only through `dot`, see `spaceAction`. -/
def updateWater (state : AppState) (deltaTime : ℚ) (spacePressed : Bool) (dot : ℚ) :
    AppState :=
  let state1 := spaceAction state spacePressed dot
  let state2 := fillStep state1 deltaTime
  let state3 := capAndLock state2
  { state3 with prevSpacePressed := spacePressed }

/-! ## The frame loop of `Main.cpp` (the parts that touch `AppState`) -/

/-- `pointInRect` (Controls.cpp 3-6). -/
def pointInRect (px py : ℚ) (rect : RectShape) : Bool :=
  decide (px ≥ rect.x ∧ px ≤ rect.x + rect.w ∧ py ≥ rect.y ∧ py ≤ rect.y + rect.h)

/-- Layout constant `acBody` (Main.cpp 168-172). -/
def acBody : RectShape := { x := 0, y := 0, w := 480, h := 200 }

/-- Layout constant `lamp` (Main.cpp 177). -/
def lamp : CircleShape := { x := 480 - 44, y := 0 + 200 - 26, radius := 14 }

/-- Layout constant `tempArrowButton` (Main.cpp 179-197). -/
def tempArrowButton : RectShape := { x := 70 - 40 - 12, y := 0 + 52, w := 40, h := 54 }

/-- Layout constant `bowlOutline` (Main.cpp 199-204). -/
def bowlOutline : RectShape :=
  { x := (480 - 260) * (1 / 2), y := 0 + 200 + 120, w := 260, h := 140 }

/-- The centring offset `offsetX` of a frame (Main.cpp 345-351). -/
def offsetX (windowWidth : ℤ) : ℚ :=
  let sceneMinX := min acBody.x (min tempArrowButton.x bowlOutline.x)
  let sceneMaxX :=
    max (acBody.x + acBody.w)
      (max (tempArrowButton.x + tempArrowButton.w) (bowlOutline.x + bowlOutline.w))
  let sceneW := sceneMaxX - sceneMinX
  ((windowWidth : ℚ) - sceneW) * (1 / 2) - sceneMinX

/-- The centring offset `offsetY` of a frame (Main.cpp 347-352). -/
def offsetY (windowHeight : ℤ) : ℚ :=
  let sceneMinY := min acBody.y (min tempArrowButton.y bowlOutline.y)
  let sceneMaxY :=
    max (acBody.y + acBody.h)
      (max (tempArrowButton.y + tempArrowButton.h) (bowlOutline.y + bowlOutline.h))
  let sceneH := sceneMaxY - sceneMinY
  ((windowHeight : ℚ) - sceneH) * (1 / 2) - sceneMinY

/-- The lambda `shiftRect` (Main.cpp 354-360). -/
def shiftRect (windowWidth windowHeight : ℤ) (r : RectShape) : RectShape :=
  { r with x := r.x + offsetX windowWidth, y := r.y + offsetY windowHeight }

/-- The lambda `shiftCircle` (Main.cpp 361-367). -/
def shiftCircle (windowWidth windowHeight : ℤ) (c : CircleShape) : CircleShape :=
  { c with x := c.x + offsetX windowWidth, y := c.y + offsetY windowHeight }

/-- What one iteration of the frame loop reads from outside `AppState`.
`facingDot` is the orientation value handed to `updateWater`; the four
`...RayHit` flags are the outcomes of the ray tests of the click handling
(lamp sphere: `disc >= 0` and `t > 0`; `hitAABB` on the two arrow halves; the
inline slab test on the bowl); `dropletsCollected` counts the droplets of the
particle update that take one of the two collecting branches. -/
structure FrameInput where
  deltaTime : ℚ
  mouseX : ℚ
  mouseY : ℚ
  mouseDown : Bool
  upPressed : Bool
  downPressed : Bool
  spacePressed : Bool
  lPressed : Bool
  windowWidth : ℤ
  windowHeight : ℤ
  facingDot : ℚ
  lampRayHit : Bool
  topArrowRayHit : Bool
  botArrowRayHit : Bool
  bowlRayHit : Bool
  dropletsCollected : ℕ
deriving DecidableEq, Repr

/-- The state carried from frame to frame: `appState` and the latch of the
L key (Main.cpp 275, 279). -/
structure FrameState where
  appState : AppState
  prevLPressed : Bool
deriving DecidableEq, Repr

/-- The click on the 2D arrow button (Main.cpp 386-408); the second component
is `tempArrowClicked`. -/
def arrowClick (state : AppState) (clickStarted : Bool) (mouseX mouseY : ℚ)
    (tempArrowDraw : RectShape) : AppState × Bool :=
  if clickStarted = true ∧ state.lockedByFullBowl = false then
    if pointInRect mouseX mouseY tempArrowDraw = true then
      let midY := tempArrowDraw.y + tempArrowDraw.h * (1 / 2)
      let state1 : AppState :=
        if mouseY < midY then
          { state with desiredTemp := state.desiredTemp + state.tempChangeStep }
        else
          { state with desiredTemp := state.desiredTemp - state.tempChangeStep }
      (clampDesired state1, true)
    else (state, false)
  else (state, false)

/-- The keyboard toggle of the lamp (Main.cpp 469-477), on `appState`. -/
def lKeyToggle (state : AppState) (lPressed prevLPressed : Bool) : AppState :=
  if lPressed = true ∧ prevLPressed = false then { state with isOn := !state.isOn } else state

/-- The lamp part of the ray picking (Main.cpp 506-523). -/
def lampRayPick (state : AppState) (lampRayHit : Bool) : AppState :=
  if lampRayHit = true then { state with isOn := !state.isOn } else state

/-- The arrow part of the ray picking (Main.cpp 542-578). -/
def arrowRayPick (state : AppState) (tempArrowClicked topArrowRayHit botArrowRayHit : Bool) :
    AppState :=
  if tempArrowClicked = false ∧ state.lockedByFullBowl = false then
    if topArrowRayHit = true then
      clampDesired { state with desiredTemp := state.desiredTemp + state.tempChangeStep }
    else if botArrowRayHit = true then
      clampDesired { state with desiredTemp := state.desiredTemp - state.tempChangeStep }
    else state
  else state

/-- The bowl part of the ray picking (Main.cpp 580-598). -/
def bowlRayPick (state : AppState) (bowlRayHit : Bool) : AppState :=
  if bowlRayHit = true then
    if state.waterLevel ≥ 99 / 100 ∧ state.isOn = false then
      { state with holdingBowl := !state.holdingBowl }
    else state
  else state

/-- The ray picking done on a click start (Main.cpp 491-599). -/
def rayPick (state : AppState) (tempArrowClicked : Bool) (inp : FrameInput) : AppState :=
  let state1 := lampRayPick state inp.lampRayHit
  let state2 := arrowRayPick state1 tempArrowClicked inp.topArrowRayHit inp.botArrowRayHit
  bowlRayPick state2 inp.bowlRayHit

/-- One collected droplet (Main.cpp 656-662 and 665-671, the same statements). -/
def collectDroplet (state : AppState) : AppState :=
  let state1 : AppState := { state with waterLevel := state.waterLevel + 3 / 2000 }
  if state1.waterLevel ≥ 1 then
    { state1 with waterLevel := 1, isOn := false, lockedByFullBowl := true }
  else state1

/-- One iteration of the frame loop (Main.cpp 297-688), on `AppState` and the
L latch, in source order. -/
def frameStep (fs : FrameState) (inp : FrameInput) : FrameState :=
  let clickStarted : Bool := inp.mouseDown && !fs.appState.prevMouseDown
  let lampDraw := shiftCircle inp.windowWidth inp.windowHeight lamp
  let tempArrowDraw := shiftRect inp.windowWidth inp.windowHeight tempArrowButton
  let clicked := arrowClick fs.appState clickStarted inp.mouseX inp.mouseY tempArrowDraw
  let state1 := handlePowerToggle clicked.1 inp.mouseX inp.mouseY inp.mouseDown lampDraw
  let state2 := handleTemperatureInput state1 inp.upPressed inp.downPressed
  let state3 := updateVent state2 inp.deltaTime
  let state4 := updateTemperature state3 inp.deltaTime
  let state5 := updateWater state4 inp.deltaTime inp.spacePressed inp.facingDot
  let state6 := lKeyToggle state5 inp.lPressed fs.prevLPressed
  let state7 := if clickStarted = true then rayPick state6 clicked.2 inp else state6
  let state8 := collectDroplet^[inp.dropletsCollected] state7
  { appState := state8, prevLPressed := inp.lPressed }

/-- The frame loop run over a list of per-frame inputs. -/
def runFrames (fs : FrameState) (inputs : List FrameInput) : FrameState :=
  inputs.foldl frameStep fs

/-- The property "not (isOn and lockedByFullBowl)". -/
def lockImpliesOff (state : AppState) : Prop :=
  ¬ (state.isOn = true ∧ state.lockedByFullBowl = true)

instance (state : AppState) : Decidable (lockImpliesOff state) := by
  unfold lockImpliesOff; infer_instance

/-! ## Runs and scenario states -/

/-- A run of `updateWater` calls with Space never pressed, all with the same
`deltaTime`: one call per element of `dots`, the orientation value at that
call. -/
def waterSteps (deltaTime : ℚ) (dots : List ℚ) (state : AppState) : AppState :=
  dots.foldl (fun st d => updateWater st deltaTime false d) state

/-- A run of `n` calls of `handleTemperatureInput` with the same key states. -/
def tempInputSteps (upPressed downPressed : Bool) (n : ℕ) (state : AppState) : AppState :=
  (fun st => handleTemperatureInput st upPressed downPressed)^[n] state

/-- The start state of the end-to-end scenarios of section 8 of the
specification: on and unlocked as `main` sets it (Main.cpp 279-281), empty
bowl, `desiredTemp = 20`, `tempChangeStep = 1`, `waterFillPerSecond = 0.1`.
The default member initialisers of `State.h` are not among the sources; the
remaining values are placeholders. -/
def scenarioState : AppState :=
  { isOn := true, lockedByFullBowl := false, ventOpenness := 0, desiredTemp := 20,
    currentTemp := 20, waterLevel := 0, holdingBowl := false, prevMouseDown := false,
    prevUpPressed := false, prevDownPressed := false, prevSpacePressed := false,
    waterAccum := 0, tempChangeStep := 1, ventAnimSpeed := 1, tempDriftSpeed := 1,
    waterFillPerSecond := 1 / 10 }

/-- The state `scenarioState` reaches when the bowl is full: off, locked,
`waterLevel = 1`. -/
def fullBowlState : AppState :=
  { scenarioState with isOn := false, lockedByFullBowl := true, waterLevel := 1 }

/-- A frame in which nothing is pressed and no droplet is collected, lasting
`deltaTime` seconds, in a 1920 x 1080 window. -/
def idleFrame (deltaTime : ℚ) : FrameInput :=
  { deltaTime := deltaTime, mouseX := 0, mouseY := 0, mouseDown := false, upPressed := false,
    downPressed := false, spacePressed := false, lPressed := false, windowWidth := 1920,
    windowHeight := 1080, facingDot := 0, lampRayHit := false, topArrowRayHit := false,
    botArrowRayHit := false, bowlRayHit := false, dropletsCollected := 0 }

/-- A frame in which only the L key is down. -/
def lKeyFrame (deltaTime : ℚ) : FrameInput :=
  { idleFrame deltaTime with lPressed := true }

/-- The frame state `main` starts the loop with, over `scenarioState`. -/
def startFrameState : FrameState :=
  { appState := scenarioState, prevLPressed := false }

/-- An on, unlocked state one droplet away from capacity. -/
def nearlyFullState : AppState :=
  { scenarioState with waterLevel := 999 / 1000 }

/-- A cool room for the drift scenario: target 20, current 17, drift speed 2. -/
def coolRoomState : AppState :=
  { scenarioState with currentTemp := 17, tempDriftSpeed := 2 }

/-- The relation kept between a run of `updateWater` at `deltaTime = 1/k` and
a run at `deltaTime = 1` each time a whole second has passed: the same level,
flags and fill rate, and, while the appliance is active, no carry in
`waterAccum` on either side and a level below capacity or a non-negative fill
rate. -/
def fillAligned (a b : AppState) : Prop :=
  a.waterLevel = b.waterLevel ∧ a.isOn = b.isOn ∧ a.lockedByFullBowl = b.lockedByFullBowl ∧
  a.waterFillPerSecond = b.waterFillPerSecond ∧
  (a.isOn = true → a.lockedByFullBowl = false →
    a.waterAccum = 0 ∧ b.waterAccum = 0 ∧ (a.waterLevel < 1 ∨ 0 ≤ a.waterFillPerSecond))

/-! ## Scenario states and frames for the click handling -/

/-- A frame whose only input is a click start at the window centre with the
pick ray through the lamp sphere. -/
def lampRayFrame (deltaTime : ℚ) : FrameInput :=
  { idleFrame deltaTime with mouseX := 960, mouseY := 540, mouseDown := true, lampRayHit := true }

/-- A frame whose only input is a click start at the window centre with the
pick ray through the bowl volume. -/
def bowlRayFrame (deltaTime : ℚ) : FrameInput :=
  { idleFrame deltaTime with mouseX := 960, mouseY := 540, mouseDown := true, bowlRayHit := true }

/-- An off, unlocked state whose bowl holds 0.99, below capacity. -/
def almostFullOffState : AppState :=
  { scenarioState with isOn := false, waterLevel := 99 / 100 }

/-- An on, unlocked state in which the bowl is held and half full. -/
def heldHalfFullState : AppState :=
  { scenarioState with holdingBowl := true, waterLevel := 1 / 2 }

/-- The gate of the Space branch of `updateWater` (State.cpp 80-104): a rising
edge of Space with the bowl held, and the orientation asked for by the level:
`dot <= -0.9` at `waterLevel >= 0.99` (empty the bowl), `dot >= 0.9` below
(return the bowl). -/
def spaceGate (state : AppState) (spacePressed : Bool) (dot : ℚ) : Prop :=
  spacePressed = true ∧ state.prevSpacePressed = false ∧ state.holdingBowl = true ∧
    ((99 / 100 ≤ state.waterLevel ∧ dot ≤ -(9 / 10)) ∨
      (state.waterLevel < 99 / 100 ∧ 9 / 10 ≤ dot))

instance (state : AppState) (spacePressed : Bool) (dot : ℚ) :
    Decidable (spaceGate state spacePressed dot) := by
  unfold spaceGate; infer_instance

/-- Both temperatures within [-10, 40]. -/
def tempsInRange (state : AppState) : Prop :=
  (-10 ≤ state.currentTemp ∧ state.currentTemp ≤ 40) ∧
    (-10 ≤ state.desiredTemp ∧ state.desiredTemp ≤ 40)

instance (state : AppState) : Decidable (tempsInRange state) := by
  unfold tempsInRange; infer_instance

/-! ## Pixel-to-world mapping (`Main.cpp`) -/

/-- A `glm::vec3` with exact components. -/
structure Vec3 where
  x : ℚ
  y : ℚ
  z : ℚ
deriving DecidableEq, Repr

/-- The lambda `mapToAC` (Main.cpp 725-732) in a window of the given size: it
captures `acBodyDraw`, the AC body shifted by the centring offset of the
frame, and the layout constant `acBody`. -/
def mapToAC (windowWidth windowHeight : ℤ) (px py zOffsetFront : ℚ) : Vec3 :=
  let acBodyDraw := shiftRect windowWidth windowHeight acBody
  let acCenterX := acBodyDraw.x + acBodyDraw.w * (1 / 2)
  let acCenterY := acBodyDraw.y + acBodyDraw.h * (1 / 2)
  let localX := (px - acCenterX) * (240 / acBody.w)
  let localY := (acCenterY - py) * (100 / acBody.h)
  let z := zOffsetFront
  { x := localX, y := localY, z := z }

/-- The lamp position `lampWorldPos` of a frame (Main.cpp 444-450). -/
def lampWorldPos (windowWidth windowHeight : ℤ) : Vec3 :=
  let acBodyDraw := shiftRect windowWidth windowHeight acBody
  let lampDraw := shiftCircle windowWidth windowHeight lamp
  let acCenterX := acBodyDraw.x + acBodyDraw.w * (1 / 2)
  let acCenterY := acBodyDraw.y + acBodyDraw.h * (1 / 2)
  let lampLocalX := (lampDraw.x - acCenterX) * (240 / acBody.w)
  let lampLocalY := (acCenterY - lampDraw.y) * (100 / acBody.h)
  let lampLocalZ := 40 + 6
  { x := lampLocalX, y := lampLocalY, z := lampLocalZ }

/-! ## `Camera3D.cpp` -/

/-- The state of `Camera3D` (Header/Camera3D.h 20-39). `window_` records
whether the window pointer is non-null. -/
structure Camera3D where
  window_ : Bool
  width_ : ℤ
  height_ : ℤ
  posX_ : ℚ
  posY_ : ℚ
  posZ_ : ℚ
  yaw_ : ℚ
  pitch_ : ℚ
  lastX_ : ℚ
  lastY_ : ℚ
  firstMouse_ : Bool
  rotating_ : Bool
  orbitMode_ : Bool
  orbitRadius_ : ℚ
  orbitYaw_ : ℚ
  orbitPitch_ : ℚ
  sensitivity_ : ℚ
  fov_ : ℚ
  moveSpeed_ : ℚ
deriving DecidableEq, Repr

/-- The camera after its constructor (Camera3D.cpp 6-13) with the default
member initialisers of Header/Camera3D.h. -/
def initialCamera (width height : ℤ) : Camera3D :=
  { window_ := true, width_ := width, height_ := height, posX_ := 0, posY_ := 0, posZ_ := 600,
    yaw_ := -90, pitch_ := 0, lastX_ := 0, lastY_ := 0, firstMouse_ := true,
    rotating_ := false, orbitMode_ := false, orbitRadius_ := 600, orbitYaw_ := 0,
    orbitPitch_ := 0, sensitivity_ := 1 / 4, fov_ := 45, moveSpeed_ := 400 }

/-- The GLFW constant `GLFW_MOUSE_BUTTON_LEFT`. -/
def GLFW_MOUSE_BUTTON_LEFT : ℤ := 0

/-- The GLFW constant `GLFW_PRESS`. -/
def GLFW_PRESS : ℤ := 1

/-- `Camera3D::setWindowSize` (Camera3D.cpp 15-19). -/
def Camera3D.setWindowSize (cam : Camera3D) (w h : ℤ) : Camera3D :=
  { cam with width_ := w, height_ := h }

/-- The clamp `if (p > 89.0f) p = 89.0f; if (p < -89.0f) p = -89.0f;`
(Camera3D.cpp 45-46 and 54-55). -/
def clampPitch (p : ℚ) : ℚ :=
  let p1 := if p > 89 then 89 else p
  if p1 < -89 then -89 else p1

/-- `Camera3D::cursorPosCallback` (Camera3D.cpp 21-57). -/
def Camera3D.cursorPosCallback (cam : Camera3D) (xpos ypos : ℚ) : Camera3D :=
  if cam.firstMouse_ = true then
    { cam with lastX_ := xpos, lastY_ := ypos, firstMouse_ := false }
  else
    let xoffset := (xpos - cam.lastX_) * cam.sensitivity_
    let yoffset := (cam.lastY_ - ypos) * cam.sensitivity_
    let cam1 : Camera3D := { cam with lastX_ := xpos, lastY_ := ypos }
    if cam1.orbitMode_ = true then
      if cam1.rotating_ = true then
        { cam1 with
          orbitYaw_ := cam1.orbitYaw_ + xoffset * (1 / 2),
          orbitPitch_ := clampPitch (cam1.orbitPitch_ + yoffset * (1 / 2)) }
      else cam1
    else
      { cam1 with yaw_ := cam1.yaw_ + xoffset, pitch_ := clampPitch (cam1.pitch_ + yoffset) }

/-- `Camera3D::mouseButtonCallback` (Camera3D.cpp 59-69). -/
def Camera3D.mouseButtonCallback (cam : Camera3D) (button action _mods : ℤ) : Camera3D :=
  if button = GLFW_MOUSE_BUTTON_LEFT then
    let cam1 : Camera3D := { cam with rotating_ := decide (action = GLFW_PRESS) }
    if action = GLFW_PRESS then { cam1 with firstMouse_ := true } else cam1
  else cam

/-- `Camera3D::scrollCallback` (Camera3D.cpp 71-84). -/
def Camera3D.scrollCallback (cam : Camera3D) (_xoffset yoffset : ℚ) : Camera3D :=
  if cam.orbitMode_ = true then
    let r := cam.orbitRadius_ - yoffset * 20
    let r1 := if r < 50 then 50 else r
    let r2 := if r1 > 2000 then 2000 else r1
    { cam with orbitRadius_ := r2 }
  else
    let z := cam.posZ_ - yoffset * 20
    let z1 := if z < 1 then 1 else z
    { cam with posZ_ := z1 }

/-- What `Camera3D::update` reads besides the camera and `deltaTime`: the six
movement keys, and the values the trigonometric library calls return: `front`
and `right` (Camera3D.cpp 119-127) and the cosines and sines of the orbit
angles (Camera3D.cpp 152-156). -/
structure UpdateInput where
  keyW : Bool
  keyS : Bool
  keyA : Bool
  keyD : Bool
  keyQ : Bool
  keyE : Bool
  front : Vec3
  right : Vec3
  cosOrbitPitch : ℚ
  sinOrbitPitch : ℚ
  cosOrbitYaw : ℚ
  sinOrbitYaw : ℚ
deriving DecidableEq, Repr

/-- The statement group `posX_ += dx; posY_ += dy; posZ_ += dz;` of
`Camera3D::update`. -/
def Camera3D.addPos (cam : Camera3D) (dx dy dz : ℚ) : Camera3D :=
  { cam with posX_ := cam.posX_ + dx, posY_ := cam.posY_ + dy, posZ_ := cam.posZ_ + dz }

/-- The statement group `posX_ -= dx; posY_ -= dy; posZ_ -= dz;` of
`Camera3D::update`. -/
def Camera3D.subPos (cam : Camera3D) (dx dy dz : ℚ) : Camera3D :=
  { cam with posX_ := cam.posX_ - dx, posY_ := cam.posY_ - dy, posZ_ := cam.posZ_ - dz }

/-- The first-person movement of `Camera3D::update` (Camera3D.cpp 118-146):
the six key tests in source order. -/
def Camera3D.firstPersonMove (cam : Camera3D) (deltaTime : ℚ) (inp : UpdateInput) : Camera3D :=
  let velocity := cam.moveSpeed_ * deltaTime
  let c1 : Camera3D :=
    if inp.keyW = true then
      cam.addPos (inp.front.x * velocity) (inp.front.y * velocity) (inp.front.z * velocity)
    else cam
  let c2 : Camera3D :=
    if inp.keyS = true then
      c1.subPos (inp.front.x * velocity) (inp.front.y * velocity) (inp.front.z * velocity)
    else c1
  let c3 : Camera3D :=
    if inp.keyA = true then
      c2.subPos (inp.right.x * velocity) (inp.right.y * velocity) (inp.right.z * velocity)
    else c2
  let c4 : Camera3D :=
    if inp.keyD = true then
      c3.addPos (inp.right.x * velocity) (inp.right.y * velocity) (inp.right.z * velocity)
    else c3
  let c5 : Camera3D := if inp.keyQ = true then { c4 with posY_ := c4.posY_ + velocity } else c4
  if inp.keyE = true then { c5 with posY_ := c5.posY_ - velocity } else c5

/-- The orbit placement of `Camera3D::update` (Camera3D.cpp 152-156). -/
def Camera3D.orbitPlace (cam : Camera3D) (inp : UpdateInput) : Camera3D :=
  { cam with
    posX_ := cam.orbitRadius_ * inp.cosOrbitPitch * inp.cosOrbitYaw,
    posY_ := cam.orbitRadius_ * inp.sinOrbitPitch,
    posZ_ := cam.orbitRadius_ * inp.cosOrbitPitch * inp.sinOrbitYaw }

/-- `Camera3D::update` (Camera3D.cpp 113-158). -/
def Camera3D.update (cam : Camera3D) (deltaTime : ℚ) (inp : UpdateInput) : Camera3D :=
  let cam1 : Camera3D :=
    if cam.orbitMode_ = false ∧ cam.window_ = true then cam.firstPersonMove deltaTime inp
    else cam
  if cam1.orbitMode_ = true then cam1.orbitPlace inp else cam1

/-- `Camera3D::toggleMode` (Camera3D.cpp 160-165): no action in this build. -/
def Camera3D.toggleMode (cam : Camera3D) : Camera3D := cam

/-- The clamp ranges of the camera: both pitches within [-89, 89] and the
orbit radius within [50, 2000]. -/
def cameraClamped (cam : Camera3D) : Prop :=
  (-89 ≤ cam.pitch_ ∧ cam.pitch_ ≤ 89) ∧ (-89 ≤ cam.orbitPitch_ ∧ cam.orbitPitch_ ≤ 89) ∧
    (50 ≤ cam.orbitRadius_ ∧ cam.orbitRadius_ ≤ 2000)

instance (cam : Camera3D) : Decidable (cameraClamped cam) := by
  unfold cameraClamped; infer_instance

/-- An input of `update` with W and D held and axis-aligned directions. -/
def forwardRightInput : UpdateInput :=
  { keyW := true, keyS := false, keyA := false, keyD := true, keyQ := false, keyE := false,
    front := { x := 0, y := 0, z := -1 }, right := { x := 1, y := 0, z := 0 },
    cosOrbitPitch := 1, sinOrbitPitch := 0, cosOrbitYaw := 1, sinOrbitYaw := 0 }

/-! ## Render calls of a frame (`Main.cpp` 696-1099) -/

/-- The things a frame draws. -/
inductive Element
  | acBase
  | lid
  | vent
  | lampIcon
  | screen
  | arrowHalf
  | arrowGlyph
  | bowl
  | water
  | toilet
  | toiletTank
  | toiletSeat
  | statusIcon
  | statsText
  | depthText
  | cullText
deriving DecidableEq, Repr

/-- A render call issued by the frame loop: the `Renderer` method called and
what it draws. `render` is `Renderer::render()`, the scene-light marker;
`drawText` is `TextRenderer::drawText`; `nameplateQuad` is the `glDrawArrays`
of the nameplate overlay. -/
inductive DrawCall
  | drawCube (e : Element)
  | drawTexturedCube (e : Element)
  | drawParticle
  | drawHollowBoxAt (e : Element)
  | drawHollowCylinderAt (e : Element)
  | drawModel (e : Element)
  | render
  | drawText (e : Element)
  | nameplateQuad
deriving DecidableEq, Repr

/-- What the render part of a frame reads besides `AppState`: the number of
droplets alive after the particle update, whether the two temperature text
textures were created (`tempTex0 != 0`, `tempTex1 != 0`, asked for only when
the appliance is on), whether the toilet model was loaded
(`toiletModelId >= 0`), whether `frameStats` is empty and whether the
nameplate texture exists. -/
structure RenderInput where
  droplets : ℕ
  tempTex0Created : Bool
  tempTex1Created : Bool
  toiletModelLoaded : Bool
  frameStatsEmpty : Bool
  nameplateTexture : Bool
deriving DecidableEq, Repr

/-- The loop over the three screens (Main.cpp 763-791). -/
def screenDraws (state : AppState) (r : RenderInput) : List DrawCall :=
  let tempTex0 : Bool := state.isOn && r.tempTex0Created
  let tempTex1 : Bool := state.isOn && r.tempTex1Created
  [ (if tempTex0 = true then DrawCall.drawTexturedCube Element.screen
      else DrawCall.drawCube Element.screen),
    (if tempTex1 = true then DrawCall.drawTexturedCube Element.screen
      else DrawCall.drawCube Element.screen),
    DrawCall.drawCube Element.screen ]

/-- The lambda `drawArrowHalf` (Main.cpp 808-833): the button half and the six
glyph steps. -/
def arrowHalfDraws : List DrawCall :=
  DrawCall.drawCube Element.arrowHalf :: List.replicate 6 (DrawCall.drawCube Element.arrowGlyph)

/-- The bowl block (Main.cpp 839-951). -/
def bowlDraws (state : AppState) (r : RenderInput) : List DrawCall :=
  if state.holdingBowl = true then
    [DrawCall.drawHollowBoxAt Element.bowl] ++
      (if state.waterLevel > 0 then [DrawCall.drawCube Element.water] else [])
  else
    [DrawCall.drawHollowBoxAt Element.bowl] ++
      (if r.toiletModelLoaded = true then [DrawCall.drawModel Element.toilet]
        else [DrawCall.drawHollowCylinderAt Element.toilet, DrawCall.drawCube Element.toiletTank,
          DrawCall.drawCube Element.toiletSeat]) ++
      (if state.waterLevel > 0 then [DrawCall.drawCube Element.water] else [])

/-- The lambda `drawStatusIcon3D` (Main.cpp 972-1044). -/
def statusIconDraws (state : AppState) : List DrawCall :=
  let diff := state.desiredTemp - state.currentTemp
  if diff > 1 / 4 then List.replicate 5 (DrawCall.drawCube Element.statusIcon)
  else if diff < -(1 / 4) then
    [DrawCall.drawCube Element.statusIcon, DrawCall.drawCube Element.statusIcon]
  else [DrawCall.drawCube Element.statusIcon, DrawCall.drawCube Element.statusIcon]

/-- The text overlays and the nameplate (Main.cpp 1048-1103). -/
def textDraws (r : RenderInput) : List DrawCall :=
  if r.frameStatsEmpty = false then
    [DrawCall.drawText Element.statsText, DrawCall.drawText Element.depthText,
      DrawCall.drawText Element.cullText] ++
      (if r.nameplateTexture = true then [DrawCall.nameplateQuad] else [])
  else []

/-- The draws from the lid to the bowl block (Main.cpp 711-951). -/
def sceneDraws (state : AppState) (r : RenderInput) : List DrawCall :=
  [DrawCall.drawCube Element.lid, DrawCall.drawCube Element.vent,
    DrawCall.drawTexturedCube Element.lampIcon] ++
    screenDraws state r ++ arrowHalfDraws ++ arrowHalfDraws ++ bowlDraws state r

/-- The draws from the light marker on (Main.cpp 953-1103). -/
def overlayDraws (state : AppState) (r : RenderInput) : List DrawCall :=
  [DrawCall.render] ++ statusIconDraws state ++ textDraws r

/-- The render calls of one frame in the order the frame loop issues them
(Main.cpp 696-1103): the base cube, one `drawParticle` per droplet, the rest
of the scene, the overlays. -/
def frameDraws (state : AppState) (r : RenderInput) : List DrawCall :=
  [DrawCall.drawCube Element.acBase] ++ List.replicate r.droplets DrawCall.drawParticle ++
    sceneDraws state r ++ overlayDraws state r

/-- An overlay draw: light marker, status icon, text, nameplate. -/
def isOverlayDraw : DrawCall → Bool
  | DrawCall.render => true
  | DrawCall.drawCube Element.statusIcon => true
  | DrawCall.drawText _ => true
  | DrawCall.nameplateQuad => true
  | _ => false

/-- An opaque draw of the 3D scene: `drawCube`, `drawTexturedCube`,
`drawModel`, hollow box or cylinder, other than an overlay. -/
def isOpaqueSceneDraw (c : DrawCall) : Bool :=
  !(isOverlayDraw c) && decide (c ≠ DrawCall.drawParticle)

/-- The order "opaque scene, then particles, then overlays": no opaque scene
draw after a `drawParticle`, no `drawParticle` after an overlay draw. -/
def opaqueParticlesOverlays (l : List DrawCall) : Prop :=
  l.Pairwise (fun a b => ¬ (a = DrawCall.drawParticle ∧ isOpaqueSceneDraw b = true)) ∧
    l.Pairwise (fun a b => ¬ (isOverlayDraw a = true ∧ b = DrawCall.drawParticle))

/-- The pass a draw belongs to in the order the frame loop follows: 0 the base
cube, 1 the particles, 2 the rest of the opaque scene, 3 the overlays. -/
def drawPass (c : DrawCall) : ℕ :=
  if c = DrawCall.drawCube Element.acBase then 0
  else if c = DrawCall.drawParticle then 1
  else if isOverlayDraw c = true then 3
  else 2

/-- A frame with one droplet alive, the toilet model loaded and all overlays
shown. -/
def oneDropletRender : RenderInput :=
  { droplets := 1, tempTex0Created := true, tempTex1Created := true, toiletModelLoaded := true,
    frameStatsEmpty := false, nameplateTexture := true }

/-! ## Ray/box slab test (`Main.cpp` 525-540)

In the slab test a zero direction component makes `1.0f / d` an IEEE
infinity, so the values of the test are finite numbers (exact), the two
infinities, or NaN. -/

/-- A float value of the slab test. -/
inductive FVal
  | fin (q : ℚ)
  | posInf
  | negInf
  | nan
deriving DecidableEq, Repr

/-- The IEEE comparison `a < b`: false as soon as one side is NaN. -/
def FVal.lt : FVal → FVal → Bool
  | FVal.fin a, FVal.fin b => decide (a < b)
  | FVal.fin _, FVal.posInf => true
  | FVal.negInf, FVal.fin _ => true
  | FVal.negInf, FVal.posInf => true
  | _, _ => false

/-- The IEEE comparison `a <= b`: false as soon as one side is NaN. -/
def FVal.le : FVal → FVal → Bool
  | FVal.fin a, FVal.fin b => decide (a ≤ b)
  | FVal.fin _, FVal.posInf => true
  | FVal.negInf, FVal.fin _ => true
  | FVal.negInf, FVal.posInf => true
  | FVal.posInf, FVal.posInf => true
  | FVal.negInf, FVal.negInf => true
  | _, _ => false

/-- The quotient `1.0f / d`: for `d = 0` the infinity with the sign of the
zero (`negZero` is the sign bit of a zero `d`). -/
def FVal.recip (d : ℚ) (negZero : Bool) : FVal :=
  if d = 0 then (if negZero = true then FVal.negInf else FVal.posInf) else FVal.fin (1 / d)

/-- The product of a finite float `x` with a slab value: `0 * inf` is NaN. -/
def FVal.scale (x : ℚ) : FVal → FVal
  | FVal.fin v => FVal.fin (x * v)
  | FVal.posInf => if 0 < x then FVal.posInf else if x < 0 then FVal.negInf else FVal.nan
  | FVal.negInf => if 0 < x then FVal.negInf else if x < 0 then FVal.posInf else FVal.nan
  | FVal.nan => FVal.nan

/-- `std::max(a, b)`, that is `(a < b) ? b : a`. -/
def FVal.max (a b : FVal) : FVal := if a.lt b = true then b else a

/-- `std::min(a, b)`, that is `(b < a) ? b : a`. -/
def FVal.min (a b : FVal) : FVal := if b.lt a = true then b else a

/-- The component `(&v.x)[i]` of a vector, for `i` = 0, 1, 2. -/
def Vec3.comp (v : Vec3) : ℕ → ℚ
  | 0 => v.x
  | 1 => v.y
  | _ => v.z

/-- The difference of two vectors. -/
def Vec3.sub (a b : Vec3) : Vec3 := { x := a.x - b.x, y := a.y - b.y, z := a.z - b.z }

/-- The sum of two vectors. -/
def Vec3.add (a b : Vec3) : Vec3 := { x := a.x + b.x, y := a.y + b.y, z := a.z + b.z }

/-- A vector scaled by a number. -/
def Vec3.smul (s : ℚ) (v : Vec3) : Vec3 := { x := s * v.x, y := s * v.y, z := s * v.z }

/-- The sign bits of the direction components, read only where a component
is zero. -/
structure ZeroSigns where
  x : Bool
  y : Bool
  z : Bool
deriving DecidableEq, Repr

/-- The sign bit of component `i`. -/
def ZeroSigns.comp (zs : ZeroSigns) : ℕ → Bool
  | 0 => zs.x
  | 1 => zs.y
  | _ => zs.z

/-- The body of the slab loop for axis `i` without the `break`
(Main.cpp 531-536), on the pair (`tmin`, `tmax`), in exact arithmetic;
`slabAxisF32` is the body with the rounding of binary32. -/
def slabAxis (rayOrigin rayDir : Vec3) (dirSigns : ZeroSigns) (minB maxB : Vec3) (i : ℕ)
    (t : FVal × FVal) : FVal × FVal :=
  let invD := FVal.recip (rayDir.comp i) (dirSigns.comp i)
  let t0 := FVal.scale (minB.comp i - rayOrigin.comp i) invD
  let t1 := FVal.scale (maxB.comp i - rayOrigin.comp i) invD
  let t0s := if invD.lt (FVal.fin 0) = true then t1 else t0
  let t1s := if invD.lt (FVal.fin 0) = true then t0 else t1
  (FVal.max t.1 t0s, FVal.min t.2 t1s)

/-- The slab loop from axis `i` with `n` axes left (Main.cpp 530-538), `break`
included. -/
def slabLoop (rayOrigin rayDir : Vec3) (dirSigns : ZeroSigns) (minB maxB : Vec3) :
    ℕ → ℕ → FVal × FVal → FVal × FVal
  | 0, _, t => t
  | n + 1, i, t =>
    let t1 := slabAxis rayOrigin rayDir dirSigns minB maxB i t
    if FVal.le t1.2 t1.1 = true then t1
    else slabLoop rayOrigin rayDir dirSigns minB maxB n (i + 1) t1

/-- The pair (`tmin`, `tmax`) the lambda `hitAABB` ends its loop with
(Main.cpp 527-538). -/
def slabBounds (rayOrigin rayDir : Vec3) (dirSigns : ZeroSigns) (center halfExtents : Vec3) :
    FVal × FVal :=
  let minB := center.sub halfExtents
  let maxB := center.add halfExtents
  slabLoop rayOrigin rayDir dirSigns minB maxB 3 0 (FVal.fin 0, FVal.fin 1000000000)

/-- The lambda `hitAABB` (Main.cpp 525-540); it captures the pick ray. -/
def hitAABB (rayOrigin rayDir : Vec3) (dirSigns : ZeroSigns) (center halfExtents : Vec3) :
    Bool :=
  let t := slabBounds rayOrigin rayDir dirSigns center halfExtents
  t.1.lt t.2 && (FVal.fin 0).lt t.2

/-- The unit box at the origin of the world. -/
def unitBoxHalf : Vec3 := { x := 1, y := 1, z := 1 }

/-- The world origin. -/
def worldOrigin : Vec3 := { x := 0, y := 0, z := 0 }

/-- All sign bits clear. -/
def plusZeros : ZeroSigns := { x := false, y := false, z := false }

/-- A ray origin ten units in front of the world origin. -/
def nearOrigin : Vec3 := { x := 0, y := 0, z := 10 }

/-- The four `if` statements that update `lidAngle` (Main.cpp 693-694), in
source order, for a given target angle and angular speed. -/
def lidStep (targetAngle angSpeed lidAngle deltaTime : ℚ) : ℚ :=
  let l1 := if lidAngle < targetAngle then lidAngle + angSpeed * deltaTime else lidAngle
  let l2 := if l1 > targetAngle then targetAngle else l1
  let l3 := if l2 > targetAngle then l2 - angSpeed * deltaTime else l2
  if l3 < targetAngle then targetAngle else l3

/-- The lid-angle update of a frame (Main.cpp 690-694): target 60 when the
appliance is on, else 0, speed 90 degrees per second. -/
def lidUpdate (state : AppState) (lidAngle deltaTime : ℚ) : ℚ :=
  let targetAngle : ℚ := if state.isOn = true then 60 else 0
  let angSpeed : ℚ := 90
  lidStep targetAngle angSpeed lidAngle deltaTime

/-- An on state that is locked with the full bowl in hand (the state an L-key
frame leaves behind once the bowl has been picked up). -/
def lockedOnHeldFullState : AppState :=
  { scenarioState with lockedByFullBowl := true, holdingBowl := true, waterLevel := 1 }

/-- The test under which `handlePowerToggle` flips `isOn` on a click start
(State.cpp 12-18, called at Main.cpp 410 with the centred lamp circle): the
cursor is inside the 2D lamp circle and the appliance is not locked. -/
def lampClickFires (fs : FrameState) (inp : FrameInput) : Prop :=
  let lampDraw := shiftCircle inp.windowWidth inp.windowHeight lamp
  let dx := inp.mouseX - lampDraw.x
  let dy := inp.mouseY - lampDraw.y
  dx * dx + dy * dy ≤ lampDraw.radius * lampDraw.radius ∧ fs.appState.lockedByFullBowl = false

instance (fs : FrameState) (inp : FrameInput) : Decidable (lampClickFires fs inp) := by
  unfold lampClickFires; infer_instance

/-- An off, unlocked state one fill step below capacity, with a carry of 0.99. -/
def lastStepOffState : AppState :=
  { scenarioState with isOn := false, waterLevel := 9 / 10, waterAccum := 99 / 100 }

/-- A frame whose only input is a click start at the centre of the 2D lamp
circle of a 1920 x 1080 window, the pick ray missing the lamp sphere. -/
def lampClickFrame (deltaTime : ℚ) : FrameInput :=
  { idleFrame deltaTime with mouseX := 1156, mouseY := 484, mouseDown := true }

/-! ## Pick volumes and drawn geometry -/

/-- A cube draw: the model matrix `translate(pos) * scale(size)` handed to
`drawCube`. -/
structure CubeModel where
  pos : Vec3
  size : Vec3
deriving DecidableEq, Repr

/-- Centre of a drawn cube: the cube of `Renderer.cpp` 37-80 is centred at the
origin, so the model matrix moves its centre to `pos`. -/
def CubeModel.center (m : CubeModel) : Vec3 := m.pos

/-- Half-extents of a drawn cube: the faces of the cube of `Renderer.cpp` 37-80
are at -0.5 and 0.5 on each axis. -/
def CubeModel.halfExtents (m : CubeModel) : Vec3 := Vec3.smul (1 / 2) m.size

/-- The arguments of a `drawHollowBoxAt` call (the colour left out). -/
structure HollowBoxArgs where
  center : Vec3
  width : ℚ
  height : ℚ
  depth : ℚ
  thickness : ℚ
deriving DecidableEq, Repr

/-- `Renderer::drawHollowBoxAt` (Renderer.cpp 209-239): the five cubes it
draws, in order bottom, left, right, front, back. -/
def drawHollowBoxAt (a : HollowBoxArgs) : List CubeModel :=
  [ { pos := { x := a.center.x, y := a.center.y - a.height * (1 / 2) + a.thickness * (1 / 2),
               z := a.center.z },
      size := { x := a.width, y := a.thickness, z := a.depth } },
    { pos := { x := a.center.x - a.width * (1 / 2) + a.thickness * (1 / 2), y := a.center.y,
               z := a.center.z },
      size := { x := a.thickness, y := a.height - a.thickness, z := a.depth } },
    { pos := { x := a.center.x + a.width * (1 / 2) - a.thickness * (1 / 2), y := a.center.y,
               z := a.center.z },
      size := { x := a.thickness, y := a.height - a.thickness, z := a.depth } },
    { pos := { x := a.center.x, y := a.center.y,
               z := a.center.z + a.depth * (1 / 2) - a.thickness * (1 / 2) },
      size := { x := a.width - a.thickness * 2, y := a.height - a.thickness,
                z := a.thickness } },
    { pos := { x := a.center.x, y := a.center.y,
               z := a.center.z - a.depth * (1 / 2) + a.thickness * (1 / 2) },
      size := { x := a.width - a.thickness * 2, y := a.height - a.thickness,
                z := a.thickness } } ]

/-- The order of vectors component by component. -/
def Vec3.le (a b : Vec3) : Prop := a.x ≤ b.x ∧ a.y ≤ b.y ∧ a.z ≤ b.z

/-- A `glm::vec2`. -/
structure Vec2 where
  x : ℚ
  y : ℚ
deriving DecidableEq, Repr

/-- The three integers `vi`, `ti`, `ni` that `process` reads from one face
token with `find` and `atoi` (Renderer.cpp 284-296); a part that is absent
reads as 0. -/
structure FaceRef where
  vi : ℤ
  ti : ℤ
  ni : ℤ
deriving DecidableEq, Repr

/-- What `process` reads from the empty string: `atoi("")` is 0. -/
def emptyRef : FaceRef := { vi := 0, ti := 0, ni := 0 }

/-- One line of an OBJ file as the `if` chain of the read loop classifies it
(Renderer.cpp 269-278): a `v `, `vn `, `vt ` or `f ` line with the values
parsed from it, or a line the loop skips. The tokens of a face line are the
whitespace-separated strings after `f `, each read as a `FaceRef`. -/
inductive ObjLine where
  | position (v : Vec3)
  | normal (n : Vec3)
  | texcoord (t : Vec2)
  | face (tokens : List FaceRef)
  | other
deriving DecidableEq, Repr

/-- The vectors of the read loop. -/
structure ObjState where
  positions : List Vec3
  normals : List Vec3
  texcoords : List Vec2
  interleaved : List ℚ
deriving DecidableEq, Repr

/-- The index computation of `process` for one reference against a vector of
`n` elements (Renderer.cpp 298-301, the same statements at 302-305 and
306-309): the index `idx` at which the vector is read, or `none` when it is not
read. -/
def resolveIndex (ref : ℤ) (n : ℕ) : Option ℤ :=
  if ref ≠ 0 then
    let idx : ℤ := if ref > 0 then ref - 1 else (n : ℤ) + ref
    if 0 ≤ idx ∧ idx < (n : ℤ) then some idx else none
  else none

/-- The value `process` takes for one reference: the element at the resolved
index, or the initial value `zero` when the vector is not read. -/
def fetch {α : Type} (elems : List α) (zero : α) (ref : ℤ) : α :=
  match resolveIndex ref elems.length with
  | some idx => elems.getD idx.toNat zero
  | none => zero

/-- The eight floats `process` pushes for one token (Renderer.cpp 297-313):
position, normal, texture coordinate. -/
def vertexOf (st : ObjState) (tok : FaceRef) : List ℚ :=
  let pos := fetch st.positions { x := 0, y := 0, z := 0 } tok.vi
  let tex := fetch st.texcoords { x := 0, y := 0 } tok.ti
  let nor := fetch st.normals { x := 0, y := 0, z := 0 } tok.ni
  [pos.x, pos.y, pos.z, nor.x, nor.y, nor.z, tex.x, tex.y]

/-- The lambda `process` (Renderer.cpp 283-314). -/
def process (st : ObjState) (tok : FaceRef) : ObjState :=
  { st with interleaved := st.interleaved ++ vertexOf st tok }

/-- The body of the read loop for one line (Renderer.cpp 269-321). On a face
line `a`, `b`, `c`, `d` are the first four tokens, empty when absent. -/
def objLine (st : ObjState) (line : ObjLine) : ObjState :=
  match line with
  | ObjLine.position v => { st with positions := st.positions ++ [v] }
  | ObjLine.normal n => { st with normals := st.normals ++ [n] }
  | ObjLine.texcoord t => { st with texcoords := st.texcoords ++ [t] }
  | ObjLine.face tokens =>
    let a := tokens.getD 0 emptyRef
    let b := tokens.getD 1 emptyRef
    let c := tokens.getD 2 emptyRef
    let d := tokens.getD 3 emptyRef
    let st1 := process (process (process st a) b) c
    if 4 ≤ tokens.length then process (process (process st1 a) c) d else st1
  | ObjLine.other => st

/-- The struct `ModelMesh` (Renderer.h 63) without the two GL object names. -/
structure ModelMesh where
  vertCount : ℤ
deriving DecidableEq, Repr

/-- `Renderer::loadOBJModel` (Renderer.cpp 259-343): the returned id and the
vector `models_` after the call. `file` is `none` when the stream fails to
open, else the lines of the file. -/
def loadOBJModel (file : Option (List ObjLine)) (models_ : List ModelMesh) :
    ℤ × List ModelMesh :=
  match file with
  | none => (-1, models_)
  | some lines =>
    let st := lines.foldl objLine
      { positions := [], normals := [], texcoords := [], interleaved := [] }
    if st.interleaved = [] then (-1, models_)
    else
      let m : ModelMesh := { vertCount := ((st.interleaved.length / 8 : ℕ) : ℤ) }
      let models1 := models_ ++ [m]
      ((models1.length : ℤ) - 1, models1)

/-- A face line with exactly `k` vertex references. -/
def isFaceOf (k : ℕ) (line : ObjLine) : Bool :=
  match line with
  | ObjLine.face tokens => decide (tokens.length = k)
  | _ => false

/-- A face line. -/
def isFace (line : ObjLine) : Bool :=
  match line with
  | ObjLine.face _ => true
  | _ => false

/-! ## Slab test: the loop without the `break`, and the inline bowl test -/

/-- A pick ray along the diagonal (1, 1, 1). -/
def diagonalDir : Vec3 := { x := 1, y := 1, z := 1 }

/-- A ray origin on the diagonal, at (-2, -2, -2). -/
def diagonalOrigin : Vec3 := { x := -2, y := -2, z := -2 }

/-! ## The lamp ray/sphere test (`Main.cpp` 506-523) -/

/-- `glm::dot` of two vectors. -/
def Vec3.dot (a b : Vec3) : ℚ := a.x * b.x + a.y * b.y + a.z * b.z

/-- The radius `lampRadius` of the lamp sphere of a frame (Main.cpp 507). -/
def lampRadius (windowWidth windowHeight : ℤ) : ℚ :=
  let lampDraw := shiftCircle windowWidth windowHeight lamp
  (lampDraw.radius * 2 * (240 / acBody.w)) * (1 / 2)

/-- The coefficients and the discriminant of the lamp test. -/
structure LampQuadratic where
  a : ℚ
  b : ℚ
  c : ℚ
  disc : ℚ
deriving DecidableEq, Repr

/-- The values `a`, `b`, `c`, `disc` of the lamp test (Main.cpp 508-512). -/
def lampQuadratic (rayOrigin rayDir lampWorldPos : Vec3) (lampRadius : ℚ) : LampQuadratic :=
  let L := rayOrigin.sub lampWorldPos
  let a := rayDir.dot rayDir
  let b := 2 * rayDir.dot L
  let c := L.dot L - lampRadius * lampRadius
  let disc := b * b - 4 * a * c
  { a := a, b := b, c := c, disc := disc }

/-- The two nested conditions under which the lamp test toggles power
(Main.cpp 513-515): `disc >= 0` and the near root
`t = (-b - sqrt(disc)) / (2 * a)` positive; `sqrt` is the real square root. -/
def lampRayAccepts (rayOrigin rayDir lampWorldPos : Vec3) (lampRadius : ℚ) : Prop :=
  let q := lampQuadratic rayOrigin rayDir lampWorldPos lampRadius
  q.disc ≥ 0 ∧ (-(q.b : ℝ) - Real.sqrt (q.disc : ℝ)) / (2 * (q.a : ℝ)) > 0

/-- The ray origin lies strictly outside the sphere. -/
def originOutsideSphere (rayOrigin center : Vec3) (radius : ℚ) : Prop :=
  radius * radius < (rayOrigin.sub center).dot (rayOrigin.sub center)

/-- The point `rayOrigin + t * rayDir`, `t` real, lies in the closed ball. -/
def rayPointInBall (rayOrigin rayDir center : Vec3) (radius : ℚ) (t : ℝ) : Prop :=
  ((rayOrigin.x : ℝ) + t * (rayDir.x : ℝ) - (center.x : ℝ)) ^ 2 +
    ((rayOrigin.y : ℝ) + t * (rayDir.y : ℝ) - (center.y : ℝ)) ^ 2 +
    ((rayOrigin.z : ℝ) + t * (rayDir.z : ℝ) - (center.z : ℝ)) ^ 2 ≤ (radius : ℝ) ^ 2

/-- A pick ray straight down the z axis. -/
def towardOriginDir : Vec3 := { x := 0, y := 0, z := -1 }

/-! ## binary32 rounding

The definitions above take the `float` operations of the program as exact
operations on rationals. The definitions of this section round: they are used
where the rounding of a single operation decides a discrete outcome (whether a
loop ends, how many calls a run takes, whether a ray hits). -/

/-- Round to the nearest integer, ties to the even one. -/
def roundHalfEven (x : ℚ) : ℤ :=
  let f := ⌊x⌋
  let r := x - f
  if r < 1 / 2 then f
  else if 1 / 2 < r then f + 1
  else if f % 2 = 0 then f else f + 1

/-- The exponent of the binade of `q` in binary32: `floor (log2 |q|)`, and
-126 for every smaller value (the subnormal range has the spacing of the
lowest binade). -/
def f32Exp (q : ℚ) : ℤ := max (Int.log 2 |q|) (-126)

/-- The result of a binary32 operation whose exact result is `q`: IEEE 754
round to nearest, ties to even, 24-bit significand. Overflow to infinity is
left out: no value rounded in this file reaches 2^128. -/
def f32 (q : ℚ) : ℚ :=
  let ulp : ℚ := 2 ^ (f32Exp q - 23)
  (roundHalfEven (q / ulp) : ℚ) * ulp

/-- A binary32 value: `m * 2^j` with a significand of at most 24 bits and an
exponent not below that of the subnormals. -/
def isF32 (q : ℚ) : Prop := ∃ m j : ℤ, |m| ≤ 2 ^ 24 ∧ -149 ≤ j ∧ q = (m : ℚ) * (2 : ℚ) ^ j

/-- The `while (state.waterAccum >= 1.0f)` loop of `updateWater`
(State.cpp 115-119) in binary32, on (`waterAccum`, `waterLevel`): both
assignments round. Every test of the loop condition takes one unit of `fuel`;
the result is `none` when the fuel runs out before the loop ends, else the
values on exit and the number of passes through the body. -/
def fillLoopF32 (waterFillPerSecond : ℚ) : ℕ → ℚ → ℚ → Option (ℚ × ℚ × ℕ)
  | 0, _, _ => none
  | fuel + 1, waterAccum, waterLevel =>
    if 1 ≤ waterAccum then
      (fillLoopF32 waterFillPerSecond fuel (f32 (waterAccum - 1))
        (f32 (waterLevel + waterFillPerSecond))).map fun r => (r.1, r.2.1, r.2.2 + 1)
    else some (waterAccum, waterLevel, 0)

/-- The fill step of `updateWater` (State.cpp 112-120) in binary32:
`waterAccum += deltaTime` rounds, then the loop runs. -/
def fillStepF32 (fuel : ℕ) (state : AppState) (deltaTime : ℚ) : Option AppState :=
  if state.isOn = true ∧ state.lockedByFullBowl = false then
    (fillLoopF32 state.waterFillPerSecond fuel (f32 (state.waterAccum + deltaTime))
      state.waterLevel).map fun r => { state with waterAccum := r.1, waterLevel := r.2.1 }
  else some state

/-- `updateWater` (State.cpp 77-134) in binary32: the Space branch and the cap
only compare and assign constants, the fill step rounds. The result is `none`
when the fill loop does not end within `fuel` tests of its condition. -/
def updateWaterF32 (fuel : ℕ) (state : AppState) (deltaTime : ℚ) (spacePressed : Bool)
    (dot : ℚ) : Option AppState :=
  let state1 := spaceAction state spacePressed dot
  (fillStepF32 fuel state1 deltaTime).map fun state2 =>
    { capAndLock state2 with prevSpacePressed := spacePressed }

/-- The binary32 value nearest to 1/75 s, the frame time at 75 frames a
second: 14316558 * 2^-30. -/
def frame75 : ℚ := 14316558 / 1073741824

/-- The quotient `1.0f / d` in binary32. -/
def FVal.recipF32 (d : ℚ) (negZero : Bool) : FVal :=
  if d = 0 then (if negZero = true then FVal.negInf else FVal.posInf)
  else FVal.fin (f32 (1 / d))

/-- The product of a finite float `x` with a slab value in binary32. -/
def FVal.scaleF32 (x : ℚ) : FVal → FVal
  | FVal.fin v => FVal.fin (f32 (x * v))
  | FVal.posInf => if 0 < x then FVal.posInf else if x < 0 then FVal.negInf else FVal.nan
  | FVal.negInf => if 0 < x then FVal.negInf else if x < 0 then FVal.posInf else FVal.nan
  | FVal.nan => FVal.nan

/-- A vector with every component rounded to binary32. -/
def Vec3.f32 (v : Vec3) : Vec3 := { x := ACSim.f32 v.x, y := ACSim.f32 v.y, z := ACSim.f32 v.z }

/-- The body of the slab loop for axis `i` (Main.cpp 531-536) in binary32:
the two differences, the quotient and the two products round. -/
def slabAxisF32 (rayOrigin rayDir : Vec3) (dirSigns : ZeroSigns) (minB maxB : Vec3) (i : ℕ)
    (t : FVal × FVal) : FVal × FVal :=
  let invD := FVal.recipF32 (rayDir.comp i) (dirSigns.comp i)
  let t0 := FVal.scaleF32 (ACSim.f32 (minB.comp i - rayOrigin.comp i)) invD
  let t1 := FVal.scaleF32 (ACSim.f32 (maxB.comp i - rayOrigin.comp i)) invD
  let t0s := if invD.lt (FVal.fin 0) = true then t1 else t0
  let t1s := if invD.lt (FVal.fin 0) = true then t0 else t1
  (FVal.max t.1 t0s, FVal.min t.2 t1s)

/-- The slab loop from axis `i` with `n` axes left (Main.cpp 530-538) in
binary32, `break` included. -/
def slabLoopF32 (rayOrigin rayDir : Vec3) (dirSigns : ZeroSigns) (minB maxB : Vec3) :
    ℕ → ℕ → FVal × FVal → FVal × FVal
  | 0, _, t => t
  | n + 1, i, t =>
    let t1 := slabAxisF32 rayOrigin rayDir dirSigns minB maxB i t
    if FVal.le t1.2 t1.1 = true then t1
    else slabLoopF32 rayOrigin rayDir dirSigns minB maxB n (i + 1) t1

/-- The lambda `hitAABB` (Main.cpp 525-540) in binary32. -/
def hitAABBF32 (rayOrigin rayDir : Vec3) (dirSigns : ZeroSigns) (center halfExtents : Vec3) :
    Bool :=
  let minB := (center.sub halfExtents).f32
  let maxB := (center.add halfExtents).f32
  let t := slabLoopF32 rayOrigin rayDir dirSigns minB maxB 3 0 (FVal.fin 0, FVal.fin 1000000000)
  t.1.lt t.2 && (FVal.fin 0).lt t.2

/-- A ray origin 1e8 in front of the world origin. -/
def distantOrigin : Vec3 := { x := 0, y := 0, z := 100000000 }

/-- What the format asks of the value `v` taken for a reference `ref` against
the elements parsed so far: element `ref - 1` for `1 <= ref <= n`, element
`n + ref` for `-n <= ref <= -1`, and `zero` for 0 or an out-of-range
reference. -/
def resolvesTo {α : Type} (elems : List α) (zero : α) (ref : ℤ) (v : α) : Prop :=
  (1 ≤ ref ∧ ref ≤ (elems.length : ℤ) → some v = elems[(ref - 1).toNat]?) ∧
  (-(elems.length : ℤ) ≤ ref ∧ ref ≤ -1 →
    some v = elems[((elems.length : ℤ) + ref).toNat]?) ∧
  (ref = 0 ∨ ref < -(elems.length : ℤ) ∨ (elems.length : ℤ) < ref → v = zero)

/-! # Theorems -/

/-! ## Field lemmas -/

theorem fillLoop_of_lt (a l f : ℚ) (h : a < 1) : fillLoop a l f = (a, l) := by
  rw [fillLoop, if_neg (not_le.mpr h)]

theorem fillLoop_of_le (a l f : ℚ) (h : 1 ≤ a) :
    fillLoop a l f = fillLoop (a - 1) (l + f) f := by
  rw [fillLoop, if_pos h]

theorem spaceAction_isOn (s : AppState) (sp : Bool) (dot : ℚ) :
    (spaceAction s sp dot).isOn = s.isOn := by
  unfold spaceAction
  simp only
  split_ifs <;> rfl

theorem fillStep_isOn (s : AppState) (dt : ℚ) : (fillStep s dt).isOn = s.isOn := by
  unfold fillStep
  split_ifs <;> rfl

theorem fillStep_locked (s : AppState) (dt : ℚ) :
    (fillStep s dt).lockedByFullBowl = s.lockedByFullBowl := by
  unfold fillStep
  split_ifs <;> rfl

theorem capAndLock_cases (s : AppState) :
    (s.waterLevel < 1 ∧ capAndLock s = s) ∨
    (1 ≤ s.waterLevel ∧
      capAndLock s = { s with waterLevel := 1, isOn := false, lockedByFullBowl := true }) := by
  unfold capAndLock
  rcases lt_or_le s.waterLevel 1 with h | h
  · left
    refine ⟨h, ?_⟩
    have h1 : ¬ s.waterLevel > 1 := by linarith
    have h2 : ¬ s.waterLevel ≥ 1 := by linarith
    simp [h1, h2]
  · right
    refine ⟨h, ?_⟩
    rcases eq_or_lt_of_le h with h1 | h1
    · have h2 : ¬ s.waterLevel > 1 := by linarith
      have h3 : s.waterLevel ≥ 1 := h
      simp only [h2, h3, if_true, if_false]
      rw [← h1]
    · have h2 : s.waterLevel > 1 := h1
      simp [h2]

theorem capAndLock_preserves (s : AppState) (h : lockImpliesOff s) :
    lockImpliesOff (capAndLock s) := by
  rcases capAndLock_cases s with ⟨_, e⟩ | ⟨_, e⟩
  · rw [e]; exact h
  · rw [e]; simp [lockImpliesOff]

theorem updateWater_isOn_locked (s : AppState) (dt : ℚ) (sp : Bool) (dot : ℚ) :
    (updateWater s dt sp dot).isOn = (capAndLock (fillStep (spaceAction s sp dot) dt)).isOn ∧
    (updateWater s dt sp dot).lockedByFullBowl =
      (capAndLock (fillStep (spaceAction s sp dot) dt)).lockedByFullBowl ∧
    (updateWater s dt sp dot).waterLevel =
      (capAndLock (fillStep (spaceAction s sp dot) dt)).waterLevel :=
  ⟨rfl, rfl, rfl⟩

theorem spaceAction_preserves (s : AppState) (sp : Bool) (dot : ℚ) (h : lockImpliesOff s) :
    lockImpliesOff (spaceAction s sp dot) := by
  unfold spaceAction lockImpliesOff at *
  simp only
  split_ifs <;> simp_all

theorem updateWater_preserves (s : AppState) (dt : ℚ) (sp : Bool) (dot : ℚ)
    (h : lockImpliesOff s) : lockImpliesOff (updateWater s dt sp dot) := by
  have h1 := spaceAction_preserves s sp dot h
  have h2 : lockImpliesOff (fillStep (spaceAction s sp dot) dt) := by
    unfold lockImpliesOff at *
    rw [fillStep_isOn, fillStep_locked]
    exact h1
  have h3 := capAndLock_preserves _ h2
  unfold lockImpliesOff at *
  simpa [updateWater] using h3

theorem handlePowerToggle_preserves (s : AppState) (mx my : ℚ) (md : Bool) (lamp : CircleShape)
    (h : lockImpliesOff s) : lockImpliesOff (handlePowerToggle s mx my md lamp) := by
  unfold handlePowerToggle lockImpliesOff at *
  simp only
  split_ifs <;> simp_all

/-- C1: each of the five simulation update functions keeps "isOn and
lockedByFullBowl are not both true": if the state before the call satisfies
it, so does the state after the call, for every input. -/
theorem update_functions_preserve_lockImpliesOff (s : AppState)
    (mouseX mouseY deltaTime dot : ℚ) (mouseDown upPressed downPressed spacePressed : Bool)
    (lampShape : CircleShape) (h : lockImpliesOff s) :
    lockImpliesOff (handlePowerToggle s mouseX mouseY mouseDown lampShape) ∧
    lockImpliesOff (handleTemperatureInput s upPressed downPressed) ∧
    lockImpliesOff (updateVent s deltaTime) ∧
    lockImpliesOff (updateTemperature s deltaTime) ∧
    lockImpliesOff (updateWater s deltaTime spacePressed dot) := by
  refine ⟨handlePowerToggle_preserves s _ _ _ _ h, ?_, ?_, ?_, updateWater_preserves s _ _ _ h⟩
  · unfold handleTemperatureInput clampDesired lockImpliesOff at *
    simp only
    split_ifs <;> simp_all
  · unfold updateVent lockImpliesOff at *
    split_ifs <;> simp_all
  · unfold updateTemperature lockImpliesOff at *
    simp only
    split_ifs <;> simp_all

/-- Witness for C1: a click on the lamp in the locked, full-bowl state. -/
theorem update_functions_preserve_lockImpliesOff_witness :
    lockImpliesOff fullBowlState ∧
    (lockImpliesOff
        (handlePowerToggle fullBowlState 1156 484 true (shiftCircle 1920 1080 lamp)) ∧
      lockImpliesOff (handleTemperatureInput fullBowlState true false) ∧
      lockImpliesOff (updateVent fullBowlState 1) ∧
      lockImpliesOff (updateTemperature fullBowlState 1) ∧
      lockImpliesOff (updateWater fullBowlState 1 true (-1))) :=
  ⟨by decide,
    update_functions_preserve_lockImpliesOff fullBowlState 1156 484 1 (-1) true true false true
      (shiftCircle 1920 1080 lamp) (by decide)⟩

theorem frameStep_appState (fs : FrameState) (inp : FrameInput) :
    (frameStep fs inp).appState =
      collectDroplet^[inp.dropletsCollected]
        (if (inp.mouseDown && !fs.appState.prevMouseDown) = true then
          rayPick
            (lKeyToggle
              (updateWater
                (updateTemperature
                  (updateVent
                    (handleTemperatureInput
                      (handlePowerToggle
                        (arrowClick fs.appState (inp.mouseDown && !fs.appState.prevMouseDown)
                          inp.mouseX inp.mouseY
                          (shiftRect inp.windowWidth inp.windowHeight tempArrowButton)).1
                        inp.mouseX inp.mouseY inp.mouseDown
                        (shiftCircle inp.windowWidth inp.windowHeight lamp))
                      inp.upPressed inp.downPressed)
                    inp.deltaTime)
                  inp.deltaTime)
                inp.deltaTime inp.spacePressed inp.facingDot)
              inp.lPressed fs.prevLPressed)
            (arrowClick fs.appState (inp.mouseDown && !fs.appState.prevMouseDown)
              inp.mouseX inp.mouseY
              (shiftRect inp.windowWidth inp.windowHeight tempArrowButton)).2 inp
        else
          lKeyToggle
            (updateWater
              (updateTemperature
                (updateVent
                  (handleTemperatureInput
                    (handlePowerToggle
                      (arrowClick fs.appState (inp.mouseDown && !fs.appState.prevMouseDown)
                        inp.mouseX inp.mouseY
                        (shiftRect inp.windowWidth inp.windowHeight tempArrowButton)).1
                      inp.mouseX inp.mouseY inp.mouseDown
                      (shiftCircle inp.windowWidth inp.windowHeight lamp))
                    inp.upPressed inp.downPressed)
                  inp.deltaTime)
                inp.deltaTime)
              inp.deltaTime inp.spacePressed inp.facingDot)
            inp.lPressed fs.prevLPressed) := rfl

/-- After `updateWater` the bowl is never above capacity, and a full bowl
means off and locked. -/
theorem updateWater_full (s : AppState) (dt : ℚ) (sp : Bool) (dot : ℚ) :
    (updateWater s dt sp dot).waterLevel ≤ 1 ∧
    (1 ≤ (fillStep (spaceAction s sp dot) dt).waterLevel →
      (updateWater s dt sp dot).waterLevel = 1 ∧ (updateWater s dt sp dot).isOn = false ∧
        (updateWater s dt sp dot).lockedByFullBowl = true) ∧
    ((fillStep (spaceAction s sp dot) dt).waterLevel < 1 →
      (updateWater s dt sp dot).waterLevel = (fillStep (spaceAction s sp dot) dt).waterLevel ∧
      (updateWater s dt sp dot).isOn = (fillStep (spaceAction s sp dot) dt).isOn ∧
      (updateWater s dt sp dot).lockedByFullBowl =
        (fillStep (spaceAction s sp dot) dt).lockedByFullBowl) := by
  obtain ⟨e1, e2, e3⟩ := updateWater_isOn_locked s dt sp dot
  rw [e1, e2, e3]
  rcases capAndLock_cases (fillStep (spaceAction s sp dot) dt) with ⟨h, e⟩ | ⟨h, e⟩
  · rw [e]
    exact ⟨le_of_lt h, fun h1 => absurd h (not_lt.mpr h1), fun _ => ⟨rfl, rfl, rfl⟩⟩
  · rw [e]
    exact ⟨le_refl _, fun _ => ⟨rfl, rfl, rfl⟩, fun h1 => absurd h1 (not_lt.mpr h)⟩

theorem collectDroplet_cases (s : AppState) :
    (s.waterLevel + 3 / 2000 < 1 ∧
      collectDroplet s = { s with waterLevel := s.waterLevel + 3 / 2000 }) ∨
    (1 ≤ s.waterLevel + 3 / 2000 ∧
      collectDroplet s = { s with waterLevel := 1, isOn := false, lockedByFullBowl := true }) := by
  unfold collectDroplet
  rcases lt_or_le (s.waterLevel + 3 / 2000) 1 with h | h
  · left
    refine ⟨h, ?_⟩
    have h2 : ¬ s.waterLevel + 3 / 2000 ≥ 1 := not_le.mpr h
    simp only [h2, if_false]
  · right
    refine ⟨h, ?_⟩
    have h2 : s.waterLevel + 3 / 2000 ≥ 1 := h
    simp only [h2, if_true]

/-- C3: an operation that brings `waterLevel` to 1.0 or above leaves
`waterLevel = 1.0`, `isOn = false` and `lockedByFullBowl = true`. For
`updateWater` (any state, `deltaTime`, Space input and orientation): if the
level after the Space branch and the fill is at least 1, or equivalently if the
level after the call is at least 1, the call ends full, off and locked. For a
droplet collection: if the level plus the droplet's 0.0015 is at least 1, or
equivalently if the level after the collection is at least 1, the collection
ends full, off and locked. -/
theorem reaching_capacity_forces_lock (s : AppState) (deltaTime dot : ℚ) (spacePressed : Bool) :
    (1 ≤ (fillStep (spaceAction s spacePressed dot) deltaTime).waterLevel →
      (updateWater s deltaTime spacePressed dot).waterLevel = 1 ∧
      (updateWater s deltaTime spacePressed dot).isOn = false ∧
      (updateWater s deltaTime spacePressed dot).lockedByFullBowl = true) ∧
    (1 ≤ (updateWater s deltaTime spacePressed dot).waterLevel →
      (updateWater s deltaTime spacePressed dot).waterLevel = 1 ∧
      (updateWater s deltaTime spacePressed dot).isOn = false ∧
      (updateWater s deltaTime spacePressed dot).lockedByFullBowl = true) ∧
    (1 ≤ s.waterLevel + 3 / 2000 →
      (collectDroplet s).waterLevel = 1 ∧ (collectDroplet s).isOn = false ∧
      (collectDroplet s).lockedByFullBowl = true) ∧
    (1 ≤ (collectDroplet s).waterLevel →
      (collectDroplet s).waterLevel = 1 ∧ (collectDroplet s).isOn = false ∧
      (collectDroplet s).lockedByFullBowl = true) := by
  obtain ⟨_, hfull, hbelow⟩ := updateWater_full s deltaTime spacePressed dot
  refine ⟨hfull, ?_, ?_, ?_⟩
  · intro h
    rcases lt_or_le (fillStep (spaceAction s spacePressed dot) deltaTime).waterLevel 1 with h1 | h1
    · obtain ⟨e, _, _⟩ := hbelow h1
      rw [e] at h
      exact absurd h1 (not_lt.mpr h)
    · exact hfull h1
  · intro h
    rcases collectDroplet_cases s with ⟨h1, _⟩ | ⟨_, e⟩
    · exact absurd h1 (not_lt.mpr h)
    · rw [e]
      exact ⟨rfl, rfl, rfl⟩
  · intro h
    rcases collectDroplet_cases s with ⟨h1, e⟩ | ⟨_, e⟩
    · rw [e] at h
      exact absurd h1 (not_lt.mpr h)
    · rw [e]
      exact ⟨rfl, rfl, rfl⟩

/-- Witness for C3: a droplet collected at level 0.999 fills the bowl and
locks. -/
theorem reaching_capacity_forces_lock_witness :
    1 ≤ nearlyFullState.waterLevel + 3 / 2000 ∧
    ((collectDroplet nearlyFullState).waterLevel = 1 ∧
      (collectDroplet nearlyFullState).isOn = false ∧
      (collectDroplet nearlyFullState).lockedByFullBowl = true) :=
  ⟨by norm_num [nearlyFullState, scenarioState],
    (reaching_capacity_forces_lock nearlyFullState 1 0 false).2.2.1
      (by norm_num [nearlyFullState, scenarioState])⟩

/-! ## What each stage of a frame leaves alone -/

theorem handlePowerToggle_fields (s : AppState) (mx my : ℚ) (md : Bool) (c : CircleShape) :
    (handlePowerToggle s mx my md c).lockedByFullBowl = s.lockedByFullBowl ∧
    (handlePowerToggle s mx my md c).waterLevel = s.waterLevel ∧
    (handlePowerToggle s mx my md c).desiredTemp = s.desiredTemp ∧
    (handlePowerToggle s mx my md c).tempChangeStep = s.tempChangeStep ∧
    (handlePowerToggle s mx my md c).prevMouseDown = md := by
  unfold handlePowerToggle
  dsimp only
  split_ifs <;> simp

theorem handlePowerToggle_isOn_of_locked (s : AppState) (mx my : ℚ) (md : Bool) (c : CircleShape)
    (h : s.lockedByFullBowl = true) : (handlePowerToggle s mx my md c).isOn = s.isOn := by
  unfold handlePowerToggle
  simp [h]

theorem clampDesired_fields (s : AppState) :
    (clampDesired s).isOn = s.isOn ∧ (clampDesired s).lockedByFullBowl = s.lockedByFullBowl ∧
    (clampDesired s).waterLevel = s.waterLevel ∧
    (clampDesired s).tempChangeStep = s.tempChangeStep ∧
    (clampDesired s).prevUpPressed = s.prevUpPressed ∧
    (clampDesired s).prevDownPressed = s.prevDownPressed := by
  unfold clampDesired
  simp only
  split_ifs <;> exact ⟨rfl, rfl, rfl, rfl, rfl, rfl⟩

theorem clampDesired_desiredTemp (s : AppState) :
    (clampDesired s).desiredTemp = min 40 (max (-10) s.desiredTemp) := by
  unfold clampDesired
  simp only
  split_ifs with h1 h2 h2
  · norm_num at h2
  · show (-10 : ℚ) = _
    rw [max_eq_left (le_of_lt h1)]
    norm_num
  · show (40 : ℚ) = _
    have h3 : (-10 : ℚ) ≤ s.desiredTemp := not_lt.mp h1
    have h4 : (40 : ℚ) < s.desiredTemp := h2
    rw [max_eq_right h3, min_eq_left (le_of_lt h4)]
  · have h3 : (-10 : ℚ) ≤ s.desiredTemp := not_lt.mp h1
    have h4 : s.desiredTemp ≤ 40 := not_lt.mp h2
    rw [max_eq_right h3, min_eq_right h4]

theorem clampDesired_range (s : AppState) :
    -10 ≤ (clampDesired s).desiredTemp ∧ (clampDesired s).desiredTemp ≤ 40 := by
  rw [clampDesired_desiredTemp]
  refine ⟨le_min (by norm_num) (le_max_left _ _), min_le_left _ _⟩

theorem handleTemperatureInput_fields (s : AppState) (up down : Bool) :
    (handleTemperatureInput s up down).isOn = s.isOn ∧
    (handleTemperatureInput s up down).lockedByFullBowl = s.lockedByFullBowl ∧
    (handleTemperatureInput s up down).waterLevel = s.waterLevel ∧
    (handleTemperatureInput s up down).tempChangeStep = s.tempChangeStep := by
  unfold handleTemperatureInput
  simp only
  refine ⟨?_, ?_, ?_, ?_⟩
  · rw [(clampDesired_fields _).1]; split_ifs <;> rfl
  · rw [(clampDesired_fields _).2.1]; split_ifs <;> rfl
  · rw [(clampDesired_fields _).2.2.1]; split_ifs <;> rfl
  · rw [(clampDesired_fields _).2.2.2.1]; split_ifs <;> rfl

theorem handleTemperatureInput_range (s : AppState) (up down : Bool) :
    -10 ≤ (handleTemperatureInput s up down).desiredTemp ∧
    (handleTemperatureInput s up down).desiredTemp ≤ 40 := by
  unfold handleTemperatureInput
  simp only
  exact clampDesired_range _

theorem updateVent_fields (s : AppState) (dt : ℚ) :
    (updateVent s dt).isOn = s.isOn ∧
    (updateVent s dt).lockedByFullBowl = s.lockedByFullBowl ∧
    (updateVent s dt).waterLevel = s.waterLevel ∧
    (updateVent s dt).desiredTemp = s.desiredTemp ∧
    (updateVent s dt).tempChangeStep = s.tempChangeStep := by
  unfold updateVent
  split_ifs <;> exact ⟨rfl, rfl, rfl, rfl, rfl⟩

theorem updateTemperature_fields (s : AppState) (dt : ℚ) :
    (updateTemperature s dt).isOn = s.isOn ∧
    (updateTemperature s dt).lockedByFullBowl = s.lockedByFullBowl ∧
    (updateTemperature s dt).waterLevel = s.waterLevel ∧
    (updateTemperature s dt).desiredTemp = s.desiredTemp ∧
    (updateTemperature s dt).tempChangeStep = s.tempChangeStep ∧
    (updateTemperature s dt).tempDriftSpeed = s.tempDriftSpeed := by
  unfold updateTemperature
  simp only
  split_ifs <;> exact ⟨rfl, rfl, rfl, rfl, rfl, rfl⟩

theorem spaceAction_fields (s : AppState) (sp : Bool) (dot : ℚ) :
    (spaceAction s sp dot).isOn = s.isOn ∧
    (spaceAction s sp dot).desiredTemp = s.desiredTemp ∧
    (spaceAction s sp dot).tempChangeStep = s.tempChangeStep ∧
    (spaceAction s sp dot).waterAccum = s.waterAccum ∧
    (spaceAction s sp dot).waterFillPerSecond = s.waterFillPerSecond := by
  unfold spaceAction
  simp only
  split_ifs <;> exact ⟨rfl, rfl, rfl, rfl, rfl⟩

theorem spaceAction_no_space (s : AppState) (dot : ℚ) : spaceAction s false dot = s := by
  simp [spaceAction]

theorem fillStep_fields (s : AppState) (dt : ℚ) :
    (fillStep s dt).isOn = s.isOn ∧
    (fillStep s dt).lockedByFullBowl = s.lockedByFullBowl ∧
    (fillStep s dt).desiredTemp = s.desiredTemp ∧
    (fillStep s dt).tempChangeStep = s.tempChangeStep ∧
    (fillStep s dt).waterFillPerSecond = s.waterFillPerSecond := by
  unfold fillStep
  split_ifs <;> exact ⟨rfl, rfl, rfl, rfl, rfl⟩

theorem fillStep_inactive (s : AppState) (dt : ℚ)
    (h : ¬ (s.isOn = true ∧ s.lockedByFullBowl = false)) : fillStep s dt = s := by
  unfold fillStep
  rw [if_neg h]

theorem capAndLock_fields (s : AppState) :
    (capAndLock s).desiredTemp = s.desiredTemp ∧
    (capAndLock s).tempChangeStep = s.tempChangeStep ∧
    (capAndLock s).waterAccum = s.waterAccum ∧
    (capAndLock s).waterFillPerSecond = s.waterFillPerSecond := by
  rcases capAndLock_cases s with ⟨_, e⟩ | ⟨_, e⟩ <;> rw [e] <;> exact ⟨rfl, rfl, rfl, rfl⟩

theorem updateWater_fields (s : AppState) (dt : ℚ) (sp : Bool) (dot : ℚ) :
    (updateWater s dt sp dot).desiredTemp = s.desiredTemp ∧
    (updateWater s dt sp dot).tempChangeStep = s.tempChangeStep ∧
    (updateWater s dt sp dot).waterFillPerSecond = s.waterFillPerSecond ∧
    (updateWater s dt sp dot).prevSpacePressed = sp := by
  refine ⟨?_, ?_, ?_, rfl⟩
  · show (capAndLock (fillStep (spaceAction s sp dot) dt)).desiredTemp = _
    rw [(capAndLock_fields _).1, (fillStep_fields _ _).2.2.1, (spaceAction_fields _ _ _).2.1]
  · show (capAndLock (fillStep (spaceAction s sp dot) dt)).tempChangeStep = _
    rw [(capAndLock_fields _).2.1, (fillStep_fields _ _).2.2.2.1,
      (spaceAction_fields _ _ _).2.2.1]
  · show (capAndLock (fillStep (spaceAction s sp dot) dt)).waterFillPerSecond = _
    rw [(capAndLock_fields _).2.2.2, (fillStep_fields _ _).2.2.2.2,
      (spaceAction_fields _ _ _).2.2.2.2]

/-- With Space not pressed, `updateWater` on a locked state with a full bowl
ends off, locked and full. -/
theorem updateWater_locked_full (s : AppState) (dt dot : ℚ)
    (hlock : s.lockedByFullBowl = true) (hfull : 1 ≤ s.waterLevel) :
    (updateWater s dt false dot).isOn = false ∧
    (updateWater s dt false dot).lockedByFullBowl = true ∧
    (updateWater s dt false dot).waterLevel = 1 := by
  obtain ⟨_, h, _⟩ := updateWater_full s dt false dot
  rw [spaceAction_no_space, fillStep_inactive s dt (by simp [hlock])] at h
  obtain ⟨h1, h2, h3⟩ := h hfull
  exact ⟨h2, h3, h1⟩

theorem lKeyToggle_fields (s : AppState) (l p : Bool) :
    (lKeyToggle s l p).lockedByFullBowl = s.lockedByFullBowl ∧
    (lKeyToggle s l p).waterLevel = s.waterLevel ∧
    (lKeyToggle s l p).desiredTemp = s.desiredTemp ∧
    (lKeyToggle s l p).tempChangeStep = s.tempChangeStep := by
  unfold lKeyToggle
  split_ifs <;> exact ⟨rfl, rfl, rfl, rfl⟩

theorem arrowClick_no_click (s : AppState) (mx my : ℚ) (r : RectShape) :
    arrowClick s false mx my r = (s, false) := by
  simp [arrowClick]

/-- A frame with a rising edge of the L key, no click, no Space and no
collected droplet, entered locked with a full bowl, ends on and locked. -/
theorem frameStep_lKey_on_locked (fs : FrameState) (inp : FrameInput)
    (hlock : fs.appState.lockedByFullBowl = true) (hfull : 1 ≤ fs.appState.waterLevel)
    (hprev : fs.prevLPressed = false) (hl : inp.lPressed = true)
    (hmouse : inp.mouseDown = false) (hspace : inp.spacePressed = false)
    (hdrops : inp.dropletsCollected = 0) :
    (frameStep fs inp).appState.isOn = true ∧
      (frameStep fs inp).appState.lockedByFullBowl = true := by
  rw [frameStep_appState, hdrops, hmouse, hspace, hl, hprev]
  simp only [Bool.false_and, Function.iterate_zero, id_eq, Bool.false_eq_true, if_false,
    arrowClick_no_click]
  have key := updateWater_locked_full
    (updateTemperature
      (updateVent
        (handleTemperatureInput
          (handlePowerToggle fs.appState inp.mouseX inp.mouseY false
            (shiftCircle inp.windowWidth inp.windowHeight lamp))
          inp.upPressed inp.downPressed)
        inp.deltaTime)
      inp.deltaTime) inp.deltaTime inp.facingDot
    (by rw [(updateTemperature_fields _ _).2.1, (updateVent_fields _ _).2.1,
          (handleTemperatureInput_fields _ _ _).2.1, (handlePowerToggle_fields _ _ _ _ _).1]
        exact hlock)
    (by rw [(updateTemperature_fields _ _).2.2.1, (updateVent_fields _ _).2.2.1,
          (handleTemperatureInput_fields _ _ _).2.2.1, (handlePowerToggle_fields _ _ _ _ _).2.1]
        exact hfull)
  obtain ⟨k1, k2, _⟩ := key
  constructor
  · simp [lKeyToggle, k1]
  · rw [(lKeyToggle_fields _ _ _).1]
    exact k2

theorem frameStep_stall_fills :
    frameStep startFrameState (idleFrame 10) =
      { appState := { fullBowlState with ventOpenness := 1 }, prevLPressed := false } := by
  norm_num [frameStep, idleFrame, startFrameState, scenarioState, fullBowlState, arrowClick,
    handlePowerToggle, handleTemperatureInput, clampDesired, updateVent, targetOpenness,
    updateTemperature, updateWater, spaceAction, fillStep, capAndLock, lKeyToggle,
    fillLoop_of_le, fillLoop_of_lt]

/-- C2: the frame loop can end a frame on and locked. From the start state
(on, unlocked, empty bowl, fill rate 0.1 per second) a frame of 10 seconds
fills the bowl and locks; in the next frame a press of the L key toggles
`isOn` without looking at the lock, and the frame ends with `isOn` and
`lockedByFullBowl` both true. -/
theorem lKey_frame_ends_on_and_locked :
    startFrameState.appState.isOn = true ∧
    startFrameState.appState.lockedByFullBowl = false ∧
    (runFrames startFrameState [idleFrame 10]).appState.isOn = false ∧
    (runFrames startFrameState [idleFrame 10]).appState.lockedByFullBowl = true ∧
    (runFrames startFrameState [idleFrame 10, lKeyFrame (1 / 75)]).appState.isOn = true ∧
    (runFrames startFrameState [idleFrame 10, lKeyFrame (1 / 75)]).appState.lockedByFullBowl
      = true := by
  have h1 : runFrames startFrameState [idleFrame 10] =
      frameStep startFrameState (idleFrame 10) := rfl
  have h2 : runFrames startFrameState [idleFrame 10, lKeyFrame (1 / 75)] =
      frameStep (frameStep startFrameState (idleFrame 10)) (lKeyFrame (1 / 75)) := rfl
  rw [h1, h2, frameStep_stall_fills]
  refine ⟨rfl, rfl, rfl, rfl, ?_⟩
  exact frameStep_lKey_on_locked _ _ rfl (le_refl _) rfl rfl rfl rfl rfl

/-! ## Water fill -/

theorem fillStep_unit (s : AppState) (dt : ℚ) (hon : s.isOn = true)
    (hun : s.lockedByFullBowl = false) (h : s.waterAccum + dt = 1) :
    fillStep s dt =
      { s with waterAccum := 0, waterLevel := s.waterLevel + s.waterFillPerSecond } := by
  unfold fillStep
  rw [if_pos ⟨hon, hun⟩, h, fillLoop_of_le _ _ _ (le_refl 1), sub_self,
    fillLoop_of_lt _ _ _ zero_lt_one]

theorem fillStep_below (s : AppState) (dt : ℚ) (hon : s.isOn = true)
    (hun : s.lockedByFullBowl = false) (h : s.waterAccum + dt < 1) :
    fillStep s dt = { s with waterAccum := s.waterAccum + dt } := by
  unfold fillStep
  rw [if_pos ⟨hon, hun⟩, fillLoop_of_lt _ _ _ h]

/-- One call of `updateWater` that completes a whole second, Space not
pressed, on an active state: one fill increment, then cap and lock. -/
theorem updateWater_unit (s : AppState) (dt d : ℚ) (hon : s.isOn = true)
    (hun : s.lockedByFullBowl = false) (h : s.waterAccum + dt = 1) :
    (updateWater s dt false d).waterAccum = 0 ∧
    (updateWater s dt false d).waterFillPerSecond = s.waterFillPerSecond ∧
    (s.waterLevel + s.waterFillPerSecond < 1 →
      (updateWater s dt false d).waterLevel = s.waterLevel + s.waterFillPerSecond ∧
      (updateWater s dt false d).isOn = true ∧
      (updateWater s dt false d).lockedByFullBowl = false) ∧
    (1 ≤ s.waterLevel + s.waterFillPerSecond →
      (updateWater s dt false d).waterLevel = 1 ∧
      (updateWater s dt false d).isOn = false ∧
      (updateWater s dt false d).lockedByFullBowl = true) := by
  obtain ⟨_, hfull, hbelow⟩ := updateWater_full s dt false d
  rw [spaceAction_no_space, fillStep_unit s dt hon hun h] at hfull hbelow
  refine ⟨?_, (updateWater_fields s dt false d).2.2.1, ?_, hfull⟩
  · show (capAndLock (fillStep (spaceAction s false d) dt)).waterAccum = 0
    rw [(capAndLock_fields _).2.2.1, spaceAction_no_space, fillStep_unit s dt hon hun h]
  · intro hlt
    obtain ⟨e1, e2, e3⟩ := hbelow hlt
    exact ⟨e1, e2.trans hon, e3.trans hun⟩

theorem waterSteps_nil (dt : ℚ) (s : AppState) : waterSteps dt [] s = s := rfl

theorem waterSteps_cons (dt d : ℚ) (l : List ℚ) (s : AppState) :
    waterSteps dt (d :: l) s = waterSteps dt l (updateWater s dt false d) := rfl

theorem waterSteps_append (dt : ℚ) (l1 l2 : List ℚ) (s : AppState) :
    waterSteps dt (l1 ++ l2) s = waterSteps dt l2 (waterSteps dt l1 s) := by
  unfold waterSteps
  rw [List.foldl_append]

/-- The fill scenario from an intermediate level `j/10`. -/
theorem waterSteps_filling (dots : List ℚ) :
    ∀ (s : AppState) (j : ℕ), s.isOn = true → s.lockedByFullBowl = false →
      s.waterAccum = 0 → s.waterFillPerSecond = 1 / 10 → s.waterLevel = (j : ℚ) / 10 →
      j + dots.length ≤ 10 →
      (j + dots.length < 10 →
        (waterSteps 1 dots s).waterLevel = ((j + dots.length : ℕ) : ℚ) / 10 ∧
        (waterSteps 1 dots s).isOn = true ∧
        (waterSteps 1 dots s).lockedByFullBowl = false) ∧
      (0 < dots.length → j + dots.length = 10 →
        (waterSteps 1 dots s).waterLevel = 1 ∧
        (waterSteps 1 dots s).isOn = false ∧
        (waterSteps 1 dots s).lockedByFullBowl = true) := by
  induction dots with
  | nil =>
    intro s j hon hun _ _ hlev _
    refine ⟨fun _ => ⟨by simpa using hlev, hon, hun⟩, fun h => absurd h (by simp)⟩
  | cons d l ih =>
    intro s j hon hun hacc hfill hlev hle
    rw [waterSteps_cons]
    have hlen : (d :: l).length = l.length + 1 := rfl
    rw [hlen] at hle ⊢
    obtain ⟨a1, a2, a3, a4⟩ := updateWater_unit s 1 d hon hun (by rw [hacc]; norm_num)
    have hsum : s.waterLevel + s.waterFillPerSecond = ((j + 1 : ℕ) : ℚ) / 10 := by
      rw [hlev, hfill]; push_cast; ring
    rcases Nat.lt_or_ge (j + 1) 10 with hj | hj
    · have hlt : s.waterLevel + s.waterFillPerSecond < 1 := by
        rw [hsum, div_lt_one (by norm_num)]
        exact_mod_cast hj
      obtain ⟨b1, b2, b3⟩ := a3 hlt
      have := ih (updateWater s 1 false d) (j + 1) b2 b3 a1 (a2.trans hfill) (b1.trans hsum)
        (by omega)
      have e : j + 1 + l.length = j + (l.length + 1) := by omega
      rw [e] at this
      refine ⟨this.1, fun _ h10 => ?_⟩
      exact this.2 (by omega) h10
    · have hl0 : l.length = 0 := by omega
      have hnil : l = [] := List.length_eq_zero.mp hl0
      subst hnil
      have hge : 1 ≤ s.waterLevel + s.waterFillPerSecond := by
        rw [hsum, le_div_iff₀ (by norm_num)]
        exact_mod_cast (by omega : 1 * 10 ≤ j + 1)
      refine ⟨fun h => absurd h (by simp at hle ⊢; omega), fun _ _ => ?_⟩
      rw [waterSteps_nil]
      exact a4 hge

/-- C4: the end-to-end fill scenario. From a state that is on and unlocked
with `waterLevel = 0`, `waterAccum = 0` and `waterFillPerSecond = 0.1`, a run
of `updateWater` calls with `deltaTime = 1.0` and Space never pressed (one call
per element of `dots`, whatever the camera orientation at each call) leaves
`waterLevel = k/10`, on and unlocked after `k < 10` calls, and `waterLevel =
1.0`, off and locked after exactly 10 calls. -/
theorem fill_scenario_ten_steps (s : AppState) (dots : List ℚ) (hon : s.isOn = true)
    (hun : s.lockedByFullBowl = false) (hlev : s.waterLevel = 0) (hacc : s.waterAccum = 0)
    (hfill : s.waterFillPerSecond = 1 / 10) :
    (dots.length < 10 →
      (waterSteps 1 dots s).waterLevel = (dots.length : ℚ) / 10 ∧
      (waterSteps 1 dots s).isOn = true ∧
      (waterSteps 1 dots s).lockedByFullBowl = false) ∧
    (dots.length = 10 →
      (waterSteps 1 dots s).waterLevel = 1 ∧
      (waterSteps 1 dots s).isOn = false ∧
      (waterSteps 1 dots s).lockedByFullBowl = true) := by
  constructor
  · intro hk
    have h := (waterSteps_filling dots s 0 hon hun hacc hfill (by rw [hlev]; norm_num)
      (by omega)).1 (by omega)
    simpa using h
  · intro hk
    exact (waterSteps_filling dots s 0 hon hun hacc hfill (by rw [hlev]; norm_num)
      (by omega)).2 (by omega) (by omega)

/-- Witness for C4: the scenario state, seven calls and ten calls. -/
theorem fill_scenario_ten_steps_witness :
    ((waterSteps 1 [0, 0, 0, 0, 0, 0, 0] scenarioState).waterLevel = 7 / 10 ∧
      (waterSteps 1 [0, 0, 0, 0, 0, 0, 0] scenarioState).isOn = true ∧
      (waterSteps 1 [0, 0, 0, 0, 0, 0, 0] scenarioState).lockedByFullBowl = false) ∧
    ((waterSteps 1 [0, 0, 0, 0, 0, 0, 0, 0, 0, 0] scenarioState).waterLevel = 1 ∧
      (waterSteps 1 [0, 0, 0, 0, 0, 0, 0, 0, 0, 0] scenarioState).isOn = false ∧
      (waterSteps 1 [0, 0, 0, 0, 0, 0, 0, 0, 0, 0] scenarioState).lockedByFullBowl = true) := by
  constructor
  · have h := (fill_scenario_ten_steps scenarioState [0, 0, 0, 0, 0, 0, 0] rfl rfl rfl rfl
      rfl).1 (by decide)
    simpa using h
  · exact (fill_scenario_ten_steps scenarioState [0, 0, 0, 0, 0, 0, 0, 0, 0, 0] rfl rfl rfl rfl
      rfl).2 rfl

/-! ## Lock persistence, vent, temperature keys -/

/-- C6: the lock persists until a drain succeeds. From a state with
`lockedByFullBowl = true`, `isOn = false` and `waterLevel = 1.0`, each of
`handlePowerToggle`, `handleTemperatureInput`, `updateVent` and
`updateTemperature` leaves the state locked and off for every input, and so
does `updateWater` unless the call has a rising edge of Space with
`holdingBowl = true` and orientation value `dot <= -0.9`. -/
theorem lock_persists_until_drain (s : AppState) (mouseX mouseY deltaTime dot : ℚ)
    (mouseDown upPressed downPressed spacePressed : Bool) (lampShape : CircleShape)
    (hlock : s.lockedByFullBowl = true) (hoff : s.isOn = false) (hfull : s.waterLevel = 1) :
    ((handlePowerToggle s mouseX mouseY mouseDown lampShape).lockedByFullBowl = true ∧
      (handlePowerToggle s mouseX mouseY mouseDown lampShape).isOn = false) ∧
    ((handleTemperatureInput s upPressed downPressed).lockedByFullBowl = true ∧
      (handleTemperatureInput s upPressed downPressed).isOn = false) ∧
    ((updateVent s deltaTime).lockedByFullBowl = true ∧ (updateVent s deltaTime).isOn = false) ∧
    ((updateTemperature s deltaTime).lockedByFullBowl = true ∧
      (updateTemperature s deltaTime).isOn = false) ∧
    (¬ (spacePressed = true ∧ s.prevSpacePressed = false ∧ s.holdingBowl = true ∧
          dot ≤ -(9 / 10)) →
      (updateWater s deltaTime spacePressed dot).lockedByFullBowl = true ∧
      (updateWater s deltaTime spacePressed dot).isOn = false) := by
  refine ⟨⟨?_, ?_⟩, ⟨?_, ?_⟩, ⟨?_, ?_⟩, ⟨?_, ?_⟩, ?_⟩
  · rw [(handlePowerToggle_fields _ _ _ _ _).1]; exact hlock
  · rw [handlePowerToggle_isOn_of_locked _ _ _ _ _ hlock]; exact hoff
  · rw [(handleTemperatureInput_fields _ _ _).2.1]; exact hlock
  · rw [(handleTemperatureInput_fields _ _ _).1]; exact hoff
  · rw [(updateVent_fields _ _).2.1]; exact hlock
  · rw [(updateVent_fields _ _).1]; exact hoff
  · rw [(updateTemperature_fields _ _).2.1]; exact hlock
  · rw [(updateTemperature_fields _ _).1]; exact hoff
  · intro hno
    have hsp : spaceAction s spacePressed dot = s := by
      unfold spaceAction
      simp only [Bool.and_eq_true, Bool.not_eq_true']
      split_ifs with h1 h2 h3 h4 h5
      · exact absurd ⟨h1.1, h1.2, h2, h4⟩ hno
      · rfl
      · rw [hfull] at h3; norm_num at h3
      · rfl
      · rfl
      · rfl
    obtain ⟨_, h, _⟩ := updateWater_full s deltaTime spacePressed dot
    rw [hsp, fillStep_inactive s deltaTime (by simp [hlock])] at h
    obtain ⟨_, h2, h3⟩ := h (le_of_eq hfull.symm)
    exact ⟨h3, h2⟩

/-- Witness for C6: the full-bowl state, Space pressed while the bowl is not
held. -/
theorem lock_persists_until_drain_witness :
    (updateWater fullBowlState 1 true (-1)).lockedByFullBowl = true ∧
    (updateWater fullBowlState 1 true (-1)).isOn = false :=
  (lock_persists_until_drain fullBowlState 1156 484 1 (-1) true true false true
    (shiftCircle 1920 1080 lamp) rfl rfl rfl).2.2.2.2 (by decide)

/-- C7: for `deltaTime >= 0`, `ventAnimSpeed >= 0` and `ventOpenness` in
[0,1], `updateVent` leaves `ventOpenness` in [0,1] and between its old value
and the target: it never moves away from the target and never passes it. -/
theorem updateVent_bounded_toward_target (s : AppState) (deltaTime : ℚ)
    (hdt : 0 ≤ deltaTime) (hspeed : 0 ≤ s.ventAnimSpeed) (h0 : 0 ≤ s.ventOpenness)
    (h1 : s.ventOpenness ≤ 1) :
    (0 ≤ (updateVent s deltaTime).ventOpenness ∧ (updateVent s deltaTime).ventOpenness ≤ 1) ∧
    min s.ventOpenness (targetOpenness s) ≤ (updateVent s deltaTime).ventOpenness ∧
    (updateVent s deltaTime).ventOpenness ≤ max s.ventOpenness (targetOpenness s) ∧
    |targetOpenness s - (updateVent s deltaTime).ventOpenness| ≤
      |targetOpenness s - s.ventOpenness| := by
  have hstep : 0 ≤ s.ventAnimSpeed * deltaTime := mul_nonneg hspeed hdt
  have ht : targetOpenness s = 0 ∨ targetOpenness s = 1 := by
    unfold targetOpenness
    split_ifs
    · right; rfl
    · left; rfl
  have ht0 : 0 ≤ targetOpenness s := by
    rcases ht with h | h
    · rw [h]
    · rw [h]; norm_num
  have ht1 : targetOpenness s ≤ 1 := by
    rcases ht with h | h
    · rw [h]; norm_num
    · rw [h]
  unfold updateVent
  split_ifs with hlt hgt
  · show (0 ≤ min (targetOpenness s) (s.ventOpenness + s.ventAnimSpeed * deltaTime) ∧
        min (targetOpenness s) (s.ventOpenness + s.ventAnimSpeed * deltaTime) ≤ 1) ∧
      min s.ventOpenness (targetOpenness s) ≤
        min (targetOpenness s) (s.ventOpenness + s.ventAnimSpeed * deltaTime) ∧
      min (targetOpenness s) (s.ventOpenness + s.ventAnimSpeed * deltaTime) ≤
        max s.ventOpenness (targetOpenness s) ∧
      |targetOpenness s - min (targetOpenness s) (s.ventOpenness + s.ventAnimSpeed * deltaTime)|
        ≤ |targetOpenness s - s.ventOpenness|
    have hv : s.ventOpenness ≤ min (targetOpenness s)
        (s.ventOpenness + s.ventAnimSpeed * deltaTime) :=
      le_min (le_of_lt hlt) (by linarith)
    have hm : min (targetOpenness s) (s.ventOpenness + s.ventAnimSpeed * deltaTime) ≤
        targetOpenness s := min_le_left _ _
    refine ⟨⟨by linarith, by linarith⟩, ?_, ?_, ?_⟩
    · rw [min_eq_left (le_of_lt hlt)]; exact hv
    · rw [max_eq_right (le_of_lt hlt)]; exact hm
    · rw [abs_of_nonneg (by linarith), abs_of_nonneg (by linarith)]
      linarith
  · show (0 ≤ max (targetOpenness s) (s.ventOpenness - s.ventAnimSpeed * deltaTime) ∧
        max (targetOpenness s) (s.ventOpenness - s.ventAnimSpeed * deltaTime) ≤ 1) ∧
      min s.ventOpenness (targetOpenness s) ≤
        max (targetOpenness s) (s.ventOpenness - s.ventAnimSpeed * deltaTime) ∧
      max (targetOpenness s) (s.ventOpenness - s.ventAnimSpeed * deltaTime) ≤
        max s.ventOpenness (targetOpenness s) ∧
      |targetOpenness s - max (targetOpenness s) (s.ventOpenness - s.ventAnimSpeed * deltaTime)|
        ≤ |targetOpenness s - s.ventOpenness|
    have hgt' : targetOpenness s < s.ventOpenness := hgt
    have hv : max (targetOpenness s) (s.ventOpenness - s.ventAnimSpeed * deltaTime) ≤
        s.ventOpenness :=
      max_le (le_of_lt hgt') (by linarith)
    have hm : targetOpenness s ≤
        max (targetOpenness s) (s.ventOpenness - s.ventAnimSpeed * deltaTime) := le_max_left _ _
    refine ⟨⟨by linarith, by linarith⟩, ?_, ?_, ?_⟩
    · rw [min_eq_right (le_of_lt hgt')]; exact hm
    · rw [max_eq_left (le_of_lt hgt')]; exact hv
    · rw [abs_of_nonpos (by linarith), abs_of_nonpos (by linarith)]
      linarith
  · have heq : s.ventOpenness = targetOpenness s :=
      le_antisymm (not_lt.mp (fun h => hgt h)) (not_lt.mp hlt)
    refine ⟨⟨h0, h1⟩, ?_, ?_, le_refl _⟩
    · exact min_le_left _ _
    · exact le_max_left _ _

/-- Witness for C7: the scenario state (closed vent, target 1) and a frame of
a quarter second. -/
theorem updateVent_bounded_toward_target_witness :
    (0 ≤ (updateVent scenarioState (1 / 4)).ventOpenness ∧
      (updateVent scenarioState (1 / 4)).ventOpenness ≤ 1) ∧
    min scenarioState.ventOpenness (targetOpenness scenarioState) ≤
      (updateVent scenarioState (1 / 4)).ventOpenness ∧
    (updateVent scenarioState (1 / 4)).ventOpenness ≤
      max scenarioState.ventOpenness (targetOpenness scenarioState) ∧
    |targetOpenness scenarioState - (updateVent scenarioState (1 / 4)).ventOpenness| ≤
      |targetOpenness scenarioState - scenarioState.ventOpenness| :=
  updateVent_bounded_toward_target scenarioState (1 / 4) (by norm_num)
    (by norm_num [scenarioState]) (by norm_num [scenarioState]) (by norm_num [scenarioState])

/-! ## Desired temperature -/

theorem handleTemperatureInput_desiredTemp (s : AppState) (up down : Bool) :
    (handleTemperatureInput s up down).desiredTemp =
      min 40 (max (-10)
        (s.desiredTemp + (if up = true ∧ s.prevUpPressed = false then s.tempChangeStep else 0)
          - (if down = true ∧ s.prevDownPressed = false then s.tempChangeStep else 0))) := by
  unfold handleTemperatureInput
  show (clampDesired _).desiredTemp = _
  rw [clampDesired_desiredTemp]
  cases up <;> cases down <;> cases s.prevUpPressed <;> cases s.prevDownPressed <;> simp

theorem handleTemperatureInput_latches (s : AppState) (up down : Bool) :
    (handleTemperatureInput s up down).prevUpPressed = up ∧
    (handleTemperatureInput s up down).prevDownPressed = down := ⟨rfl, rfl⟩

theorem collectDroplet_desiredTemp (s : AppState) :
    (collectDroplet s).desiredTemp = s.desiredTemp := by
  rcases collectDroplet_cases s with ⟨_, e⟩ | ⟨_, e⟩ <;> rw [e]

theorem collectDroplet_iterate_desiredTemp (n : ℕ) (s : AppState) :
    (collectDroplet^[n] s).desiredTemp = s.desiredTemp := by
  induction n generalizing s with
  | zero => rfl
  | succ n ih => rw [Function.iterate_succ_apply, ih, collectDroplet_desiredTemp]

theorem lampRayPick_fields (s : AppState) (hit : Bool) :
    (lampRayPick s hit).desiredTemp = s.desiredTemp ∧
    (lampRayPick s hit).lockedByFullBowl = s.lockedByFullBowl ∧
    (lampRayPick s hit).waterLevel = s.waterLevel := by
  unfold lampRayPick
  split_ifs <;> exact ⟨rfl, rfl, rfl⟩

theorem bowlRayPick_fields (s : AppState) (hit : Bool) :
    (bowlRayPick s hit).desiredTemp = s.desiredTemp ∧
    (bowlRayPick s hit).isOn = s.isOn ∧
    (bowlRayPick s hit).lockedByFullBowl = s.lockedByFullBowl ∧
    (bowlRayPick s hit).waterLevel = s.waterLevel := by
  unfold bowlRayPick
  split_ifs <;> exact ⟨rfl, rfl, rfl, rfl⟩

theorem arrowRayPick_range (s : AppState) (clicked top bot : Bool)
    (h : -10 ≤ s.desiredTemp ∧ s.desiredTemp ≤ 40) :
    -10 ≤ (arrowRayPick s clicked top bot).desiredTemp ∧
    (arrowRayPick s clicked top bot).desiredTemp ≤ 40 := by
  unfold arrowRayPick
  split_ifs
  · exact clampDesired_range _
  · exact clampDesired_range _
  · exact h
  · exact h

/-- The state after the five update calls of a frame has `desiredTemp` in
range, whatever the state before them. -/
theorem updates_desiredTemp_range (s : AppState) (inp : FrameInput) (c : CircleShape) :
    -10 ≤ (updateWater (updateTemperature (updateVent
        (handleTemperatureInput (handlePowerToggle s inp.mouseX inp.mouseY inp.mouseDown c)
          inp.upPressed inp.downPressed) inp.deltaTime) inp.deltaTime)
        inp.deltaTime inp.spacePressed inp.facingDot).desiredTemp ∧
    (updateWater (updateTemperature (updateVent
        (handleTemperatureInput (handlePowerToggle s inp.mouseX inp.mouseY inp.mouseDown c)
          inp.upPressed inp.downPressed) inp.deltaTime) inp.deltaTime)
        inp.deltaTime inp.spacePressed inp.facingDot).desiredTemp ≤ 40 := by
  rw [(updateWater_fields _ _ _ _).1, (updateTemperature_fields _ _).2.2.2.1,
    (updateVent_fields _ _).2.2.2.1]
  exact handleTemperatureInput_range _ _ _

/-- C9: `desiredTemp` is within [-10, 40] after any adjustment: after
`handleTemperatureInput` for every prior state (any `desiredTemp`, any
`tempChangeStep`) and every key combination, and at the end of every frame,
whatever the 2D arrow click and the pick-ray arrow hit did in it. -/
theorem desiredTemp_always_clamped (s : AppState) (upPressed downPressed : Bool)
    (fs : FrameState) (inp : FrameInput) :
    (-10 ≤ (handleTemperatureInput s upPressed downPressed).desiredTemp ∧
      (handleTemperatureInput s upPressed downPressed).desiredTemp ≤ 40) ∧
    (-10 ≤ (frameStep fs inp).appState.desiredTemp ∧
      (frameStep fs inp).appState.desiredTemp ≤ 40) := by
  refine ⟨handleTemperatureInput_range s upPressed downPressed, ?_⟩
  rw [frameStep_appState, collectDroplet_iterate_desiredTemp]
  split_ifs
  · unfold rayPick
    rw [(bowlRayPick_fields _ _).1]
    apply arrowRayPick_range
    rw [(lampRayPick_fields _ _).1, (lKeyToggle_fields _ _ _).2.2.1]
    exact updates_desiredTemp_range _ inp _
  · rw [(lKeyToggle_fields _ _ _).2.2.1]
    exact updates_desiredTemp_range _ inp _

theorem tempInputSteps_succ (up down : Bool) (n : ℕ) (s : AppState) :
    tempInputSteps up down (n + 1) s =
      tempInputSteps up down n (handleTemperatureInput s up down) := rfl

/-- Holding Up (Down released) with the Up latch set leaves an in-range
`desiredTemp` where it is. -/
theorem tempInputSteps_hold_up (n : ℕ) :
    ∀ s : AppState, s.prevUpPressed = true → -10 ≤ s.desiredTemp → s.desiredTemp ≤ 40 →
      (tempInputSteps true false n s).desiredTemp = s.desiredTemp := by
  induction n with
  | zero => intro s _ _ _; rfl
  | succ n ih =>
    intro s hup hlo hhi
    have e : (handleTemperatureInput s true false).desiredTemp = s.desiredTemp := by
      rw [handleTemperatureInput_desiredTemp]
      simp [hup, hlo, hhi]
    rw [tempInputSteps_succ, ih _ rfl (by rw [e]; exact hlo) (by rw [e]; exact hhi), e]

/-- C10: the temperature keys are edge-triggered. `handleTemperatureInput`
adds `tempChangeStep` exactly on a rising edge of Up and subtracts it exactly
on a rising edge of Down (the sum is then clamped to [-10, 40]) and stores the
key states in the latches. So from `desiredTemp = 20`, `tempChangeStep = 1` and
no key held, one call with Up pressed gives 21 and any number of further calls
with Up still held leaves it at 21. -/
theorem temperature_keys_edge_triggered (s : AppState) (upPressed downPressed : Bool) (n : ℕ) :
    (handleTemperatureInput s upPressed downPressed).desiredTemp =
      min 40 (max (-10)
        (s.desiredTemp
          + (if upPressed = true ∧ s.prevUpPressed = false then s.tempChangeStep else 0)
          - (if downPressed = true ∧ s.prevDownPressed = false then s.tempChangeStep else 0))) ∧
    (handleTemperatureInput s upPressed downPressed).prevUpPressed = upPressed ∧
    (handleTemperatureInput s upPressed downPressed).prevDownPressed = downPressed ∧
    (s.desiredTemp = 20 → s.tempChangeStep = 1 → s.prevUpPressed = false →
      s.prevDownPressed = false →
      (handleTemperatureInput s true false).desiredTemp = 21 ∧
      (tempInputSteps true false n (handleTemperatureInput s true false)).desiredTemp = 21) := by
  refine ⟨handleTemperatureInput_desiredTemp s _ _, rfl, rfl, ?_⟩
  intro hd hstep hup _
  have e : (handleTemperatureInput s true false).desiredTemp = 21 := by
    rw [handleTemperatureInput_desiredTemp, hd, hstep, hup]
    norm_num
  refine ⟨e, ?_⟩
  rw [tempInputSteps_hold_up n _ rfl (by rw [e]; norm_num) (by rw [e]; norm_num), e]

/-- Witness for C10: the scenario state, one Up press and five more calls with
Up held. -/
theorem temperature_keys_edge_triggered_witness :
    (handleTemperatureInput scenarioState true false).desiredTemp = 21 ∧
    (tempInputSteps true false 5 (handleTemperatureInput scenarioState true false)).desiredTemp
      = 21 :=
  (temperature_keys_edge_triggered scenarioState true false 5).2.2.2 rfl rfl rfl rfl

/-! ## Temperature drift -/

/-- One call of `updateTemperature` on an active state. -/
theorem updateTemperature_active (s : AppState) (dt : ℚ) (hon : s.isOn = true)
    (hun : s.lockedByFullBowl = false) :
    (|s.desiredTemp - s.currentTemp| ≤ s.tempDriftSpeed * dt →
      (updateTemperature s dt).currentTemp = s.desiredTemp) ∧
    (s.tempDriftSpeed * dt < |s.desiredTemp - s.currentTemp| → 0 < s.desiredTemp - s.currentTemp →
      (updateTemperature s dt).currentTemp = s.currentTemp + s.tempDriftSpeed * dt) ∧
    (s.tempDriftSpeed * dt < |s.desiredTemp - s.currentTemp| → s.desiredTemp - s.currentTemp ≤ 0 →
      (updateTemperature s dt).currentTemp = s.currentTemp - s.tempDriftSpeed * dt) := by
  have hact : ¬ (s.isOn = false ∨ s.lockedByFullBowl = true) := by simp [hon, hun]
  unfold updateTemperature
  rw [if_neg hact]
  dsimp only
  refine ⟨fun h => ?_, fun h hpos => ?_, fun h hneg => ?_⟩
  · rw [if_pos h]
  · rw [if_neg (not_le.mpr h), if_pos hpos]
  · rw [if_neg (not_le.mpr h), if_neg (not_lt.mpr hneg)]
    show s.currentTemp + -(s.tempDriftSpeed * dt) = _
    ring

theorem fillLoop_level_ge (a l f : ℚ) (hf : 0 ≤ f) : l ≤ (fillLoop a l f).2 := by
  induction a, l, f using fillLoop.induct with
  | case1 a l f h ih =>
    rw [fillLoop_of_le a l f h]
    exact le_trans (by linarith) (ih hf)
  | case2 a l f h =>
    rw [fillLoop_of_lt a l f (not_le.mp h)]

/-- One call of `updateWater`, Space not pressed, on a state that is off or
locked. -/
theorem updateWater_inactive (s : AppState) (dt d : ℚ)
    (h : ¬ (s.isOn = true ∧ s.lockedByFullBowl = false)) :
    (s.waterLevel < 1 →
      (updateWater s dt false d).waterLevel = s.waterLevel ∧
      (updateWater s dt false d).isOn = s.isOn ∧
      (updateWater s dt false d).lockedByFullBowl = s.lockedByFullBowl) ∧
    (1 ≤ s.waterLevel →
      (updateWater s dt false d).waterLevel = 1 ∧
      (updateWater s dt false d).isOn = false ∧
      (updateWater s dt false d).lockedByFullBowl = true) := by
  obtain ⟨_, hfull, hbelow⟩ := updateWater_full s dt false d
  rw [spaceAction_no_space, fillStep_inactive s dt h] at hfull hbelow
  exact ⟨hbelow, hfull⟩

theorem waterSteps_inactive (dt : ℚ) (l : List ℚ) :
    ∀ s : AppState, ¬ (s.isOn = true ∧ s.lockedByFullBowl = false) →
      (s.waterLevel < 1 →
        (waterSteps dt l s).waterLevel = s.waterLevel ∧
        (waterSteps dt l s).isOn = s.isOn ∧
        (waterSteps dt l s).lockedByFullBowl = s.lockedByFullBowl) ∧
      (1 ≤ s.waterLevel → l ≠ [] →
        (waterSteps dt l s).waterLevel = 1 ∧
        (waterSteps dt l s).isOn = false ∧
        (waterSteps dt l s).lockedByFullBowl = true) := by
  induction l with
  | nil =>
    intro s _
    exact ⟨fun _ => ⟨rfl, rfl, rfl⟩, fun _ h => absurd rfl h⟩
  | cons d l ih =>
    intro s hs
    obtain ⟨u1, u2⟩ := updateWater_inactive s dt d hs
    rw [waterSteps_cons]
    constructor
    · intro hlt
      obtain ⟨e1, e2, e3⟩ := u1 hlt
      have hs' : ¬ ((updateWater s dt false d).isOn = true ∧
          (updateWater s dt false d).lockedByFullBowl = false) := by
        rw [e2, e3]; exact hs
      obtain ⟨g1, g2, g3⟩ := (ih _ hs').1 (by rw [e1]; exact hlt)
      exact ⟨g1.trans e1, g2.trans e2, g3.trans e3⟩
    · intro hge _
      obtain ⟨e1, e2, e3⟩ := u2 hge
      have hs' : ¬ ((updateWater s dt false d).isOn = true ∧
          (updateWater s dt false d).lockedByFullBowl = false) := by
        rw [e2]; simp
      rcases l with _ | ⟨d2, l2⟩
      · exact ⟨e1, e2, e3⟩
      · exact (ih _ hs').2 (by rw [e1]) (by simp)

theorem waterSteps_locked_full (dt : ℚ) (l : List ℚ) (s : AppState) (h1 : s.waterLevel = 1)
    (h2 : s.isOn = false) (h3 : s.lockedByFullBowl = true) :
    (waterSteps dt l s).waterLevel = 1 ∧ (waterSteps dt l s).isOn = false ∧
    (waterSteps dt l s).lockedByFullBowl = true := by
  rcases l with _ | ⟨d, l⟩
  · exact ⟨h1, h2, h3⟩
  · exact (waterSteps_inactive dt (d :: l) s (by rw [h2]; simp)).2 (le_of_eq h1.symm) (by simp)

/-- One call of `updateWater`, Space not pressed, on an active state whose
bowl is already at capacity, with a non-negative fill rate. -/
theorem updateWater_active_full (s : AppState) (dt d : ℚ) (hon : s.isOn = true)
    (hun : s.lockedByFullBowl = false) (hl : 1 ≤ s.waterLevel)
    (hf : 0 ≤ s.waterFillPerSecond) :
    (updateWater s dt false d).waterLevel = 1 ∧ (updateWater s dt false d).isOn = false ∧
    (updateWater s dt false d).lockedByFullBowl = true := by
  obtain ⟨_, hfull, _⟩ := updateWater_full s dt false d
  apply hfull
  rw [spaceAction_no_space]
  unfold fillStep
  rw [if_pos ⟨hon, hun⟩]
  exact le_trans hl (fillLoop_level_ge _ _ _ hf)

/-- One call of `updateWater`, Space not pressed, on an active state, that
does not complete a second. -/
theorem updateWater_below (s : AppState) (dt d : ℚ) (hon : s.isOn = true)
    (hun : s.lockedByFullBowl = false) (h : s.waterAccum + dt < 1) (hl : s.waterLevel < 1) :
    (updateWater s dt false d).waterAccum = s.waterAccum + dt ∧
    (updateWater s dt false d).waterFillPerSecond = s.waterFillPerSecond ∧
    (updateWater s dt false d).waterLevel = s.waterLevel ∧
    (updateWater s dt false d).isOn = true ∧
    (updateWater s dt false d).lockedByFullBowl = false := by
  obtain ⟨_, _, hbelow⟩ := updateWater_full s dt false d
  rw [spaceAction_no_space, fillStep_below s dt hon hun h] at hbelow
  obtain ⟨e1, e2, e3⟩ := hbelow hl
  refine ⟨?_, (updateWater_fields s dt false d).2.2.1, e1, e2.trans hon, e3.trans hun⟩
  show (capAndLock (fillStep (spaceAction s false d) dt)).waterAccum = _
  rw [(capAndLock_fields _).2.2.1, spaceAction_no_space, fillStep_below s dt hon hun h]

/-- The calls of step `1/k` that complete one second, from an active state
below capacity that has accumulated `i/k`. -/
theorem waterSteps_block (k : ℕ) (hk : 0 < k) (l : List ℚ) :
    ∀ (s : AppState) (i : ℕ), s.isOn = true → s.lockedByFullBowl = false →
      s.waterLevel < 1 → s.waterAccum = (i : ℚ) / k → i + l.length = k → 0 < l.length →
      (waterSteps (1 / k) l s).waterAccum = 0 ∧
      (waterSteps (1 / k) l s).waterFillPerSecond = s.waterFillPerSecond ∧
      (s.waterLevel + s.waterFillPerSecond < 1 →
        (waterSteps (1 / k) l s).waterLevel = s.waterLevel + s.waterFillPerSecond ∧
        (waterSteps (1 / k) l s).isOn = true ∧
        (waterSteps (1 / k) l s).lockedByFullBowl = false) ∧
      (1 ≤ s.waterLevel + s.waterFillPerSecond →
        (waterSteps (1 / k) l s).waterLevel = 1 ∧
        (waterSteps (1 / k) l s).isOn = false ∧
        (waterSteps (1 / k) l s).lockedByFullBowl = true) := by
  have hk0 : (0 : ℚ) < k := by exact_mod_cast hk
  induction l with
  | nil => intro s i _ _ _ _ _ h; exact absurd h (by simp)
  | cons d l ih =>
    intro s i hon hun hlev hacc hlen _
    rw [waterSteps_cons]
    have hsum : s.waterAccum + 1 / (k : ℚ) = ((i + 1 : ℕ) : ℚ) / k := by
      rw [hacc]; push_cast; ring
    rcases l with _ | ⟨d2, l2⟩
    · have hik : i + 1 = k := by simpa using hlen
      rw [waterSteps_nil]
      apply updateWater_unit s (1 / k) d hon hun
      rw [hsum, hik]
      exact div_self (ne_of_gt hk0)
    · have hlen2 : i + 1 + (d2 :: l2).length = k := by
        simp only [List.length_cons] at hlen ⊢; omega
      have hik : i + 1 < k := by
        simp only [List.length_cons] at hlen2; omega
      have hlt : s.waterAccum + 1 / (k : ℚ) < 1 := by
        rw [hsum, div_lt_one hk0]
        exact_mod_cast hik
      obtain ⟨b1, b2, b3, b4, b5⟩ := updateWater_below s (1 / k) d hon hun hlt hlev
      have := ih (updateWater s (1 / k) false d) (i + 1) b4 b5 (by rw [b3]; exact hlev)
        (b1.trans hsum) hlen2 (by simp)
      rw [b2, b3] at this
      exact this

theorem waterSteps_fillRate (dt : ℚ) (l : List ℚ) :
    ∀ s : AppState, (waterSteps dt l s).waterFillPerSecond = s.waterFillPerSecond := by
  induction l with
  | nil => intro s; rfl
  | cons d l ih =>
    intro s
    rw [waterSteps_cons, ih, (updateWater_fields s dt false d).2.2.1]

/-- One whole second of fine calls simulates one coarse call. -/
theorem fillAligned_block (k : ℕ) (hk : 0 < k) (a b : AppState) (hab : fillAligned a b)
    (l : List ℚ) (hl : l.length = k) (c : ℚ) :
    fillAligned (waterSteps (1 / k) l a) (updateWater b 1 false c) := by
  obtain ⟨r1, r2, r3, r4, r5⟩ := hab
  have hlpos : 0 < l.length := by rw [hl]; exact hk
  have hne : l ≠ [] := by
    intro h; rw [h] at hlpos; exact absurd hlpos (by simp)
  by_cases hact : a.isOn = true ∧ a.lockedByFullBowl = false
  · obtain ⟨hon, hun⟩ := hact
    obtain ⟨acc1, acc2, hpre⟩ := r5 hon hun
    have honb : b.isOn = true := r2 ▸ hon
    have hunb : b.lockedByFullBowl = false := r3 ▸ hun
    rcases lt_or_le a.waterLevel 1 with hlev | hlev
    · obtain ⟨x1, x2, x3, x4⟩ := waterSteps_block k hk l a 0 hon hun hlev
        (by rw [acc1]; simp) (by simpa using hl) hlpos
      obtain ⟨y1, y2, y3, y4⟩ := updateWater_unit b 1 c honb hunb (by rw [acc2]; norm_num)
      rw [← r1, ← r4] at y3 y4
      rcases lt_or_le (a.waterLevel + a.waterFillPerSecond) 1 with hs | hs
      · obtain ⟨p1, p2, p3⟩ := x3 hs
        obtain ⟨q1, q2, q3⟩ := y3 hs
        exact ⟨p1.trans q1.symm, p2.trans q2.symm, p3.trans q3.symm,
          x2.trans (r4.trans y2.symm), fun _ _ => ⟨x1, y1, Or.inl (by rw [p1]; exact hs)⟩⟩
      · obtain ⟨p1, p2, p3⟩ := x4 hs
        obtain ⟨q1, q2, q3⟩ := y4 hs
        exact ⟨p1.trans q1.symm, p2.trans q2.symm, p3.trans q3.symm,
          x2.trans (r4.trans y2.symm), fun h _ => absurd (p2.symm.trans h) (by simp)⟩
    · have hf : 0 ≤ a.waterFillPerSecond := by
        rcases hpre with h | h
        · exact absurd h (not_lt.mpr hlev)
        · exact h
      obtain ⟨q1, q2, q3⟩ := updateWater_active_full b 1 c honb hunb (r1 ▸ hlev) (r4 ▸ hf)
      rcases l with _ | ⟨d, l2⟩
      · exact absurd rfl hne
      · rw [waterSteps_cons]
        obtain ⟨z1, z2, z3⟩ := updateWater_active_full a (1 / k) d hon hun hlev hf
        obtain ⟨p1, p2, p3⟩ := waterSteps_locked_full (1 / k) l2 _ z1 z2 z3
        refine ⟨p1.trans q1.symm, p2.trans q2.symm, p3.trans q3.symm, ?_,
          fun h _ => absurd (p2.symm.trans h) (by simp)⟩
        rw [waterSteps_fillRate, (updateWater_fields a _ false d).2.2.1,
          (updateWater_fields b 1 false c).2.2.1]
        exact r4
  · have hactb : ¬ (b.isOn = true ∧ b.lockedByFullBowl = false) := by
      rw [← r2, ← r3]; exact hact
    obtain ⟨x1, x2⟩ := waterSteps_inactive (1 / k) l a hact
    obtain ⟨y1, y2⟩ := updateWater_inactive b 1 c hactb
    have hfill : (waterSteps (1 / (k : ℚ)) l a).waterFillPerSecond =
        (updateWater b 1 false c).waterFillPerSecond := by
      rw [waterSteps_fillRate, (updateWater_fields b 1 false c).2.2.1]
      exact r4
    rcases lt_or_le a.waterLevel 1 with hlev | hlev
    · obtain ⟨p1, p2, p3⟩ := x1 hlev
      obtain ⟨q1, q2, q3⟩ := y1 (r1 ▸ hlev)
      refine ⟨p1.trans (r1.trans q1.symm), p2.trans (r2.trans q2.symm),
        p3.trans (r3.trans q3.symm), hfill, fun h1 h2 => ?_⟩
      exact absurd ⟨p2.symm.trans h1, p3.symm.trans h2⟩ hact
    · obtain ⟨p1, p2, p3⟩ := x2 hlev hne
      obtain ⟨q1, q2, q3⟩ := y2 (r1 ▸ hlev)
      exact ⟨p1.trans q1.symm, p2.trans q2.symm, p3.trans q3.symm, hfill,
        fun h _ => absurd (p2.symm.trans h) (by simp)⟩

/-- The fine run over `T` seconds simulates the coarse run of `T` calls. -/
theorem fillAligned_runs (k : ℕ) (hk : 0 < k) (T : ℕ) :
    ∀ (a b : AppState) (fine coarse : List ℚ), fillAligned a b → fine.length = k * T →
      coarse.length = T → fillAligned (waterSteps (1 / k) fine a) (waterSteps 1 coarse b) := by
  induction T with
  | zero =>
    intro a b fine coarse hab hf hc
    have h1 : fine = [] := List.length_eq_zero.mp (by simpa using hf)
    have h2 : coarse = [] := List.length_eq_zero.mp hc
    rw [h1, h2]
    exact hab
  | succ T ih =>
    intro a b fine coarse hab hf hc
    rcases coarse with _ | ⟨c, cs⟩
    · exact absurd hc (by simp)
    · have hsplit : fine = List.take k fine ++ List.drop k fine :=
        (List.take_append_drop k fine).symm
      have htake : (List.take k fine).length = k := by
        rw [List.length_take, hf]
        exact min_eq_left (by nlinarith)
      have hdrop : (List.drop k fine).length = k * T := by
        rw [List.length_drop, hf, Nat.mul_succ]
        omega
      rw [hsplit, waterSteps_append, waterSteps_cons]
      exact ih _ _ _ cs (fillAligned_block k hk a b hab _ htake c) hdrop
        (by simpa using hc)

/-- After `updateWater` an unlocked state is below capacity. -/
theorem updateWater_unlocked_below (s : AppState) (dt : ℚ) (sp : Bool) (dot : ℚ)
    (h : (updateWater s dt sp dot).lockedByFullBowl = false) :
    (updateWater s dt sp dot).waterLevel < 1 := by
  unfold updateWater at h ⊢
  dsimp only at h ⊢
  rcases capAndLock_cases (fillStep (spaceAction s sp dot) dt) with ⟨h1, h2⟩ | ⟨_, h2⟩
  · rw [h2]; exact h1
  · rw [h2] at h
    exact absurd h (by simp)

/-- C5: the water fill is frame-rate independent (exact arithmetic). For every
`k >= 1` and `T >= 0`, from a state that is on and unlocked with
`waterAccum = 0`, `k*T` calls of `updateWater` with `deltaTime = 1/k` give the
same `waterLevel`, `isOn` and `lockedByFullBowl` as `T` calls with
`deltaTime = 1`, Space never pressed, whatever the camera orientation at each
call. The start state is below capacity, as every unlocked state the program
reaches is (`updateWater_unlocked_below`), or else has a fill rate that is not
negative. -/
theorem fill_frame_rate_independent (k T : ℕ) (s : AppState) (fineDots coarseDots : List ℚ)
    (hk : 1 ≤ k) (_hon : s.isOn = true) (_hun : s.lockedByFullBowl = false)
    (hacc : s.waterAccum = 0) (hpre : s.waterLevel < 1 ∨ 0 ≤ s.waterFillPerSecond)
    (hfine : fineDots.length = k * T) (hcoarse : coarseDots.length = T) :
    (waterSteps (1 / k) fineDots s).waterLevel = (waterSteps 1 coarseDots s).waterLevel ∧
    (waterSteps (1 / k) fineDots s).isOn = (waterSteps 1 coarseDots s).isOn ∧
    (waterSteps (1 / k) fineDots s).lockedByFullBowl =
      (waterSteps 1 coarseDots s).lockedByFullBowl := by
  have h0 : fillAligned s s := ⟨rfl, rfl, rfl, rfl, fun _ _ => ⟨hacc, hacc, hpre⟩⟩
  obtain ⟨e1, e2, e3, _, _⟩ := fillAligned_runs k hk T s s fineDots coarseDots h0 hfine hcoarse
  exact ⟨e1, e2, e3⟩

/-- Witness for C5: the scenario state, two seconds at four calls a second
against two calls of one second. -/
theorem fill_frame_rate_independent_witness :
    (waterSteps (1 / ((4 : ℕ) : ℚ)) [0, 0, 0, 0, 0, 0, 0, 0] scenarioState).waterLevel =
      (waterSteps 1 [0, 0] scenarioState).waterLevel ∧
    (waterSteps (1 / ((4 : ℕ) : ℚ)) [0, 0, 0, 0, 0, 0, 0, 0] scenarioState).isOn =
      (waterSteps 1 [0, 0] scenarioState).isOn ∧
    (waterSteps (1 / ((4 : ℕ) : ℚ)) [0, 0, 0, 0, 0, 0, 0, 0] scenarioState).lockedByFullBowl =
      (waterSteps 1 [0, 0] scenarioState).lockedByFullBowl :=
  fill_frame_rate_independent 4 2 scenarioState [0, 0, 0, 0, 0, 0, 0, 0] [0, 0] (by decide)
    rfl rfl rfl (Or.inl (by norm_num [scenarioState])) rfl rfl

/-! ## Power toggle and click handling -/

/-- C11: `handlePowerToggle` flips `isOn` exactly when `mouseDown` is true,
`prevMouseDown` was false, the cursor lies within the lamp circle (squared
distance at most the squared radius) and `lockedByFullBowl` is false; in every
other case `isOn` is unchanged; in all cases `prevMouseDown` becomes
`mouseDown` and no other field changes. -/
theorem handlePowerToggle_characterised (s : AppState) (mouseX mouseY : ℚ) (mouseDown : Bool)
    (lampShape : CircleShape) :
    handlePowerToggle s mouseX mouseY mouseDown lampShape =
      { s with
        isOn :=
          if mouseDown = true ∧ s.prevMouseDown = false ∧
              (mouseX - lampShape.x) * (mouseX - lampShape.x) +
                (mouseY - lampShape.y) * (mouseY - lampShape.y) ≤
                  lampShape.radius * lampShape.radius ∧
              s.lockedByFullBowl = false
          then !s.isOn else s.isOn,
        prevMouseDown := mouseDown } ∧
    ((handlePowerToggle s mouseX mouseY mouseDown lampShape).isOn ≠ s.isOn ↔
      (mouseDown = true ∧ s.prevMouseDown = false ∧
        (mouseX - lampShape.x) * (mouseX - lampShape.x) +
          (mouseY - lampShape.y) * (mouseY - lampShape.y) ≤
            lampShape.radius * lampShape.radius ∧
        s.lockedByFullBowl = false)) := by
  unfold handlePowerToggle
  dsimp only
  constructor
  · split_ifs with h1 h2 h3 h3 h3
    · rfl
    · exact absurd ⟨h1.1, h1.2, h2.1, h2.2⟩ h3
    · exact absurd ⟨h3.2.2.1, h3.2.2.2⟩ h2
    · rfl
    · exact absurd ⟨h3.1, h3.2.1⟩ h1
    · rfl
  · split_ifs with h1 h2
    · simp [h1.1, h1.2, h2.1, h2.2]
    · constructor
      · intro h; exact absurd rfl h
      · intro h; exact absurd ⟨h.2.2.1, h.2.2.2⟩ h2
    · constructor
      · intro h; exact absurd rfl h
      · intro h; exact absurd ⟨h.1, h.2.1⟩ h1

theorem frameStep_lampRay_flips :
    frameStep { appState := { fullBowlState with ventOpenness := 1 }, prevLPressed := false }
        (lampRayFrame (1 / 75)) =
      { appState :=
          { fullBowlState with
            isOn := true, ventOpenness := 74 / 75, prevMouseDown := true },
        prevLPressed := false } := by
  norm_num [frameStep, lampRayFrame, idleFrame, scenarioState, fullBowlState, arrowClick,
    handlePowerToggle, handleTemperatureInput, clampDesired, updateVent, targetOpenness,
    updateTemperature, updateWater, spaceAction, fillStep, capAndLock, lKeyToggle, rayPick,
    lampRayPick, arrowRayPick, bowlRayPick, pointInRect, shiftRect, shiftCircle, offsetX,
    offsetY, tempArrowButton, lamp, acBody, bowlOutline, fillLoop_of_le, fillLoop_of_lt]

/-- C12: the lamp ray pick flips `isOn` while the appliance is locked. The
lamp part of the click handling flips `isOn` on every ray hit, whatever
`lockedByFullBowl` is; so from the start state a frame of 10 seconds fills the
bowl and locks (off, locked), and a click start in the next frame whose pick
ray hits the lamp sphere ends the frame with `isOn = true` and
`lockedByFullBowl = true`. -/
theorem lamp_ray_hit_flips_while_locked :
    (∀ s : AppState, (lampRayPick s true).isOn = !s.isOn) ∧
    (runFrames startFrameState [idleFrame 10]).appState.isOn = false ∧
    (runFrames startFrameState [idleFrame 10]).appState.lockedByFullBowl = true ∧
    (runFrames startFrameState [idleFrame 10, lampRayFrame (1 / 75)]).appState.isOn = true ∧
    (runFrames startFrameState [idleFrame 10, lampRayFrame (1 / 75)]).appState.lockedByFullBowl
      = true := by
  have h1 : runFrames startFrameState [idleFrame 10] =
      frameStep startFrameState (idleFrame 10) := rfl
  have h2 : runFrames startFrameState [idleFrame 10, lampRayFrame (1 / 75)] =
      frameStep (frameStep startFrameState (idleFrame 10)) (lampRayFrame (1 / 75)) := rfl
  rw [h1, h2, frameStep_stall_fills, frameStep_lampRay_flips]
  exact ⟨fun s => rfl, rfl, rfl, rfl, rfl⟩

/-! ## Bowl pick-up and the Space gate -/

theorem arrowRayPick_holdingBowl (s : AppState) (clicked top bot : Bool) :
    (arrowRayPick s clicked top bot).holdingBowl = s.holdingBowl ∧
    (arrowRayPick s clicked top bot).waterLevel = s.waterLevel ∧
    (arrowRayPick s clicked top bot).isOn = s.isOn := by
  unfold arrowRayPick clampDesired
  dsimp only
  split_ifs <;> exact ⟨rfl, rfl, rfl⟩

theorem arrowClick_holdingBowl (s : AppState) (clickStarted : Bool) (mx my : ℚ)
    (r : RectShape) : (arrowClick s clickStarted mx my r).1.holdingBowl = s.holdingBowl := by
  unfold arrowClick clampDesired
  dsimp only
  split_ifs <;> rfl

/-- C14 (amended): on a click start the click handling changes `holdingBowl`
exactly when the pick ray hits the bowl volume, `waterLevel >= 0.99` and
`isOn` is false at the bowl test (that is, after the lamp ray test of the same
click); the toggle is then a flip. The 2D arrow click, `handlePowerToggle`
and the other ray tests leave `holdingBowl` unchanged. -/
theorem bowl_click_toggles_holdingBowl (s : AppState) (tempArrowClicked clickStarted : Bool)
    (inp : FrameInput) (lampShape : CircleShape) (arrowRect : RectShape) :
    (rayPick s tempArrowClicked inp).holdingBowl =
      (if inp.bowlRayHit = true ∧ 99 / 100 ≤ s.waterLevel ∧
          (lampRayPick s inp.lampRayHit).isOn = false
        then !s.holdingBowl else s.holdingBowl) ∧
    (arrowClick s clickStarted inp.mouseX inp.mouseY arrowRect).1.holdingBowl = s.holdingBowl ∧
    (handlePowerToggle s inp.mouseX inp.mouseY inp.mouseDown lampShape).holdingBowl
      = s.holdingBowl := by
  refine ⟨?_, arrowClick_holdingBowl _ _ _ _ _, ?_⟩
  · obtain ⟨a1, a2, a3⟩ := arrowRayPick_holdingBowl (lampRayPick s inp.lampRayHit)
      tempArrowClicked inp.topArrowRayHit inp.botArrowRayHit
    have l1 : (lampRayPick s inp.lampRayHit).holdingBowl = s.holdingBowl := by
      unfold lampRayPick; split_ifs <;> rfl
    unfold rayPick bowlRayPick
    dsimp only
    rw [a2, a3, (lampRayPick_fields s inp.lampRayHit).2.2]
    split_ifs with h1 h2 h3 h3 h3
    · show (!(arrowRayPick _ _ _ _).holdingBowl) = _
      rw [a1, l1]
    · exact absurd ⟨h1, h2.1, h2.2⟩ h3
    · exact absurd ⟨h3.2.1, h3.2.2⟩ h2
    · rw [a1, l1]
    · exact absurd h3.1 h1
    · rw [a1, l1]
  · unfold handlePowerToggle
    dsimp only
    split_ifs <;> rfl

/-- C14, counterexample: with the appliance off and `waterLevel = 0.99`, below
the capacity 1.0, a click start whose pick ray hits the bowl picks the bowl
up: the frame starts with `holdingBowl = false` and ends with
`holdingBowl = true`. -/
theorem bowl_click_below_capacity_counterexample :
    almostFullOffState.waterLevel < 1 ∧ almostFullOffState.isOn = false ∧
    almostFullOffState.holdingBowl = false ∧
    (frameStep { appState := almostFullOffState, prevLPressed := false }
      (bowlRayFrame (1 / 75))).appState.holdingBowl = true ∧
    (frameStep { appState := almostFullOffState, prevLPressed := false }
      (bowlRayFrame (1 / 75))).appState.waterLevel = 99 / 100 := by
  refine ⟨by norm_num [almostFullOffState, scenarioState], rfl, rfl, ?_, ?_⟩ <;>
    norm_num [frameStep, bowlRayFrame, idleFrame, almostFullOffState, scenarioState,
      arrowClick, handlePowerToggle, handleTemperatureInput, clampDesired, updateVent,
      targetOpenness, updateTemperature, updateWater, spaceAction, fillStep, capAndLock,
      lKeyToggle, rayPick, lampRayPick, arrowRayPick, bowlRayPick, pointInRect, shiftRect,
      shiftCircle, offsetX, offsetY, tempArrowButton, lamp, acBody, bowlOutline]

/-- The Space branch of `updateWater` as one case distinction. -/
theorem spaceAction_eq (s : AppState) (dot : ℚ) (spacePressed : Bool) :
    spaceAction s spacePressed dot =
      (if spacePressed = true ∧ s.prevSpacePressed = false ∧ s.holdingBowl = true ∧
          99 / 100 ≤ s.waterLevel ∧ dot ≤ -(9 / 10)
        then { s with waterLevel := 0, lockedByFullBowl := false }
        else if spacePressed = true ∧ s.prevSpacePressed = false ∧ s.holdingBowl = true ∧
          s.waterLevel < 99 / 100 ∧ 9 / 10 ≤ dot
        then { s with holdingBowl := false, waterLevel := 0, lockedByFullBowl := false }
        else s) := by
  unfold spaceAction
  simp only [Bool.and_eq_true, Bool.not_eq_true', ge_iff_le]
  by_cases hsp : spacePressed = true ∧ s.prevSpacePressed = false
  · by_cases hh : s.holdingBowl = true
    · by_cases hl : 99 / 100 ≤ s.waterLevel
      · by_cases hd : dot ≤ -(9 / 10)
        · simp [hsp, hh, hl, hd]
        · simp [hsp, hh, hl, hd, not_lt.mpr hl]
      · by_cases hd : 9 / 10 ≤ dot
        · simp [hsp, hh, hl, hd, not_le.mp hl]
        · simp [hsp, hh, hl, hd]
    · simp [hsp, hh]
  · have hsp2 : ¬ (spacePressed = true ∧ s.prevSpacePressed = false ∧ s.holdingBowl = true ∧
        99 / 100 ≤ s.waterLevel ∧ dot ≤ -(9 / 10)) := fun h => hsp ⟨h.1, h.2.1⟩
    have hsp3 : ¬ (spacePressed = true ∧ s.prevSpacePressed = false ∧ s.holdingBowl = true ∧
        s.waterLevel < 99 / 100 ∧ 9 / 10 ≤ dot) := fun h => hsp ⟨h.1, h.2.1⟩
    rw [if_neg hsp, if_neg hsp2, if_neg hsp3]

/-- Outside its gate the Space branch changes nothing. -/
theorem spaceAction_of_not_gate (s : AppState) (dot : ℚ) (spacePressed : Bool)
    (hg : ¬ spaceGate s spacePressed dot) : spaceAction s spacePressed dot = s := by
  rw [spaceAction_eq]
  have g1 : ¬ (spacePressed = true ∧ s.prevSpacePressed = false ∧ s.holdingBowl = true ∧
      99 / 100 ≤ s.waterLevel ∧ dot ≤ -(9 / 10)) :=
    fun h => hg ⟨h.1, h.2.1, h.2.2.1, Or.inl h.2.2.2⟩
  have g2 : ¬ (spacePressed = true ∧ s.prevSpacePressed = false ∧ s.holdingBowl = true ∧
      s.waterLevel < 99 / 100 ∧ 9 / 10 ≤ dot) :=
    fun h => hg ⟨h.1, h.2.1, h.2.2.1, Or.inr h.2.2.2⟩
  rw [if_neg g1, if_neg g2]

/-- C15: the Space handling of `updateWater` is gated. The Space branch
changes the state only on a rising edge of Space with `holdingBowl` true:
at `waterLevel >= 0.99` and `dot <= -0.9` it sets `waterLevel = 0` and clears
the lock, `holdingBowl` staying true; at `waterLevel < 0.99` and `dot >= 0.9`
it does the same and sets `holdingBowl = false`; in every other case it
changes nothing. In particular, with `holdingBowl` false the result of
`updateWater` is the same for `spacePressed` true and false except for
`prevSpacePressed`. -/
theorem space_action_gated (s : AppState) (deltaTime dot : ℚ) (spacePressed : Bool) :
    spaceAction s spacePressed dot =
      (if spacePressed = true ∧ s.prevSpacePressed = false ∧ s.holdingBowl = true ∧
          99 / 100 ≤ s.waterLevel ∧ dot ≤ -(9 / 10)
        then { s with waterLevel := 0, lockedByFullBowl := false }
        else if spacePressed = true ∧ s.prevSpacePressed = false ∧ s.holdingBowl = true ∧
          s.waterLevel < 99 / 100 ∧ 9 / 10 ≤ dot
        then { s with holdingBowl := false, waterLevel := 0, lockedByFullBowl := false }
        else s) ∧
    (¬ spaceGate s spacePressed dot → spaceAction s spacePressed dot = s) ∧
    (s.holdingBowl = false →
      updateWater s deltaTime true dot =
        { updateWater s deltaTime false dot with prevSpacePressed := true }) := by
  refine ⟨spaceAction_eq s dot spacePressed, spaceAction_of_not_gate s dot spacePressed, ?_⟩
  intro hh
  have e : spaceAction s true dot = s := by
    unfold spaceAction
    simp [hh]
  unfold updateWater
  rw [e, spaceAction_no_space]

/-- Witness for C15: in the full-bowl state the bowl is not held, so Space
changes nothing but the latch. -/
theorem space_action_gated_witness :
    updateWater fullBowlState 1 true (-1) =
      { updateWater fullBowlState 1 false (-1) with prevSpacePressed := true } :=
  (space_action_gated fullBowlState 1 (-1) true).2.2 rfl

/-! ## Monotone water level, temperature range -/

theorem fillStep_level_ge (s : AppState) (dt : ℚ) (hf : 0 ≤ s.waterFillPerSecond) :
    s.waterLevel ≤ (fillStep s dt).waterLevel := by
  unfold fillStep
  split_ifs
  · exact fillLoop_level_ge _ _ _ hf
  · exact le_refl _

theorem capAndLock_level (s : AppState) : (capAndLock s).waterLevel = min 1 s.waterLevel := by
  rcases capAndLock_cases s with ⟨h, e⟩ | ⟨h, e⟩
  · rw [e, min_eq_right (le_of_lt h)]
  · rw [e, min_eq_left h]

/-- When the Space branch does not fire, `updateWater` does not lower a level
that is at most 1, for a non-negative fill rate. -/
theorem updateWater_level_ge (s : AppState) (dt dot : ℚ) (sp : Bool)
    (hf : 0 ≤ s.waterFillPerSecond) (h1 : s.waterLevel ≤ 1) (hg : ¬ spaceGate s sp dot) :
    s.waterLevel ≤ (updateWater s dt sp dot).waterLevel := by
  have e : spaceAction s sp dot = s := spaceAction_of_not_gate s dot sp hg
  show s.waterLevel ≤ (capAndLock (fillStep (spaceAction s sp dot) dt)).waterLevel
  rw [e, capAndLock_level]
  exact le_min h1 (fillStep_level_ge s dt hf)

/-- C16 (amended): `waterLevel` is non-decreasing while on and unlocked, and
is lowered only by the Space branch. For every `updateWater` call with
`deltaTime >= 0`, `waterFillPerSecond >= 0` and `0 <= waterLevel <= 1` on a
state that is on and unlocked, in which the Space branch does not fire (no
rising edge of Space, or the bowl not held, or the orientation gate not met),
the resulting `waterLevel` is at least the prior one; and whenever a call
lowers `waterLevel`, that call has a rising edge of Space with the bowl held
and either empties it (`waterLevel >= 0.99`, `dot <= -0.9`) or returns it
(`waterLevel < 0.99`, `dot >= 0.9`). -/
theorem waterLevel_monotone_unless_space (s : AppState) (deltaTime dot : ℚ)
    (spacePressed : Bool) (_hdt : 0 ≤ deltaTime) (hfill : 0 ≤ s.waterFillPerSecond)
    (_h0 : 0 ≤ s.waterLevel) (h1 : s.waterLevel ≤ 1) (_hon : s.isOn = true)
    (_hun : s.lockedByFullBowl = false) :
    (¬ spaceGate s spacePressed dot →
      s.waterLevel ≤ (updateWater s deltaTime spacePressed dot).waterLevel) ∧
    ((updateWater s deltaTime spacePressed dot).waterLevel < s.waterLevel →
      spaceGate s spacePressed dot) := by
  refine ⟨updateWater_level_ge s deltaTime dot spacePressed hfill h1, fun hlt => ?_⟩
  by_contra hg
  exact absurd hlt (not_lt.mpr (updateWater_level_ge s deltaTime dot spacePressed hfill h1 hg))

/-- Witness for C16: one second of fill from the scenario state, Space not
pressed. -/
theorem waterLevel_monotone_unless_space_witness :
    scenarioState.waterLevel ≤ (updateWater scenarioState 1 false 0).waterLevel :=
  (waterLevel_monotone_unless_space scenarioState 1 0 false (by norm_num)
    (by norm_num [scenarioState]) (by norm_num [scenarioState]) (by norm_num [scenarioState])
    rfl rfl).1 (by simp [spaceGate])

/-- C16, counterexample: on and unlocked, bowl held and half full
(`waterLevel = 0.5`, fill rate 0.1): a rising edge of Space facing the unit
(`dot = 1`) returns the bowl and sets `waterLevel` to 0. The level drops in a
call that is on and unlocked, and the call does not empty a full bowl. -/
theorem waterLevel_return_counterexample :
    heldHalfFullState.isOn = true ∧ heldHalfFullState.lockedByFullBowl = false ∧
    heldHalfFullState.waterLevel = 1 / 2 ∧ heldHalfFullState.waterFillPerSecond = 1 / 10 ∧
    (updateWater heldHalfFullState (1 / 75) true 1).waterLevel = 0 ∧
    (updateWater heldHalfFullState (1 / 75) true 1).holdingBowl = false := by
  refine ⟨rfl, rfl, rfl, rfl, ?_, ?_⟩ <;>
    norm_num [updateWater, spaceAction, fillStep, capAndLock, heldHalfFullState, scenarioState,
      fillLoop_of_lt]

/-- C17: `currentTemp` is kept within [-10, 40]. For every state with
`currentTemp` and `desiredTemp` in [-10, 40], every `deltaTime >= 0` and
`tempDriftSpeed >= 0`, `updateTemperature` leaves `currentTemp` in [-10, 40];
and each of the five update functions keeps both temperatures in range. -/
theorem currentTemp_stays_in_range (s : AppState) (mouseX mouseY deltaTime dot : ℚ)
    (mouseDown upPressed downPressed spacePressed : Bool) (lampShape : CircleShape)
    (hrange : tempsInRange s) (hdt : 0 ≤ deltaTime) (hspeed : 0 ≤ s.tempDriftSpeed) :
    (-10 ≤ (updateTemperature s deltaTime).currentTemp ∧
      (updateTemperature s deltaTime).currentTemp ≤ 40) ∧
    tempsInRange (handlePowerToggle s mouseX mouseY mouseDown lampShape) ∧
    tempsInRange (handleTemperatureInput s upPressed downPressed) ∧
    tempsInRange (updateVent s deltaTime) ∧
    tempsInRange (updateTemperature s deltaTime) ∧
    tempsInRange (updateWater s deltaTime spacePressed dot) := by
  obtain ⟨⟨c0, c1⟩, ⟨d0, d1⟩⟩ := hrange
  have hstep : 0 ≤ s.tempDriftSpeed * deltaTime := mul_nonneg hspeed hdt
  have hT : -10 ≤ (updateTemperature s deltaTime).currentTemp ∧
      (updateTemperature s deltaTime).currentTemp ≤ 40 := by
    by_cases hact : s.isOn = true ∧ s.lockedByFullBowl = false
    · obtain ⟨a1, a2, a3⟩ := updateTemperature_active s deltaTime hact.1 hact.2
      rcases le_or_lt |s.desiredTemp - s.currentTemp| (s.tempDriftSpeed * deltaTime) with h | h
      · rw [a1 h]; exact ⟨d0, d1⟩
      · rcases lt_or_le 0 (s.desiredTemp - s.currentTemp) with hp | hp
        · rw [a2 h hp]
          rw [abs_of_pos hp] at h
          constructor <;> linarith
        · rw [a3 h hp]
          rw [abs_of_nonpos hp] at h
          constructor <;> linarith
    · have e : updateTemperature s deltaTime = s := by
        unfold updateTemperature
        rw [if_pos]
        by_cases hon : s.isOn = true
        · right
          by_contra hl
          exact hact ⟨hon, by simpa using hl⟩
        · left
          simpa using hon
      rw [e]; exact ⟨c0, c1⟩
  refine ⟨hT, ?_, ?_, ?_, ?_, ?_⟩
  · unfold tempsInRange handlePowerToggle
    dsimp only
    split_ifs <;> exact ⟨⟨c0, c1⟩, ⟨d0, d1⟩⟩
  · refine ⟨?_, handleTemperatureInput_range s _ _⟩
    have e : (handleTemperatureInput s upPressed downPressed).currentTemp = s.currentTemp := by
      unfold handleTemperatureInput clampDesired
      dsimp only
      split_ifs <;> rfl
    rw [e]; exact ⟨c0, c1⟩
  · unfold tempsInRange updateVent
    split_ifs <;> exact ⟨⟨c0, c1⟩, ⟨d0, d1⟩⟩
  · refine ⟨hT, ?_⟩
    rw [(updateTemperature_fields s deltaTime).2.2.2.1]
    exact ⟨d0, d1⟩
  · refine ⟨?_, ?_⟩
    · have e : (updateWater s deltaTime spacePressed dot).currentTemp = s.currentTemp := by
        show (capAndLock (fillStep (spaceAction s spacePressed dot) deltaTime)).currentTemp = _
        have e1 : ∀ x : AppState, (capAndLock x).currentTemp = x.currentTemp := by
          intro x
          rcases capAndLock_cases x with ⟨_, e⟩ | ⟨_, e⟩ <;> rw [e]
        have e2 : ∀ x : AppState, (fillStep x deltaTime).currentTemp = x.currentTemp := by
          intro x
          unfold fillStep
          split_ifs <;> rfl
        have e3 : (spaceAction s spacePressed dot).currentTemp = s.currentTemp := by
          unfold spaceAction
          dsimp only
          split_ifs <;> rfl
        rw [e1, e2, e3]
      rw [e]; exact ⟨c0, c1⟩
    · rw [(updateWater_fields s deltaTime spacePressed dot).1]
      exact ⟨d0, d1⟩

/-- Witness for C17: the cool-room state (current 17, target 20, step 1/2). -/
theorem currentTemp_stays_in_range_witness :
    -10 ≤ (updateTemperature coolRoomState (1 / 4)).currentTemp ∧
    (updateTemperature coolRoomState (1 / 4)).currentTemp ≤ 40 :=
  (currentTemp_stays_in_range coolRoomState 0 0 (1 / 4) 0 false false false false lamp
    (by norm_num [tempsInRange, coolRoomState, scenarioState]) (by norm_num)
    (by norm_num [coolRoomState, scenarioState])).1

/-! ## Pixel-to-world mapping -/

theorem mapToAC_shifted (windowWidth windowHeight : ℤ) (px py z : ℚ) :
    mapToAC windowWidth windowHeight (px + offsetX windowWidth) (py + offsetY windowHeight) z =
      { x := (px - 240) * (1 / 2), y := (100 - py) * (1 / 2), z := z } := by
  unfold mapToAC shiftRect acBody
  simp only [Vec3.mk.injEq, and_true]
  constructor <;> ring

/-- C18: the pixel-to-world mapping does not depend on the window. For every
`windowWidth` and `windowHeight`: the corners of the centred AC body rectangle
map under `mapToAC` to (-120, 50) and (120, -50), every point of that
rectangle maps into x in [-120, 120], y in [-50, 50]; a layout point placed by
the centring offset maps to a position in which the window size does not
occur; and the lamp position of the frame is (98, -37, 46). -/
theorem mapToAC_window_independent (windowWidth windowHeight : ℤ) (px py z : ℚ) :
    mapToAC windowWidth windowHeight (shiftRect windowWidth windowHeight acBody).x
        (shiftRect windowWidth windowHeight acBody).y z = { x := -120, y := 50, z := z } ∧
    mapToAC windowWidth windowHeight
        ((shiftRect windowWidth windowHeight acBody).x +
          (shiftRect windowWidth windowHeight acBody).w)
        ((shiftRect windowWidth windowHeight acBody).y +
          (shiftRect windowWidth windowHeight acBody).h) z = { x := 120, y := -50, z := z } ∧
    (pointInRect px py (shiftRect windowWidth windowHeight acBody) = true →
      (-120 ≤ (mapToAC windowWidth windowHeight px py z).x ∧
        (mapToAC windowWidth windowHeight px py z).x ≤ 120) ∧
      (-50 ≤ (mapToAC windowWidth windowHeight px py z).y ∧
        (mapToAC windowWidth windowHeight px py z).y ≤ 50)) ∧
    mapToAC windowWidth windowHeight (px + offsetX windowWidth) (py + offsetY windowHeight) z =
      { x := (px - 240) * (1 / 2), y := (100 - py) * (1 / 2), z := z } ∧
    lampWorldPos windowWidth windowHeight = { x := 98, y := -37, z := 46 } := by
  refine ⟨?_, ?_, ?_, mapToAC_shifted windowWidth windowHeight px py z, ?_⟩
  · unfold mapToAC shiftRect acBody
    simp only [Vec3.mk.injEq, and_true]
    constructor <;> ring
  · unfold mapToAC shiftRect acBody
    simp only [Vec3.mk.injEq, and_true]
    constructor <;> ring
  · intro h
    unfold pointInRect at h
    simp only [decide_eq_true_eq] at h
    obtain ⟨h1, h2, h3, h4⟩ := h
    unfold shiftRect acBody at h1 h2 h3 h4
    simp only at h1 h2 h3 h4
    unfold mapToAC shiftRect acBody
    simp only
    refine ⟨⟨?_, ?_⟩, ⟨?_, ?_⟩⟩ <;> linarith
  · unfold lampWorldPos shiftRect shiftCircle acBody lamp
    simp only [Vec3.mk.injEq]
    refine ⟨?_, ?_, ?_⟩ <;> ring

/-- Witness for C18: the lamp centre in a 1920 x 1080 window lies in the body
rectangle and maps into the world rectangle. -/
theorem mapToAC_window_independent_witness :
    (-120 ≤ (mapToAC 1920 1080 1156 484 46).x ∧ (mapToAC 1920 1080 1156 484 46).x ≤ 120) ∧
    (-50 ≤ (mapToAC 1920 1080 1156 484 46).y ∧ (mapToAC 1920 1080 1156 484 46).y ≤ 50) :=
  (mapToAC_window_independent 1920 1080 1156 484 46).2.2.1
    (by norm_num [pointInRect, shiftRect, acBody, offsetX, offsetY, tempArrowButton,
      bowlOutline])

/-! ## Camera clamps -/

theorem clampPitch_range (p : ℚ) : -89 ≤ clampPitch p ∧ clampPitch p ≤ 89 := by
  unfold clampPitch
  dsimp only
  split_ifs with h1 h2 h2
  · norm_num
  · norm_num
  · norm_num
  · exact ⟨not_lt.mp h2, not_lt.mp h1⟩

theorem firstPersonMove_fields (cam : Camera3D) (deltaTime : ℚ) (inp : UpdateInput) :
    (cam.firstPersonMove deltaTime inp).pitch_ = cam.pitch_ ∧
    (cam.firstPersonMove deltaTime inp).orbitPitch_ = cam.orbitPitch_ ∧
    (cam.firstPersonMove deltaTime inp).orbitRadius_ = cam.orbitRadius_ ∧
    (cam.firstPersonMove deltaTime inp).yaw_ = cam.yaw_ ∧
    (cam.firstPersonMove deltaTime inp).orbitMode_ = cam.orbitMode_ := by
  unfold Camera3D.firstPersonMove
  dsimp only
  split_ifs <;> exact ⟨rfl, rfl, rfl, rfl, rfl⟩

theorem orbitPlace_fields (cam : Camera3D) (inp : UpdateInput) :
    (cam.orbitPlace inp).pitch_ = cam.pitch_ ∧
    (cam.orbitPlace inp).orbitPitch_ = cam.orbitPitch_ ∧
    (cam.orbitPlace inp).orbitRadius_ = cam.orbitRadius_ ∧
    (cam.orbitPlace inp).yaw_ = cam.yaw_ := ⟨rfl, rfl, rfl, rfl⟩

theorem update_fields (cam : Camera3D) (deltaTime : ℚ) (inp : UpdateInput) :
    (cam.update deltaTime inp).pitch_ = cam.pitch_ ∧
    (cam.update deltaTime inp).orbitPitch_ = cam.orbitPitch_ ∧
    (cam.update deltaTime inp).orbitRadius_ = cam.orbitRadius_ := by
  obtain ⟨m1, m2, m3, _, _⟩ := firstPersonMove_fields cam deltaTime inp
  unfold Camera3D.update
  dsimp only
  split_ifs
  · obtain ⟨o1, o2, o3, _⟩ := orbitPlace_fields (cam.firstPersonMove deltaTime inp) inp
    exact ⟨o1.trans m1, o2.trans m2, o3.trans m3⟩
  · exact ⟨m1, m2, m3⟩
  · exact ⟨rfl, rfl, rfl⟩
  · exact ⟨rfl, rfl, rfl⟩

/-- C20: the camera clamp invariant. If `pitch_` and `orbitPitch_` lie in
[-89, 89] and `orbitRadius_` in [50, 2000], they still do after any call of
`cursorPosCallback`, `mouseButtonCallback`, `scrollCallback`, `update`,
`toggleMode` or `setWindowSize`, in either camera mode, for every cursor
position, button, action, scroll offset, key state and window size. -/
theorem camera_clamp_invariant (cam : Camera3D) (xpos ypos xoffset yoffset deltaTime : ℚ)
    (button action mods w h : ℤ) (inp : UpdateInput) (hc : cameraClamped cam) :
    cameraClamped (cam.cursorPosCallback xpos ypos) ∧
    cameraClamped (cam.mouseButtonCallback button action mods) ∧
    cameraClamped (cam.scrollCallback xoffset yoffset) ∧
    cameraClamped (cam.update deltaTime inp) ∧
    cameraClamped cam.toggleMode ∧
    cameraClamped (cam.setWindowSize w h) := by
  obtain ⟨hp, ho, hr⟩ := hc
  refine ⟨?_, ?_, ?_, ?_, ⟨hp, ho, hr⟩, ⟨hp, ho, hr⟩⟩
  · unfold Camera3D.cursorPosCallback
    dsimp only
    split_ifs
    · exact ⟨hp, ho, hr⟩
    · exact ⟨hp, clampPitch_range _, hr⟩
    · exact ⟨hp, ho, hr⟩
    · exact ⟨clampPitch_range _, ho, hr⟩
  · unfold Camera3D.mouseButtonCallback
    dsimp only
    split_ifs <;> exact ⟨hp, ho, hr⟩
  · unfold Camera3D.scrollCallback
    dsimp only
    split_ifs with h1 h2 h3 h3
    · norm_num at h3
    · exact ⟨hp, ho, by norm_num, by norm_num⟩
    · exact ⟨hp, ho, by norm_num, by norm_num⟩
    · exact ⟨hp, ho, not_lt.mp h2, not_lt.mp h3⟩
    · exact ⟨hp, ho, hr⟩
    · exact ⟨hp, ho, hr⟩
  · obtain ⟨u1, u2, u3⟩ := update_fields cam deltaTime inp
    unfold cameraClamped
    rw [u1, u2, u3]
    exact ⟨hp, ho, hr⟩

/-- Witness for C20: the camera as constructed, a cursor move, a scroll and an
update with W and D held. -/
theorem camera_clamp_invariant_witness :
    cameraClamped (initialCamera 1920 1080) ∧
    cameraClamped ((initialCamera 1920 1080).cursorPosCallback 100 5000) ∧
    cameraClamped ((initialCamera 1920 1080).scrollCallback 0 1000) ∧
    cameraClamped ((initialCamera 1920 1080).update (1 / 75) forwardRightInput) :=
  have hc : cameraClamped (initialCamera 1920 1080) := by
    norm_num [cameraClamped, initialCamera]
  have h := camera_clamp_invariant (initialCamera 1920 1080) 100 5000 0 1000 (1 / 75)
    GLFW_MOUSE_BUTTON_LEFT GLFW_PRESS 0 800 600 forwardRightInput hc
  ⟨hc, h.1, h.2.2.1, h.2.2.2.1⟩

/-! ## Order of the render calls -/

theorem screenDraws_pass (state : AppState) (r : RenderInput) :
    ∀ c ∈ screenDraws state r, drawPass c = 2 := by
  intro c hc
  unfold screenDraws at hc
  cases h1 : (state.isOn && r.tempTex0Created) <;> cases h2 : (state.isOn && r.tempTex1Created) <;>
    simp [h1, h2] at hc <;> rcases hc with rfl | rfl | rfl <;> rfl

theorem arrowHalfDraws_pass : ∀ c ∈ arrowHalfDraws, drawPass c = 2 := by
  intro c hc
  unfold arrowHalfDraws at hc
  simp at hc
  rcases hc with rfl | rfl <;> rfl

theorem bowlDraws_pass (state : AppState) (r : RenderInput) :
    ∀ c ∈ bowlDraws state r, drawPass c = 2 := by
  intro c hc
  unfold bowlDraws at hc
  by_cases hw : state.waterLevel > 0 <;> cases h1 : state.holdingBowl <;>
    cases h2 : r.toiletModelLoaded <;> simp [hw, h1, h2] at hc <;>
    rcases hc with rfl | rfl | rfl | rfl | rfl <;> rfl

theorem sceneDraws_pass (state : AppState) (r : RenderInput) :
    ∀ c ∈ sceneDraws state r, drawPass c = 2 := by
  intro c hc
  unfold sceneDraws at hc
  simp only [List.mem_append] at hc
  rcases hc with (((h | h) | h) | h) | h
  · simp at h
    rcases h with rfl | rfl | rfl <;> rfl
  · exact screenDraws_pass state r c h
  · exact arrowHalfDraws_pass c h
  · exact arrowHalfDraws_pass c h
  · exact bowlDraws_pass state r c h

theorem overlayDraws_pass (state : AppState) (r : RenderInput) :
    ∀ c ∈ overlayDraws state r, drawPass c = 3 := by
  intro c hc
  unfold overlayDraws at hc
  simp only [List.mem_append] at hc
  rcases hc with (h | h) | h
  · simp at h
    subst h; rfl
  · unfold statusIconDraws at h
    dsimp only at h
    split_ifs at h <;> simp at h <;> rcases h with rfl | rfl <;> rfl
  · unfold textDraws at h
    cases h1 : r.frameStatsEmpty <;> cases h2 : r.nameplateTexture <;> simp [h1, h2] at h <;>
      rcases h with rfl | rfl | rfl | rfl <;> rfl

theorem pairwise_pass_const (l : List DrawCall) (k : ℕ) (h : ∀ c ∈ l, drawPass c = k) :
    (l.map drawPass).Pairwise (fun a b => a ≤ b) := by
  apply List.pairwise_of_forall_mem_list
  intro a ha b hb
  rw [List.mem_map] at ha hb
  obtain ⟨x, hx, rfl⟩ := ha
  obtain ⟨y, hy, rfl⟩ := hb
  rw [h x hx, h y hy]

theorem pairwise_pass_append (l1 l2 : List DrawCall) (k : ℕ)
    (h1 : (l1.map drawPass).Pairwise (fun a b => a ≤ b))
    (h2 : (l2.map drawPass).Pairwise (fun a b => a ≤ b))
    (b1 : ∀ c ∈ l1, drawPass c ≤ k) (b2 : ∀ c ∈ l2, k ≤ drawPass c) :
    ((l1 ++ l2).map drawPass).Pairwise (fun a b => a ≤ b) := by
  rw [List.map_append, List.pairwise_append]
  refine ⟨h1, h2, ?_⟩
  intro a ha b hb
  rw [List.mem_map] at ha hb
  obtain ⟨x, hx, rfl⟩ := ha
  obtain ⟨y, hy, rfl⟩ := hb
  exact le_trans (b1 x hx) (b2 y hy)

/-- The passes of the render calls of a frame never go back: base cube,
particles, rest of the scene, overlays. -/
theorem frameDraws_pass_sorted (state : AppState) (r : RenderInput) :
    ((frameDraws state r).map drawPass).Pairwise (fun a b => a ≤ b) := by
  unfold frameDraws
  have hbase : ∀ c ∈ [DrawCall.drawCube Element.acBase], drawPass c = 0 := by
    intro c hc; simp at hc; subst hc; rfl
  have hpart : ∀ c ∈ List.replicate r.droplets DrawCall.drawParticle, drawPass c = 1 := by
    intro c hc; rw [List.mem_replicate] at hc; rw [hc.2]; rfl
  have h01 := pairwise_pass_append _ _ 0 (pairwise_pass_const _ 0 hbase)
    (pairwise_pass_const _ 1 hpart) (fun c hc => le_of_eq (hbase c hc))
    (fun c hc => by rw [hpart c hc]; exact Nat.zero_le 1)
  have b01 : ∀ c ∈ [DrawCall.drawCube Element.acBase] ++
      List.replicate r.droplets DrawCall.drawParticle, drawPass c ≤ 1 := by
    intro c hc
    rw [List.mem_append] at hc
    rcases hc with h | h
    · rw [hbase c h]; exact Nat.zero_le 1
    · rw [hpart c h]
  have h012 := pairwise_pass_append _ _ 1 h01
    (pairwise_pass_const _ 2 (sceneDraws_pass state r)) b01
    (fun c hc => by rw [sceneDraws_pass state r c hc]; decide)
  have b012 : ∀ c ∈ [DrawCall.drawCube Element.acBase] ++
      List.replicate r.droplets DrawCall.drawParticle ++ sceneDraws state r,
      drawPass c ≤ 2 := by
    intro c hc
    rw [List.mem_append] at hc
    rcases hc with h | h
    · exact le_trans (b01 c h) (by decide)
    · rw [sceneDraws_pass state r c h]
  exact pairwise_pass_append _ _ 2 h012
    (pairwise_pass_const _ 3 (overlayDraws_pass state r)) b012
    (fun c hc => by rw [overlayDraws_pass state r c hc]; decide)

theorem isOverlayDraw_pass (c : DrawCall) (h : isOverlayDraw c = true) : drawPass c = 3 := by
  cases c with
  | drawCube e => cases e <;> first | rfl | exact absurd h (by decide)
  | drawTexturedCube e => exact absurd h (by simp [isOverlayDraw])
  | drawParticle => exact absurd h (by decide)
  | drawHollowBoxAt e => exact absurd h (by simp [isOverlayDraw])
  | drawHollowCylinderAt e => exact absurd h (by simp [isOverlayDraw])
  | drawModel e => exact absurd h (by simp [isOverlayDraw])
  | render => rfl
  | drawText e => rfl
  | nameplateQuad => rfl

/-- C19 (amended): within each frame the draw calls are issued in the order
base cube, transparent particles, rest of the opaque scene, UI overlays. The
`drawCube` of the AC base precedes every `drawParticle` call; every
`drawParticle` call precedes every other opaque scene draw (lid, vent, lamp,
screens, arrow buttons, bowl, toilet, water); and all of these precede the
overlay draws (light marker, status icon, text, nameplate). In particular no
`drawParticle` call follows an overlay draw. -/
theorem render_order_base_particles_scene_overlays (state : AppState) (r : RenderInput) :
    frameDraws state r =
      [DrawCall.drawCube Element.acBase] ++ List.replicate r.droplets DrawCall.drawParticle ++
        sceneDraws state r ++ overlayDraws state r ∧
    (∀ c ∈ sceneDraws state r, isOpaqueSceneDraw c = true) ∧
    (∀ c ∈ overlayDraws state r, isOverlayDraw c = true) ∧
    ((frameDraws state r).map drawPass).Pairwise (fun a b => a ≤ b) ∧
    (frameDraws state r).Pairwise
      (fun a b => ¬ (isOverlayDraw a = true ∧ b = DrawCall.drawParticle)) := by
  have hsorted := frameDraws_pass_sorted state r
  refine ⟨rfl, ?_, ?_, hsorted, ?_⟩
  · intro c hc
    have h2 := sceneDraws_pass state r c hc
    unfold isOpaqueSceneDraw
    by_cases ho : isOverlayDraw c = true
    · rw [isOverlayDraw_pass c ho] at h2
      exact absurd h2 (by decide)
    · have hp : c ≠ DrawCall.drawParticle := by
        intro e; rw [e] at h2; exact absurd h2 (by decide)
      simp [ho, hp]
  · intro c hc
    have h3 := overlayDraws_pass state r c hc
    by_contra ho
    unfold drawPass at h3
    split_ifs at h3 <;> exact absurd h3 (by decide)
  · rw [List.pairwise_map] at hsorted
    refine hsorted.imp ?_
    intro a b hab hcon
    rw [isOverlayDraw_pass a hcon.1, hcon.2] at hab
    exact absurd hab (by decide)

/-- C19, counterexample: with one droplet alive the frame issues the base
cube, then `drawParticle`, then the `drawCube` of the lid, so an opaque scene
draw follows a particle draw. -/
theorem render_order_counterexample :
    (frameDraws scenarioState oneDropletRender).take 3 =
      [DrawCall.drawCube Element.acBase, DrawCall.drawParticle,
        DrawCall.drawCube Element.lid] ∧
    isOpaqueSceneDraw (DrawCall.drawCube Element.lid) = true ∧
    ¬ opaqueParticlesOverlays (frameDraws scenarioState oneDropletRender) := by
  refine ⟨rfl, rfl, ?_⟩
  intro h
  have h1 := h.1
  have e : frameDraws scenarioState oneDropletRender =
      DrawCall.drawCube Element.acBase :: DrawCall.drawParticle ::
        DrawCall.drawCube Element.lid ::
          ([DrawCall.drawCube Element.vent, DrawCall.drawTexturedCube Element.lampIcon] ++
            screenDraws scenarioState oneDropletRender ++ arrowHalfDraws ++ arrowHalfDraws ++
            bowlDraws scenarioState oneDropletRender ++
            overlayDraws scenarioState oneDropletRender) := by
    simp [frameDraws, sceneDraws, oneDropletRender, List.replicate]
  rw [e, List.pairwise_cons, List.pairwise_cons] at h1
  exact h1.2.1 (DrawCall.drawCube Element.lid) (List.mem_cons_self _ _) ⟨rfl, rfl⟩

/-! ## Slab test: a ray toward or away from the box centre -/

/-- In first-person mode, once the first cursor position has been recorded,
`cursorPosCallback` adds the scaled cursor offsets to `yaw_` and `pitch_`
whatever `rotating_` is. -/
theorem cursorPosCallback_firstPerson (cam : Camera3D) (xpos ypos : ℚ)
    (hm : cam.orbitMode_ = false) (hf : cam.firstMouse_ = false) :
    (cam.cursorPosCallback xpos ypos).yaw_ = cam.yaw_ + (xpos - cam.lastX_) * cam.sensitivity_ ∧
    (cam.cursorPosCallback xpos ypos).pitch_ =
      clampPitch (cam.pitch_ + (cam.lastY_ - ypos) * cam.sensitivity_) ∧
    (cam.cursorPosCallback xpos ypos).rotating_ = cam.rotating_ := by
  unfold Camera3D.cursorPosCallback
  simp [hm, hf]

/-- C21: first-person look is not gated by the mouse button. The camera as
constructed is in first-person mode with `rotating_ = false`; after a first
cursor position (100, 100) a move of the cursor to (140, 80), the button never
pressed, changes `yaw_` from -90 to -80 and `pitch_` from 0 to 5. -/
theorem cursor_moves_look_without_button :
    (initialCamera 1920 1080).orbitMode_ = false ∧
    ((initialCamera 1920 1080).cursorPosCallback 100 100).rotating_ = false ∧
    ((initialCamera 1920 1080).cursorPosCallback 100 100).yaw_ = -90 ∧
    ((initialCamera 1920 1080).cursorPosCallback 100 100).pitch_ = 0 ∧
    (((initialCamera 1920 1080).cursorPosCallback 100 100).cursorPosCallback 140 80).yaw_
      = -80 ∧
    (((initialCamera 1920 1080).cursorPosCallback 100 100).cursorPosCallback 140 80).pitch_
      = 5 := by
  refine ⟨rfl, rfl, rfl, rfl, ?_, ?_⟩ <;>
    norm_num [Camera3D.cursorPosCallback, initialCamera, clampPitch]

/-- C26: `updateTemperature` leaves the whole state unchanged when `isOn` is
false or `lockedByFullBowl` is true; otherwise, with
`step = tempDriftSpeed * deltaTime >= 0`, it changes only `currentTemp`, by at
most `step` in absolute value: it sets it exactly to `desiredTemp` when
`|desiredTemp - currentTemp| <= step` and moves it by exactly `step` toward
`desiredTemp` otherwise. -/
theorem updateTemperature_frame_effect (s : AppState) (deltaTime : ℚ) :
    ((s.isOn = false ∨ s.lockedByFullBowl = true) → updateTemperature s deltaTime = s) ∧
    (s.isOn = true → s.lockedByFullBowl = false → 0 ≤ s.tempDriftSpeed * deltaTime →
      updateTemperature s deltaTime =
          { s with currentTemp := (updateTemperature s deltaTime).currentTemp } ∧
        |(updateTemperature s deltaTime).currentTemp - s.currentTemp|
          ≤ s.tempDriftSpeed * deltaTime ∧
        (|s.desiredTemp - s.currentTemp| ≤ s.tempDriftSpeed * deltaTime →
          (updateTemperature s deltaTime).currentTemp = s.desiredTemp) ∧
        (s.tempDriftSpeed * deltaTime < |s.desiredTemp - s.currentTemp| →
          |(updateTemperature s deltaTime).currentTemp - s.currentTemp|
            = s.tempDriftSpeed * deltaTime ∧
          |s.desiredTemp - (updateTemperature s deltaTime).currentTemp|
            = |s.desiredTemp - s.currentTemp| - s.tempDriftSpeed * deltaTime)) := by
  constructor
  · intro h
    unfold updateTemperature
    rw [if_pos h]
  · intro hon hun hstep
    obtain ⟨a1, a2, a3⟩ := updateTemperature_active s deltaTime hon hun
    have hrec : updateTemperature s deltaTime =
        { s with currentTemp := (updateTemperature s deltaTime).currentTemp } := by
      unfold updateTemperature
      dsimp only
      split_ifs <;> rfl
    refine ⟨hrec, ?_, a1, ?_⟩
    · rcases le_or_lt |s.desiredTemp - s.currentTemp| (s.tempDriftSpeed * deltaTime) with h | h
      · rw [a1 h]; exact h
      · rcases lt_or_le 0 (s.desiredTemp - s.currentTemp) with hp | hp
        · rw [a2 h hp, add_sub_cancel_left, abs_of_nonneg hstep]
        · rw [a3 h hp, sub_sub_cancel_left, abs_neg, abs_of_nonneg hstep]
    · intro h
      rcases lt_or_le 0 (s.desiredTemp - s.currentTemp) with hp | hp
      · rw [a2 h hp, add_sub_cancel_left, abs_of_nonneg hstep]
        refine ⟨rfl, ?_⟩
        rw [abs_of_pos hp] at h ⊢
        rw [abs_of_nonneg (by linarith)]
        ring
      · rw [a3 h hp, sub_sub_cancel_left, abs_neg, abs_of_nonneg hstep]
        refine ⟨rfl, ?_⟩
        rw [abs_of_nonpos hp] at h ⊢
        rw [abs_of_nonpos (by linarith)]
        ring

/-- Witness for C26: the cool-room state (current 17, target 20, step 1/2)
moves to 17.5. -/
theorem updateTemperature_frame_effect_witness :
    |(updateTemperature coolRoomState (1 / 4)).currentTemp - coolRoomState.currentTemp|
      ≤ coolRoomState.tempDriftSpeed * (1 / 4) :=
  ((updateTemperature_frame_effect coolRoomState (1 / 4)).2 rfl rfl
    (by norm_num [coolRoomState, scenarioState])).2.1

/-- After the four statements the lid angle is the target, whatever the speed
and the frame time. -/
theorem lidStep_eq_target (targetAngle angSpeed lidAngle deltaTime : ℚ) :
    lidStep targetAngle angSpeed lidAngle deltaTime = targetAngle := by
  unfold lidStep
  dsimp only
  split_ifs <;> linarith

/-- C28: the lid-angle update is not rate-limited. For every prior
`lidAngle`, every `deltaTime` and either target (60 when `isOn`, else 0),
after the two update lines `lidAngle` equals the target exactly; the same
holds for every angular speed in place of 90. -/
theorem lidAngle_jumps_to_target (s : AppState) (lidAngle deltaTime angSpeed : ℚ) :
    lidUpdate s lidAngle deltaTime = (if s.isOn = true then 60 else 0) ∧
    lidStep (if s.isOn = true then 60 else 0) angSpeed lidAngle deltaTime
      = (if s.isOn = true then 60 else 0) :=
  ⟨lidStep_eq_target _ _ _ _, lidStep_eq_target _ _ _ _⟩

/-! ## Net effect of a click start on power -/

theorem arrowClick_power_fields (s : AppState) (clickStarted : Bool) (mx my : ℚ)
    (r : RectShape) :
    (arrowClick s clickStarted mx my r).1.isOn = s.isOn ∧
    (arrowClick s clickStarted mx my r).1.lockedByFullBowl = s.lockedByFullBowl ∧
    (arrowClick s clickStarted mx my r).1.prevMouseDown = s.prevMouseDown := by
  unfold arrowClick clampDesired
  dsimp only
  split_ifs <;> exact ⟨rfl, rfl, rfl⟩

theorem handlePowerToggle_isOn (s : AppState) (mx my : ℚ) (md : Bool) (c : CircleShape) :
    (handlePowerToggle s mx my md c).isOn =
      (if md = true ∧ s.prevMouseDown = false ∧
          (mx - c.x) * (mx - c.x) + (my - c.y) * (my - c.y) ≤ c.radius * c.radius ∧
          s.lockedByFullBowl = false
        then !s.isOn else s.isOn) := by
  unfold handlePowerToggle
  dsimp only
  split_ifs <;> simp_all

theorem updateWater_isOn_below (s : AppState) (dt : ℚ) (sp : Bool) (dot : ℚ)
    (h : (updateWater s dt sp dot).waterLevel < 1) :
    (updateWater s dt sp dot).isOn = s.isOn := by
  unfold updateWater at h ⊢
  dsimp only at h ⊢
  rcases capAndLock_cases (fillStep (spaceAction s sp dot) dt) with ⟨_, h2⟩ | ⟨_, h2⟩
  · rw [h2, (fillStep_fields _ _).1, (spaceAction_fields _ _ _).1]
  · rw [h2] at h
    exact absurd h (lt_irrefl _)

theorem lKeyToggle_no_edge (s : AppState) (l p : Bool) (h : ¬ (l = true ∧ p = false)) :
    lKeyToggle s l p = s := by
  unfold lKeyToggle
  rw [if_neg h]

theorem arrowRayPick_power_fields (s : AppState) (clicked top bot : Bool) :
    (arrowRayPick s clicked top bot).isOn = s.isOn ∧
    (arrowRayPick s clicked top bot).waterLevel = s.waterLevel := by
  unfold arrowRayPick clampDesired
  dsimp only
  split_ifs <;> exact ⟨rfl, rfl⟩

theorem rayPick_power_fields (s : AppState) (clicked : Bool) (inp : FrameInput) :
    (rayPick s clicked inp).isOn = (if inp.lampRayHit = true then !s.isOn else s.isOn) ∧
    (rayPick s clicked inp).waterLevel = s.waterLevel := by
  unfold rayPick
  dsimp only
  rw [(bowlRayPick_fields _ _).2.1, (bowlRayPick_fields _ _).2.2.2,
    (arrowRayPick_power_fields _ _ _ _).1, (arrowRayPick_power_fields _ _ _ _).2,
    (lampRayPick_fields _ _).2.2]
  refine ⟨?_, rfl⟩
  unfold lampRayPick
  split_ifs <;> rfl

/-- Droplets that leave the bowl below capacity found it below capacity and
did not touch `isOn`. -/
theorem collectDroplet_iterate_below (n : ℕ) (s : AppState)
    (h : (collectDroplet^[n] s).waterLevel < 1) :
    (collectDroplet^[n] s).isOn = s.isOn ∧ s.waterLevel < 1 := by
  induction n with
  | zero => exact ⟨rfl, h⟩
  | succ n ih =>
    rw [Function.iterate_succ_apply'] at h ⊢
    rcases collectDroplet_cases (collectDroplet^[n] s) with ⟨h1, h2⟩ | ⟨_, h2⟩
    · rw [h2] at h ⊢
      have h3 : (collectDroplet^[n] s).waterLevel < 1 := by linarith
      exact ih h3
    · rw [h2] at h
      exact absurd h (lt_irrefl _)

/-- Counterexample for C27: a click start on the 2D lamp circle (the pick ray
missing the lamp sphere, L not pressed, no droplet collected) from an off,
unlocked state one fill step below capacity. The 2D test fires and switches
the appliance on, `updateWater` then fills the bowl to capacity and forces it
off: exactly one lamp test fired and `isOn` ends as it started. -/
theorem lamp_click_undone_by_fill :
    lampClickFires { appState := lastStepOffState, prevLPressed := false }
      (lampClickFrame (1 / 50)) ∧
    (lampClickFrame (1 / 50)).lampRayHit = false ∧
    (lampClickFrame (1 / 50)).lPressed = false ∧
    (lampClickFrame (1 / 50)).dropletsCollected = 0 ∧
    lastStepOffState.isOn = false ∧
    (frameStep { appState := lastStepOffState, prevLPressed := false }
      (lampClickFrame (1 / 50))).appState.isOn = false := by
  refine ⟨?_, rfl, rfl, rfl, rfl, ?_⟩
  · norm_num [lampClickFires, lampClickFrame, idleFrame, lastStepOffState, scenarioState,
      shiftCircle, offsetX, offsetY, tempArrowButton, lamp, acBody, bowlOutline]
  · norm_num [frameStep, lampClickFrame, idleFrame, lastStepOffState, scenarioState,
      arrowClick, handlePowerToggle, handleTemperatureInput, clampDesired, updateVent,
      targetOpenness, updateTemperature, updateWater, spaceAction, fillStep, capAndLock,
      lKeyToggle, rayPick, lampRayPick, arrowRayPick, bowlRayPick, pointInRect, shiftRect,
      shiftCircle, offsetX, offsetY, tempArrowButton, lamp, acBody, bowlOutline,
      fillLoop_of_le, fillLoop_of_lt]

/-- C27 (amended): net effect of one click start on power when the L key is
not newly pressed and the bowl is below capacity at the end of the frame (so
that neither `updateWater` nor a collected droplet has forced the appliance
off): `isOn` at the end of the frame differs from its value before the click
if and only if exactly one of the two lamp tests fires, the 2D test (cursor
inside the lamp circle and not locked) or the pick ray hitting the lamp
sphere; when both fire the toggles cancel. -/
theorem click_power_net_effect (fs : FrameState) (inp : FrameInput)
    (hdown : inp.mouseDown = true) (hprev : fs.appState.prevMouseDown = false)
    (hL : ¬ (inp.lPressed = true ∧ fs.prevLPressed = false))
    (hlevel : (frameStep fs inp).appState.waterLevel < 1) :
    ((frameStep fs inp).appState.isOn ≠ fs.appState.isOn ↔
      Xor' (lampClickFires fs inp) (inp.lampRayHit = true)) ∧
    (lampClickFires fs inp → inp.lampRayHit = true →
      (frameStep fs inp).appState.isOn = fs.appState.isOn) := by
  have hclick : (inp.mouseDown && !fs.appState.prevMouseDown) = true := by
    rw [hdown, hprev]; rfl
  rw [frameStep_appState, if_pos hclick] at hlevel ⊢
  obtain ⟨d1, d2⟩ := collectDroplet_iterate_below _ _ hlevel
  rw [d1]
  rw [(rayPick_power_fields _ _ _).2, lKeyToggle_no_edge _ _ _ hL] at d2
  rw [(rayPick_power_fields _ _ _).1, lKeyToggle_no_edge _ _ _ hL,
    updateWater_isOn_below _ _ _ _ d2, (updateTemperature_fields _ _).1,
    (updateVent_fields _ _).1, (handleTemperatureInput_fields _ _ _).1,
    handlePowerToggle_isOn, (arrowClick_power_fields _ _ _ _ _).1,
    (arrowClick_power_fields _ _ _ _ _).2.1, (arrowClick_power_fields _ _ _ _ _).2.2]
  unfold lampClickFires
  dsimp only
  unfold Xor'
  by_cases h2D : (inp.mouseX - (shiftCircle inp.windowWidth inp.windowHeight lamp).x) *
        (inp.mouseX - (shiftCircle inp.windowWidth inp.windowHeight lamp).x) +
      (inp.mouseY - (shiftCircle inp.windowWidth inp.windowHeight lamp).y) *
        (inp.mouseY - (shiftCircle inp.windowWidth inp.windowHeight lamp).y) ≤
      (shiftCircle inp.windowWidth inp.windowHeight lamp).radius *
        (shiftCircle inp.windowWidth inp.windowHeight lamp).radius ∧
      fs.appState.lockedByFullBowl = false <;>
  by_cases hray : inp.lampRayHit = true <;>
  cases hon : fs.appState.isOn <;>
  simp [h2D, hray, hdown, hprev]

/-- Witness for C27: a click start whose pick ray hits the lamp sphere, from
the start state with a frame of 1/75 s. -/
theorem click_power_net_effect_witness :
    (frameStep startFrameState (lampRayFrame (1 / 75))).appState.isOn
        ≠ startFrameState.appState.isOn ↔
      Xor' (lampClickFires startFrameState (lampRayFrame (1 / 75)))
        ((lampRayFrame (1 / 75)).lampRayHit = true) :=
  (click_power_net_effect startFrameState (lampRayFrame (1 / 75)) rfl rfl (by decide)
    (by
      norm_num [frameStep, lampRayFrame, idleFrame, startFrameState, scenarioState,
        arrowClick, handlePowerToggle, handleTemperatureInput, clampDesired, updateVent,
        targetOpenness, updateTemperature, updateWater, spaceAction, fillStep, capAndLock,
        lKeyToggle, rayPick, lampRayPick, arrowRayPick, bowlRayPick, pointInRect, shiftRect,
        shiftCircle, offsetX, offsetY, tempArrowButton, lamp, acBody, bowlOutline,
        fillLoop_of_le, fillLoop_of_lt])).1

/-! ## The OBJ loader -/

theorem resolveIndex_positive (ref : ℤ) (n : ℕ) (h1 : 1 ≤ ref) (h2 : ref ≤ n) :
    resolveIndex ref n = some (ref - 1) := by
  unfold resolveIndex
  have h0 : ref ≠ 0 := by omega
  have hp : ref > 0 := by omega
  rw [if_pos h0]
  dsimp only
  rw [if_pos hp, if_pos ⟨by omega, by omega⟩]

theorem resolveIndex_negative (ref : ℤ) (n : ℕ) (h1 : -(n : ℤ) ≤ ref) (h2 : ref ≤ -1) :
    resolveIndex ref n = some ((n : ℤ) + ref) := by
  unfold resolveIndex
  have h0 : ref ≠ 0 := by omega
  have hp : ¬ ref > 0 := by omega
  rw [if_pos h0]
  dsimp only
  rw [if_neg hp, if_pos ⟨by omega, by omega⟩]

theorem resolveIndex_none (ref : ℤ) (n : ℕ) (h : ref = 0 ∨ ref < -(n : ℤ) ∨ (n : ℤ) < ref) :
    resolveIndex ref n = none := by
  unfold resolveIndex
  dsimp only
  split_ifs with h0 hp hr hr
  · omega
  · rfl
  · omega
  · rfl
  · rfl

theorem resolveIndex_in_bounds (ref : ℤ) (n : ℕ) (idx : ℤ)
    (h : resolveIndex ref n = some idx) : 0 ≤ idx ∧ idx < (n : ℤ) := by
  unfold resolveIndex at h
  dsimp only at h
  split_ifs at h with h0 hp hr hr
  · cases h; exact hr
  · cases h; exact hr

theorem fetch_of_some {α : Type} (elems : List α) (zero : α) (ref idx : ℤ)
    (h : resolveIndex ref elems.length = some idx) :
    some (fetch elems zero ref) = elems[idx.toNat]? := by
  have hb := resolveIndex_in_bounds ref elems.length idx h
  have hlt : idx.toNat < elems.length := by omega
  unfold fetch
  rw [h]
  dsimp only
  rw [List.getD_eq_getElem _ _ hlt, List.getElem?_eq_getElem hlt]

theorem fetch_of_none {α : Type} (elems : List α) (zero : α) (ref : ℤ)
    (h : resolveIndex ref elems.length = none) : fetch elems zero ref = zero := by
  unfold fetch
  rw [h]

/-! ## Quad splitting and the vertex count -/

theorem process_fields (st : ObjState) (tok : FaceRef) :
    (process st tok).positions = st.positions ∧
    (process st tok).normals = st.normals ∧
    (process st tok).texcoords = st.texcoords ∧
    (process st tok).interleaved = st.interleaved ++ vertexOf st tok := ⟨rfl, rfl, rfl, rfl⟩

/-- The vertex pushed for a token depends on the three element vectors only. -/
theorem vertexOf_process (st : ObjState) (t tok : FaceRef) :
    vertexOf (process st t) tok = vertexOf st tok := rfl

theorem vertexOf_length (st : ObjState) (tok : FaceRef) : (vertexOf st tok).length = 8 := rfl

theorem objLine_face_three (st : ObjState) (a b c : FaceRef) :
    (objLine st (ObjLine.face [a, b, c])).interleaved =
      st.interleaved ++ (vertexOf st a ++ vertexOf st b ++ vertexOf st c) := by
  simp [objLine, process, vertexOf]

theorem objLine_face_four (st : ObjState) (a b c d : FaceRef) :
    (objLine st (ObjLine.face [a, b, c, d])).interleaved =
      st.interleaved ++ (vertexOf st a ++ vertexOf st b ++ vertexOf st c ++
        vertexOf st a ++ vertexOf st c ++ vertexOf st d) := by
  simp [objLine, process, vertexOf]

/-- Length of `interleaved` after one line. -/
theorem objLine_length (st : ObjState) (line : ObjLine) :
    (objLine st line).interleaved.length =
      st.interleaved.length +
        8 * (match line with
          | ObjLine.face tokens => if 4 ≤ tokens.length then 6 else 3
          | _ => 0) := by
  cases line with
  | position v => rfl
  | normal n => rfl
  | texcoord t => rfl
  | other => rfl
  | face tokens =>
    unfold objLine
    dsimp only
    split_ifs <;> simp [process, vertexOf_length]

theorem objLine_length_tri_quad (st : ObjState) (line : ObjLine)
    (h : ∀ tokens, line = ObjLine.face tokens → tokens.length = 3 ∨ tokens.length = 4) :
    (objLine st line).interleaved.length =
      st.interleaved.length +
        8 * (3 * (if isFaceOf 3 line = true then 1 else 0) +
          6 * (if isFaceOf 4 line = true then 1 else 0)) := by
  rw [objLine_length]
  cases line with
  | position v => rfl
  | normal n => rfl
  | texcoord t => rfl
  | other => rfl
  | face tokens =>
    rcases h tokens rfl with h3 | h4
    · simp [isFaceOf, h3]
    · simp [isFaceOf, h4]

theorem foldl_objLine_length (lines : List ObjLine) (st : ObjState)
    (h : ∀ tokens, ObjLine.face tokens ∈ lines → tokens.length = 3 ∨ tokens.length = 4) :
    (lines.foldl objLine st).interleaved.length =
      st.interleaved.length +
        8 * (3 * lines.countP (isFaceOf 3) + 6 * lines.countP (isFaceOf 4)) := by
  induction lines generalizing st with
  | nil => simp
  | cons l ls ih =>
    rw [List.foldl_cons, ih _ (fun t ht => h t (List.mem_cons_of_mem _ ht)),
      objLine_length_tri_quad st l (fun t ht => h t (ht ▸ List.mem_cons_self _ _)),
      List.countP_cons, List.countP_cons]
    ring

theorem foldl_objLine_no_face (lines : List ObjLine) (st : ObjState)
    (h : ∀ l ∈ lines, isFace l = false) :
    (lines.foldl objLine st).interleaved = st.interleaved := by
  induction lines generalizing st with
  | nil => rfl
  | cons l ls ih =>
    rw [List.foldl_cons, ih _ (fun x hx => h x (List.mem_cons_of_mem _ hx))]
    have hl := h l (List.mem_cons_self _ _)
    cases l with
    | position v => rfl
    | normal n => rfl
    | texcoord t => rfl
    | other => rfl
    | face tokens => exact absurd hl (by simp [isFace])

/-- C23: quad splitting and the vertex count. A face line with four
references a b c d appends the six vertices a, b, c, a, c, d and a face line
with three references appends a, b, c; for a file whose faces all have 3 or 4
references and which has at least one face, `loadOBJModel` appends a mesh
whose `vertCount` is 3 * (triangle faces) + 6 * (quad faces) and returns its
index; a file with no face line, and a file that does not open, return -1
and leave `models_` as it was. -/
theorem obj_quad_split_and_vertCount (lines : List ObjLine) (models_ : List ModelMesh) :
    (∀ st a b c d, (objLine st (ObjLine.face [a, b, c, d])).interleaved =
      st.interleaved ++ (vertexOf st a ++ vertexOf st b ++ vertexOf st c ++
        vertexOf st a ++ vertexOf st c ++ vertexOf st d)) ∧
    (∀ st a b c, (objLine st (ObjLine.face [a, b, c])).interleaved =
      st.interleaved ++ (vertexOf st a ++ vertexOf st b ++ vertexOf st c)) ∧
    ((∀ tokens, ObjLine.face tokens ∈ lines → tokens.length = 3 ∨ tokens.length = 4) →
      0 < lines.countP (isFaceOf 3) + lines.countP (isFaceOf 4) →
      loadOBJModel (some lines) models_ =
        ((models_.length : ℤ),
          models_ ++ [{ vertCount :=
            3 * (lines.countP (isFaceOf 3) : ℤ) + 6 * (lines.countP (isFaceOf 4) : ℤ) }])) ∧
    ((∀ l ∈ lines, isFace l = false) → loadOBJModel (some lines) models_ = (-1, models_)) ∧
    loadOBJModel none models_ = (-1, models_) := by
  refine ⟨objLine_face_four, objLine_face_three, ?_, ?_, rfl⟩
  · intro h hpos
    have hlen := foldl_objLine_length lines
      { positions := [], normals := [], texcoords := [], interleaved := [] } h
    simp only [List.length_nil, zero_add] at hlen
    unfold loadOBJModel
    dsimp only
    have hne : (lines.foldl objLine
        { positions := [], normals := [], texcoords := [], interleaved := [] }).interleaved
        ≠ [] := by
      intro he
      rw [he, List.length_nil] at hlen
      omega
    rw [if_neg hne, hlen, Nat.mul_div_cancel_left _ (by norm_num : 0 < 8)]
    simp
  · intro h
    unfold loadOBJModel
    dsimp only
    rw [foldl_objLine_no_face lines _ h, if_pos rfl]

/-! ## Slab test: characterisation for non-zero direction components -/

/-- The diagonal ray of the witness does hit the unit box. -/
theorem hitAABB_diagonal_hits :
    hitAABB diagonalOrigin diagonalDir plusZeros worldOrigin unitBoxHalf = true := by
  norm_num [hitAABB, slabBounds, slabLoop, slabAxis, FVal.recip, FVal.scale, FVal.lt, FVal.le,
    FVal.max, FVal.min, Vec3.comp, Vec3.sub, Vec3.add, ZeroSigns.comp, diagonalOrigin,
    diagonalDir, plusZeros, worldOrigin, unitBoxHalf]

/-! ## The lamp ray/sphere test -/

theorem dot_self_pos (d : Vec3) (hd : d ≠ { x := 0, y := 0, z := 0 }) : 0 < d.dot d := by
  unfold Vec3.dot
  by_contra h
  have hx : d.x = 0 := by nlinarith [sq_nonneg d.x, sq_nonneg d.y, sq_nonneg d.z]
  have hy : d.y = 0 := by nlinarith [sq_nonneg d.x, sq_nonneg d.y, sq_nonneg d.z]
  have hz : d.z = 0 := by nlinarith [sq_nonneg d.x, sq_nonneg d.y, sq_nonneg d.z]
  apply hd
  cases d
  simp_all

/-- The point at parameter `t` is in the closed ball exactly when the
quadratic of the lamp test is non-positive at `t`. -/
theorem rayPointInBall_iff (o d cen : Vec3) (r : ℚ) (t : ℝ) :
    rayPointInBall o d cen r t ↔
      ((lampQuadratic o d cen r).a : ℝ) * t ^ 2 + ((lampQuadratic o d cen r).b : ℝ) * t +
        ((lampQuadratic o d cen r).c : ℝ) ≤ 0 := by
  unfold rayPointInBall lampQuadratic Vec3.dot Vec3.sub
  dsimp only
  push_cast
  constructor <;> intro h <;> nlinarith [h]

theorem lampQuadratic_disc (o d cen : Vec3) (r : ℚ) :
    (lampQuadratic o d cen r).disc =
      (lampQuadratic o d cen r).b * (lampQuadratic o d cen r).b -
        4 * (lampQuadratic o d cen r).a * (lampQuadratic o d cen r).c := rfl

theorem lampQuadratic_a (o d cen : Vec3) (r : ℚ) : (lampQuadratic o d cen r).a = d.dot d := rfl

theorem originOutsideSphere_iff (o cen : Vec3) (r : ℚ) (d : Vec3) :
    originOutsideSphere o cen r ↔ 0 < (lampQuadratic o d cen r).c := by
  unfold originOutsideSphere lampQuadratic
  dsimp only
  constructor <;> intro h <;> linarith

/-- The quadratic at `(-b - s) / (2 * a)`. -/
theorem near_root_value (a b c s : ℝ) (ha : a ≠ 0) :
    a * ((-b - s) / (2 * a)) ^ 2 + b * ((-b - s) / (2 * a)) + c =
      (s * s - (b * b - 4 * a * c)) / (4 * a) := by
  field_simp
  ring

/-- The lamp test on its coefficients: for `a > 0` the near root is positive
exactly when `c > 0` and the quadratic is non-positive at some `t > 0`. -/
theorem near_root_pos_iff (a b c : ℝ) (ha : 0 < a) :
    (b * b - 4 * a * c ≥ 0 ∧ (-b - Real.sqrt (b * b - 4 * a * c)) / (2 * a) > 0) ↔
      (0 < c ∧ ∃ t : ℝ, 0 < t ∧ a * t ^ 2 + b * t + c ≤ 0) := by
  constructor
  · rintro ⟨hdisc, ht⟩
    have hs := Real.mul_self_sqrt hdisc
    have hs0 := Real.sqrt_nonneg (b * b - 4 * a * c)
    have hnum : 0 < -b - Real.sqrt (b * b - 4 * a * c) := by
      by_contra hneg
      have : (-b - Real.sqrt (b * b - 4 * a * c)) / (2 * a) ≤ 0 :=
        div_nonpos_of_nonpos_of_nonneg (not_lt.mp hneg) (by linarith)
      linarith
    have hc : 0 < c := by
      by_contra hcn
      have hcn' : c ≤ 0 := not_lt.mp hcn
      nlinarith [mul_nonneg (le_of_lt ha) (neg_nonneg.mpr hcn')]
    refine ⟨hc, (-b - Real.sqrt (b * b - 4 * a * c)) / (2 * a), ht, ?_⟩
    rw [near_root_value a b c _ (ne_of_gt ha), hs, sub_self, zero_div]
  · rintro ⟨hc, t, ht, hf⟩
    have hdisc : b * b - 4 * a * c ≥ 0 := by nlinarith [sq_nonneg (2 * a * t + b)]
    have hb : b < 0 := by
      by_contra hbn
      have hbn' : 0 ≤ b := not_lt.mp hbn
      nlinarith [mul_nonneg hbn' (le_of_lt ht), mul_pos ha (pow_pos ht 2)]
    refine ⟨hdisc, ?_⟩
    apply div_pos _ (by positivity)
    have hlt : Real.sqrt (b * b - 4 * a * c) < -b := by
      rw [Real.sqrt_lt' (by linarith)]
      nlinarith [mul_pos ha hc]
    linarith

/-- C24: the lamp ray/sphere test. For every pick ray with non-zero direction
and every sphere (centre, radius), the test accepts (`disc >= 0` and the near
root `(-b - sqrt(disc)) / (2a)` positive) if and only if the ray origin lies
strictly outside the sphere and some point `rayOrigin + t * rayDir` with
`t > 0` lies in the closed ball; in particular a ray whose origin is inside or
on the sphere is never accepted. -/
theorem lamp_ray_sphere_test (rayOrigin rayDir center : Vec3) (radius : ℚ)
    (hd : rayDir ≠ { x := 0, y := 0, z := 0 }) :
    (lampRayAccepts rayOrigin rayDir center radius ↔
      originOutsideSphere rayOrigin center radius ∧
        ∃ t : ℝ, 0 < t ∧ rayPointInBall rayOrigin rayDir center radius t) ∧
    (¬ originOutsideSphere rayOrigin center radius →
      ¬ lampRayAccepts rayOrigin rayDir center radius) := by
  have ha : 0 < ((lampQuadratic rayOrigin rayDir center radius).a : ℝ) := by
    rw [lampQuadratic_a]
    exact_mod_cast dot_self_pos rayDir hd
  have hdisc : ((lampQuadratic rayOrigin rayDir center radius).disc : ℝ) =
      ((lampQuadratic rayOrigin rayDir center radius).b : ℝ) *
          ((lampQuadratic rayOrigin rayDir center radius).b : ℝ) -
        4 * ((lampQuadratic rayOrigin rayDir center radius).a : ℝ) *
          ((lampQuadratic rayOrigin rayDir center radius).c : ℝ) := by
    rw [lampQuadratic_disc]
    push_cast
    ring
  have hroot := near_root_pos_iff ((lampQuadratic rayOrigin rayDir center radius).a : ℝ)
    ((lampQuadratic rayOrigin rayDir center radius).b : ℝ)
    ((lampQuadratic rayOrigin rayDir center radius).c : ℝ) ha
  rw [← hdisc] at hroot
  have hiff : lampRayAccepts rayOrigin rayDir center radius ↔
      originOutsideSphere rayOrigin center radius ∧
        ∃ t : ℝ, 0 < t ∧ rayPointInBall rayOrigin rayDir center radius t := by
    unfold lampRayAccepts
    dsimp only
    constructor
    · rintro ⟨h1, h2⟩
      obtain ⟨hc, t, ht, hf⟩ := hroot.mp ⟨by exact_mod_cast h1, h2⟩
      exact ⟨(originOutsideSphere_iff rayOrigin center radius rayDir).mpr (by exact_mod_cast hc),
        t, ht, (rayPointInBall_iff rayOrigin rayDir center radius t).mpr hf⟩
    · rintro ⟨hout, t, ht, hin⟩
      have hc := (originOutsideSphere_iff rayOrigin center radius rayDir).mp hout
      obtain ⟨h1, h2⟩ := hroot.mpr ⟨by exact_mod_cast hc, t, ht,
        (rayPointInBall_iff rayOrigin rayDir center radius t).mp hin⟩
      exact ⟨by exact_mod_cast h1, h2⟩
  exact ⟨hiff, fun hn h => hn (hiff.mp h).1⟩

/-- Witness for C24: the ray from (0, 0, 100) straight down the z axis
against the lamp sphere of a 1920 x 1080 window. -/
theorem lamp_ray_sphere_test_witness :
    lampRayAccepts { x := 0, y := 0, z := 100 } towardOriginDir (lampWorldPos 1920 1080)
        (lampRadius 1920 1080) ↔
      originOutsideSphere { x := 0, y := 0, z := 100 } (lampWorldPos 1920 1080)
          (lampRadius 1920 1080) ∧
        ∃ t : ℝ, 0 < t ∧
          rayPointInBall { x := 0, y := 0, z := 100 } towardOriginDir (lampWorldPos 1920 1080)
            (lampRadius 1920 1080) t :=
  (lamp_ray_sphere_test { x := 0, y := 0, z := 100 } towardOriginDir (lampWorldPos 1920 1080)
    (lampRadius 1920 1080)
    (by
      intro h
      have hz := congrArg Vec3.z h
      norm_num [towardOriginDir] at hz)).1

/-- The test does accept a ray: from (0, 0, 10) straight down the z axis
against the unit sphere at the world origin, `disc = 4` and the near root is
9. -/
theorem lampRayAccepts_example : lampRayAccepts nearOrigin towardOriginDir worldOrigin 1 := by
  have h4 : Real.sqrt 4 = 2 := by
    rw [show (4 : ℝ) = 2 ^ 2 by norm_num, Real.sqrt_sq (by norm_num)]
  unfold lampRayAccepts
  norm_num [lampQuadratic, Vec3.dot, Vec3.sub, nearOrigin, towardOriginDir, worldOrigin, h4]

/-! ## binary32 rounding -/

theorem roundHalfEven_intCast (n : ℤ) : roundHalfEven (n : ℚ) = n := by
  unfold roundHalfEven
  simp

theorem roundHalfEven_of_close (x : ℚ) (n : ℤ) (h : |x - n| < 1 / 2) :
    roundHalfEven x = n := by
  rw [abs_lt] at h
  unfold roundHalfEven
  dsimp only
  by_cases hn : (n : ℚ) ≤ x
  · have hf : ⌊x⌋ = n := by
      rw [Int.floor_eq_iff]
      constructor <;> linarith [h.1, h.2]
    rw [hf, if_pos (by linarith [h.2])]
  · have hf : ⌊x⌋ = n - 1 := by
      rw [Int.floor_eq_iff]
      push_cast
      constructor <;> linarith [h.1, h.2, not_le.mp hn]
    rw [hf]
    push_cast
    rw [if_neg (by linarith [h.1]), if_pos (by linarith [h.1])]
    ring

/-- A tie goes to the even neighbour. -/
theorem roundHalfEven_tie (n : ℤ) :
    roundHalfEven ((n : ℚ) + 1 / 2) = if n % 2 = 0 then n else n + 1 := by
  have hf : ⌊(n : ℚ) + 1 / 2⌋ = n := by
    rw [Int.floor_eq_iff]
    constructor <;> linarith
  unfold roundHalfEven
  dsimp only
  rw [hf]
  rw [if_neg (by linarith), if_neg (by linarith)]

theorem abs_roundHalfEven_sub_le (x : ℚ) : |(roundHalfEven x : ℚ) - x| ≤ 1 / 2 := by
  have h1 := Int.floor_le x
  have h2 := Int.lt_floor_add_one x
  unfold roundHalfEven
  dsimp only
  rw [abs_le]
  split_ifs with a b c
  · constructor <;> linarith
  · push_cast; constructor <;> linarith
  · constructor <;> linarith [not_lt.mp a, not_lt.mp b]
  · push_cast; constructor <;> linarith [not_lt.mp a, not_lt.mp b]

theorem f32Exp_eq (q : ℚ) (e : ℤ) (he : -126 ≤ e) (h1 : (2 : ℚ) ^ e ≤ |q|)
    (h2 : |q| < (2 : ℚ) ^ (e + 1)) : f32Exp q = e := by
  have hpos : 0 < |q| := lt_of_lt_of_le (zpow_pos (by norm_num) e) h1
  have ha : e ≤ Int.log 2 |q| := by
    rw [← Int.zpow_le_iff_le_log (by norm_num) hpos]
    exact_mod_cast h1
  have hb : Int.log 2 |q| < e + 1 := by
    rw [← Int.lt_zpow_iff_log_lt (by norm_num) hpos]
    exact_mod_cast h2
  unfold f32Exp
  rw [max_eq_left (by omega)]
  omega

/-- The value of `f32` from the binade of `q` and the nearest multiple of the
spacing. -/
theorem f32_eq_of_close (q : ℚ) (e n : ℤ) (he : -126 ≤ e) (h1 : (2 : ℚ) ^ e ≤ |q|)
    (h2 : |q| < (2 : ℚ) ^ (e + 1)) (hn : |q / (2 : ℚ) ^ (e - 23) - n| < 1 / 2) :
    f32 q = (n : ℚ) * (2 : ℚ) ^ (e - 23) := by
  unfold f32
  dsimp only
  rw [f32Exp_eq q e he h1 h2, roundHalfEven_of_close _ n hn]

theorem f32_zero : f32 0 = 0 := by
  unfold f32 roundHalfEven
  simp

/-- A value `m * 2^j` with `|m| < 2^24` and `j >= -149` is a binary32 value:
rounding does not change it. -/
theorem f32_of_repr_lt (m j : ℤ) (hm : |m| < 2 ^ 24) (hj : -149 ≤ j) :
    f32 ((m : ℚ) * (2 : ℚ) ^ j) = (m : ℚ) * (2 : ℚ) ^ j := by
  by_cases hm0 : m = 0
  · subst hm0
    simp [f32_zero]
  have h2j : (0 : ℚ) < (2 : ℚ) ^ j := zpow_pos (by norm_num) j
  have habs : |(m : ℚ) * (2 : ℚ) ^ j| = (|m| : ℤ) * (2 : ℚ) ^ j := by
    rw [abs_mul, abs_of_pos h2j, Int.cast_abs]
  have hpos : 0 < |(m : ℚ) * (2 : ℚ) ^ j| := by
    rw [habs]
    have : (0 : ℚ) < ((|m| : ℤ) : ℚ) := by exact_mod_cast abs_pos.mpr hm0
    positivity
  have hlog : Int.log 2 |(m : ℚ) * (2 : ℚ) ^ j| < j + 24 := by
    rw [← Int.lt_zpow_iff_log_lt (by norm_num) hpos, habs]
    have hm' : ((|m| : ℤ) : ℚ) < 2 ^ 24 := by exact_mod_cast hm
    have : ((2 : ℕ) : ℚ) ^ (j + 24) = (2 : ℚ) ^ 24 * (2 : ℚ) ^ j := by
      rw [zpow_add₀ (by norm_num)]
      push_cast
      ring
    rw [this]
    exact mul_lt_mul_of_pos_right (by exact_mod_cast hm') h2j
  have hexp : f32Exp ((m : ℚ) * (2 : ℚ) ^ j) - 23 ≤ j := by
    unfold f32Exp
    rcases max_cases (Int.log 2 |(m : ℚ) * (2 : ℚ) ^ j|) (-126) with ⟨h, _⟩ | ⟨h, _⟩ <;>
      rw [h] <;> omega
  obtain ⟨k, hk⟩ := Int.eq_ofNat_of_zero_le (sub_nonneg.mpr hexp)
  have hdiv : (m : ℚ) * (2 : ℚ) ^ j / (2 : ℚ) ^ (f32Exp ((m : ℚ) * (2 : ℚ) ^ j) - 23)
      = ((m * 2 ^ k : ℤ) : ℚ) := by
    rw [mul_div_assoc, ← zpow_sub₀ (by norm_num), hk]
    push_cast
    rw [zpow_natCast]
  unfold f32
  dsimp only
  rw [hdiv, roundHalfEven_intCast]
  rw [← hdiv]
  field_simp

theorem f32_of_repr (m j : ℤ) (hm : |m| ≤ 2 ^ 24) (hj : -149 ≤ j) :
    f32 ((m : ℚ) * (2 : ℚ) ^ j) = (m : ℚ) * (2 : ℚ) ^ j := by
  rcases lt_or_eq_of_le hm with h | h
  · exact f32_of_repr_lt m j h hj
  · have hm2 : m = 2 * (m / 2) := by
      rcases abs_cases m with ⟨h1, _⟩ | ⟨h1, _⟩ <;> omega
    have hlt : |m / 2| < 2 ^ 24 := by
      rcases abs_cases m with ⟨h1, _⟩ | ⟨h1, _⟩ <;>
        rcases abs_cases (m / 2) with ⟨h2, _⟩ | ⟨h2, _⟩ <;> omega
    have e : (m : ℚ) * (2 : ℚ) ^ j = ((m / 2 : ℤ) : ℚ) * (2 : ℚ) ^ (j + 1) := by
      rw [zpow_add₀ (by norm_num)]
      conv_lhs => rw [hm2]
      push_cast
      ring
    rw [e]
    exact f32_of_repr_lt (m / 2) (j + 1) hlt (by omega)

/-! ## The fill loop in binary32: termination, pass count and carry -/

theorem f32_of_isF32 (q : ℚ) (h : isF32 q) : f32 q = q := by
  obtain ⟨m, j, hm, hj, rfl⟩ := h
  exact f32_of_repr m j hm hj

theorem f32Exp_ge (q : ℚ) : -126 ≤ f32Exp q := le_max_right _ _

theorem abs_lt_two_zpow_f32Exp (q : ℚ) : |q| < (2 : ℚ) ^ (f32Exp q + 1) := by
  have h := Int.lt_zpow_succ_log_self (b := 2) (by norm_num) |q|
  have hle : Int.log 2 |q| + 1 ≤ f32Exp q + 1 := by
    have := le_max_left (Int.log 2 |q|) (-126)
    unfold f32Exp
    omega
  calc |q| < ((2 : ℕ) : ℚ) ^ (Int.log 2 |q| + 1) := h
    _ = (2 : ℚ) ^ (Int.log 2 |q| + 1) := by norm_num
    _ ≤ (2 : ℚ) ^ (f32Exp q + 1) := zpow_le_zpow_right₀ (by norm_num) hle

/-- Every result of `f32` is a binary32 value. -/
theorem isF32_f32 (q : ℚ) : isF32 (f32 q) := by
  refine ⟨roundHalfEven (q / (2 : ℚ) ^ (f32Exp q - 23)), f32Exp q - 23, ?_, ?_, rfl⟩
  · have hu : (0 : ℚ) < (2 : ℚ) ^ (f32Exp q - 23) := zpow_pos (by norm_num) _
    have hx : |q / (2 : ℚ) ^ (f32Exp q - 23)| < 2 ^ 24 := by
      rw [abs_div, abs_of_pos hu, div_lt_iff₀ hu]
      have h := abs_lt_two_zpow_f32Exp q
      have e : (2 : ℚ) ^ (f32Exp q + 1) = 2 ^ 24 * (2 : ℚ) ^ (f32Exp q - 23) := by
        rw [show f32Exp q + 1 = 24 + (f32Exp q - 23) by ring, zpow_add₀ (by norm_num)]
        norm_num
      rw [← e]
      exact h
    have hr := abs_roundHalfEven_sub_le (q / (2 : ℚ) ^ (f32Exp q - 23))
    have hn : |((roundHalfEven (q / (2 : ℚ) ^ (f32Exp q - 23)) : ℤ) : ℚ)| < 2 ^ 24 + 1 := by
      have := abs_sub_abs_le_abs_sub
        ((roundHalfEven (q / (2 : ℚ) ^ (f32Exp q - 23)) : ℤ) : ℚ)
        (q / (2 : ℚ) ^ (f32Exp q - 23))
      linarith
    have hn' : |roundHalfEven (q / (2 : ℚ) ^ (f32Exp q - 23))| < 2 ^ 24 + 1 := by
      have : ((|roundHalfEven (q / (2 : ℚ) ^ (f32Exp q - 23))| : ℤ) : ℚ) < 2 ^ 24 + 1 := by
        rw [Int.cast_abs]; exact hn
      exact_mod_cast this
    omega
  · have := f32Exp_ge q
    omega

theorem f32_nonneg (q : ℚ) (h : 0 ≤ q) : 0 ≤ f32 q := by
  unfold f32
  dsimp only
  have hu : (0 : ℚ) < (2 : ℚ) ^ (f32Exp q - 23) := zpow_pos (by norm_num) _
  have hx : 0 ≤ q / (2 : ℚ) ^ (f32Exp q - 23) := div_nonneg h (le_of_lt hu)
  have hr : 0 ≤ roundHalfEven (q / (2 : ℚ) ^ (f32Exp q - 23)) := by
    have hf : 0 ≤ ⌊q / (2 : ℚ) ^ (f32Exp q - 23)⌋ := Int.floor_nonneg.mpr hx
    unfold roundHalfEven
    dsimp only
    split_ifs <;> omega
  have : (0 : ℚ) ≤ (roundHalfEven (q / (2 : ℚ) ^ (f32Exp q - 23)) : ℚ) := by exact_mod_cast hr
  positivity

/-- Rounding a value in `[0, 2^24]` stays in that range. -/
theorem f32_le_two_pow_24 (q : ℚ) (h0 : 0 ≤ q) (h : q ≤ 16777216) : f32 q ≤ 16777216 := by
  rcases eq_or_lt_of_le h0 with hq | hq
  · rw [← hq, f32_zero]; norm_num
  have habs : |q| = q := abs_of_pos hq
  have hlog : Int.log 2 |q| ≤ 24 := by
    have : Int.log 2 |q| < 25 := by
      rw [← Int.lt_zpow_iff_log_lt (by norm_num) (by rw [habs]; exact hq), habs]
      norm_num
      linarith
    omega
  have he : f32Exp q ≤ 24 := by
    unfold f32Exp
    exact max_le hlog (by norm_num)
  obtain ⟨k, hk⟩ := Int.eq_ofNat_of_zero_le (show 0 ≤ 47 - f32Exp q by omega)
  have hu : (0 : ℚ) < (2 : ℚ) ^ (f32Exp q - 23) := zpow_pos (by norm_num) _
  have hM : (16777216 : ℚ) = ((2 ^ k : ℤ) : ℚ) * (2 : ℚ) ^ (f32Exp q - 23) := by
    push_cast
    rw [← zpow_natCast, ← hk, ← zpow_add₀ (by norm_num)]
    rw [show 47 - f32Exp q + (f32Exp q - 23) = 24 by ring]
    norm_num
  have hx : q / (2 : ℚ) ^ (f32Exp q - 23) ≤ ((2 ^ k : ℤ) : ℚ) := by
    rw [div_le_iff₀ hu, ← hM]
    exact h
  have hr := abs_roundHalfEven_sub_le (q / (2 : ℚ) ^ (f32Exp q - 23))
  rw [abs_le] at hr
  have hn : roundHalfEven (q / (2 : ℚ) ^ (f32Exp q - 23)) ≤ 2 ^ k := by
    have : ((roundHalfEven (q / (2 : ℚ) ^ (f32Exp q - 23)) : ℤ) : ℚ) < ((2 ^ k : ℤ) : ℚ) + 1 := by
      linarith [hr.2]
    have : roundHalfEven (q / (2 : ℚ) ^ (f32Exp q - 23)) < 2 ^ k + 1 := by exact_mod_cast this
    omega
  unfold f32
  dsimp only
  rw [hM]
  exact mul_le_mul_of_nonneg_right (by exact_mod_cast hn) (le_of_lt hu)

/-- Below 2^24 the subtraction `waterAccum -= 1.0f` is exact. -/
theorem isF32_sub_one (x : ℚ) (hx : isF32 x) (h1 : 1 ≤ x) (h2 : x ≤ 16777216) :
    isF32 (x - 1) := by
  obtain ⟨m, j, hm, hj, rfl⟩ := hx
  have h2j : (0 : ℚ) < (2 : ℚ) ^ j := zpow_pos (by norm_num) j
  have hmpos : 0 < m := by
    by_contra hneg
    have : (m : ℚ) ≤ 0 := by exact_mod_cast not_lt.mp hneg
    have : (m : ℚ) * (2 : ℚ) ^ j ≤ 0 := mul_nonpos_of_nonpos_of_nonneg this (le_of_lt h2j)
    linarith
  rcases le_or_lt 0 j with hj0 | hj0
  · obtain ⟨k, hk⟩ := Int.eq_ofNat_of_zero_le hj0
    refine ⟨m * 2 ^ k - 1, 0, ?_, by norm_num, ?_⟩
    · have e : (m : ℚ) * (2 : ℚ) ^ j = ((m * 2 ^ k : ℤ) : ℚ) := by
        rw [hk]; push_cast; rw [zpow_natCast]
      rw [e] at h1 h2
      have a1 : (1 : ℤ) ≤ m * 2 ^ k := by exact_mod_cast h1
      have a2 : m * 2 ^ k ≤ 16777216 := by exact_mod_cast h2
      rw [abs_of_nonneg (by omega)]
      omega
    · rw [hk]; push_cast; rw [zpow_natCast]; ring
  · obtain ⟨k, hk⟩ := Int.eq_ofNat_of_zero_le (show 0 ≤ -j by omega)
    have hjk : j = -(k : ℤ) := by omega
    have e1 : (1 : ℚ) = ((2 ^ k : ℤ) : ℚ) * (2 : ℚ) ^ j := by
      rw [hjk, zpow_neg, zpow_natCast]
      push_cast
      field_simp
    refine ⟨m - 2 ^ k, j, ?_, hj, ?_⟩
    · have hge : ((2 ^ k : ℤ) : ℚ) ≤ (m : ℚ) := by
        have : ((2 ^ k : ℤ) : ℚ) * (2 : ℚ) ^ j ≤ (m : ℚ) * (2 : ℚ) ^ j := by rw [← e1]; exact h1
        exact le_of_mul_le_mul_right this h2j
      have hge' : (2 : ℤ) ^ k ≤ m := by exact_mod_cast hge
      have hkpos : (0 : ℤ) < 2 ^ k := by positivity
      rw [abs_of_pos hmpos] at hm
      rw [abs_of_nonneg (by omega)]
      omega
    · rw [Int.cast_sub, sub_mul, ← e1]

/-- From a binary32 value `A` in `[0, 2^24]` the loop ends after `floor A`
passes, with `A - floor A` left in `waterAccum`, as soon as the fuel allows
`floor A + 1` tests of its condition. -/
theorem fillLoopF32_terminates (fill : ℚ) (n : ℕ) :
    ∀ (A level : ℚ) (fuel : ℕ), isF32 A → 0 ≤ A → A ≤ 16777216 → ⌊A⌋.toNat = n → n < fuel →
      ∃ level1, fillLoopF32 fill fuel A level = some (A - ⌊A⌋, level1, n) := by
  induction n with
  | zero =>
    intro A level fuel _ h0 _ hn hfuel
    obtain ⟨fuel', rfl⟩ := Nat.exists_eq_succ_of_ne_zero (Nat.pos_iff_ne_zero.mp hfuel)
    have hf0 : 0 ≤ ⌊A⌋ := Int.floor_nonneg.mpr h0
    have hf : ⌊A⌋ = 0 := by omega
    have hlt : A < 1 := by
      have := Int.lt_floor_add_one A
      rw [hf] at this
      simpa using this
    refine ⟨level, ?_⟩
    rw [fillLoopF32, if_neg (not_le.mpr hlt), hf]
    simp
  | succ n ih =>
    intro A level fuel hA h0 h2 hn hfuel
    have hfpos : fuel ≠ 0 := by omega
    obtain ⟨fuel', rfl⟩ := Nat.exists_eq_succ_of_ne_zero hfpos
    have hf : ⌊A⌋ = (n : ℤ) + 1 := by omega
    have h1 : 1 ≤ A := by
      have : ((1 : ℤ) : ℚ) ≤ A := Int.le_floor.mp (by omega)
      simpa using this
    have hsub := isF32_sub_one A hA h1 h2
    have hfl : ⌊A - 1⌋ = (n : ℤ) := by rw [Int.floor_sub_one, hf]; ring
    obtain ⟨level1, hl⟩ := ih (A - 1) (f32 (level + fill)) fuel' hsub (by linarith)
      (by linarith) (by rw [hfl]; simp) (by omega)
    refine ⟨level1, ?_⟩
    rw [fillLoopF32, if_pos h1, f32_of_isF32 _ hsub, hl, hfl, hf]
    simp
    ring

/-- At 16777220 the subtraction of 1 rounds back to 16777220. -/
theorem f32_16777219 : f32 (16777220 - 1) = 16777220 := by
  have he : f32Exp (16777220 - 1) = 24 :=
    f32Exp_eq _ 24 (by norm_num) (by norm_num) (by norm_num)
  unfold f32
  dsimp only
  rw [he]
  have hx : ((16777220 : ℚ) - 1) / (2 : ℚ) ^ ((24 : ℤ) - 23) = ((8388609 : ℤ) : ℚ) + 1 / 2 := by
    norm_num
  rw [hx, roundHalfEven_tie]
  norm_num

theorem fillLoopF32_stuck (fill : ℚ) (fuel : ℕ) :
    ∀ level, fillLoopF32 fill fuel 16777220 level = none := by
  induction fuel with
  | zero => intro level; rfl
  | succ fuel ih =>
    intro level
    rw [fillLoopF32, if_pos (by norm_num), f32_16777219, ih]
    rfl

/-- The carry the exact loop `fillLoop` leaves from a non-negative value. -/
theorem fillLoop_fst (a l f : ℚ) (h0 : 0 ≤ a) : (fillLoop a l f).1 = a - ⌊a⌋ := by
  induction a, l, f using fillLoop.induct with
  | case1 a l f h ih =>
    rw [fillLoop_of_le a l f h, ih (by linarith), Int.floor_sub_one]
    push_cast
    ring
  | case2 a l f h =>
    have h1 : a < 1 := not_le.mp h
    have hf : ⌊a⌋ = 0 := by
      rw [Int.floor_eq_iff]
      constructor <;> simp <;> assumption
    rw [fillLoop_of_lt a l f h1, hf]
    simp

/-- On `waterAccum` the rounding loop and the exact loop agree from every
binary32 value up to 2^24. -/
theorem fillLoopF32_waterAccum_eq_fillLoop (fill A level : ℚ) (fuel : ℕ) (hA : isF32 A)
    (h0 : 0 ≤ A) (h2 : A ≤ 16777216) (hfuel : ⌊A⌋.toNat < fuel) :
    (fillLoopF32 fill fuel A level).map (fun r => r.1) = some (fillLoop A level fill).1 := by
  obtain ⟨level1, h⟩ := fillLoopF32_terminates fill _ A level fuel hA h0 h2 rfl hfuel
  rw [h, fillLoop_fst A level fill h0]
  rfl

theorem f32_16777220 : f32 16777220 = 16777220 := by
  have h := f32_of_repr 4194305 2 (by norm_num) (by norm_num)
  norm_num at h
  exact h

theorem f32_half_values : f32 (1 / 2) = 1 / 2 ∧ f32 (5 / 2) = 5 / 2 := by
  have h1 := f32_of_repr 1 (-1) (by norm_num) (by norm_num)
  have h2 := f32_of_repr 5 (-1) (by norm_num) (by norm_num)
  norm_num at h1 h2
  exact ⟨by norm_num [h1], by norm_num [h2]⟩

theorem updateWaterF32_waterAccum (fuel : ℕ) (s s1 : AppState) (dt : ℚ) (sp : Bool) (dot : ℚ)
    (h : updateWaterF32 fuel s dt sp dot = some s1) :
    ∃ s2, fillStepF32 fuel (spaceAction s sp dot) dt = some s2 ∧ s1.waterAccum = s2.waterAccum := by
  unfold updateWaterF32 at h
  dsimp only at h
  cases hf : fillStepF32 fuel (spaceAction s sp dot) dt with
  | none => rw [hf] at h; cases h
  | some s2 =>
    rw [hf] at h
    simp only [Option.map_some', Option.some.injEq] at h
    refine ⟨s2, rfl, ?_⟩
    rw [← h]
    exact (capAndLock_fields s2).2.2.1

/-- C29, counterexample: (1) from the on, unlocked scenario state with
`waterAccum = 0`, a call with `deltaTime = 16777220` never returns: the
stored sum is 16777220, and `waterAccum -= 1.0f` rounds back to 16777220 on
every pass, whatever the fuel; (2) an on, locked state holding the full bowl:
a new Space press facing the toilet empties the bowl and clears the lock, and
the fill block of the same call then adds `deltaTime` to `waterAccum`. -/
theorem fill_loop_hangs_and_locked_call_fills :
    scenarioState.isOn = true ∧ scenarioState.lockedByFullBowl = false ∧
    scenarioState.waterAccum = 0 ∧
    (∀ fuel, updateWaterF32 fuel scenarioState 16777220 false 0 = none) ∧
    lockedOnHeldFullState.lockedByFullBowl = true ∧
    lockedOnHeldFullState.waterAccum = 0 ∧
    (updateWaterF32 1 lockedOnHeldFullState (1 / 2) true (-1)).map (fun st => st.waterAccum)
      = some (1 / 2) := by
  refine ⟨rfl, rfl, rfl, ?_, rfl, rfl, ?_⟩
  · intro fuel
    unfold updateWaterF32
    dsimp only
    rw [spaceAction_no_space]
    unfold fillStepF32
    rw [if_pos ⟨rfl, rfl⟩]
    have e : scenarioState.waterAccum + 16777220 = 16777220 := by norm_num [scenarioState]
    rw [e, f32_16777220, fillLoopF32_stuck]
    rfl
  · have e : (0 : ℚ) + 1 / 2 = 1 / 2 := by norm_num
    norm_num [updateWaterF32, spaceAction, fillStepF32, fillLoopF32, capAndLock,
      lockedOnHeldFullState, scenarioState, f32_half_values.1]

/-- C29 (amended): for every state with `0 <= waterAccum < 1` and every
`deltaTime >= 0` with `waterAccum + deltaTime <= 2^24`, in binary32: the
while loop of `updateWater`, entered with the stored sum
`A = f32 (waterAccum + deltaTime)`, ends after exactly `floor A` passes and
leaves `A - floor A`; `updateWater` returns, and afterwards
`0 <= waterAccum < 1` holds again; `waterAccum` is `A - floor A` when the
state is on and unlocked, and is unchanged when the state is off, or is
locked and the Space branch of the call does not clear the lock. The fuel
only has to allow `floor A + 1` tests of the loop condition. -/
theorem fill_loop_count_and_carry (s : AppState) (deltaTime dot : ℚ) (spacePressed : Bool)
    (fuel : ℕ) (h0 : 0 ≤ s.waterAccum) (h1 : s.waterAccum < 1) (hdt : 0 ≤ deltaTime)
    (hcap : s.waterAccum + deltaTime ≤ 16777216)
    (hfuel : ⌊f32 (s.waterAccum + deltaTime)⌋.toNat < fuel) :
    (∀ level0, ∃ level1,
      fillLoopF32 s.waterFillPerSecond fuel (f32 (s.waterAccum + deltaTime)) level0 =
        some (f32 (s.waterAccum + deltaTime) - ⌊f32 (s.waterAccum + deltaTime)⌋, level1,
          ⌊f32 (s.waterAccum + deltaTime)⌋.toNat)) ∧
    (∃ s1, updateWaterF32 fuel s deltaTime spacePressed dot = some s1 ∧
      0 ≤ s1.waterAccum ∧ s1.waterAccum < 1 ∧
      (s.isOn = true → s.lockedByFullBowl = false →
        s1.waterAccum =
          f32 (s.waterAccum + deltaTime) - ⌊f32 (s.waterAccum + deltaTime)⌋) ∧
      (s.isOn = false ∨ (spaceAction s spacePressed dot).lockedByFullBowl = true →
        s1.waterAccum = s.waterAccum)) := by
  have hsum : 0 ≤ s.waterAccum + deltaTime := add_nonneg h0 hdt
  have hA := isF32_f32 (s.waterAccum + deltaTime)
  have hA0 := f32_nonneg _ hsum
  have hA2 := f32_le_two_pow_24 _ hsum hcap
  have hloop : ∀ level0, ∃ level1,
      fillLoopF32 s.waterFillPerSecond fuel (f32 (s.waterAccum + deltaTime)) level0 =
        some (f32 (s.waterAccum + deltaTime) - ⌊f32 (s.waterAccum + deltaTime)⌋, level1,
          ⌊f32 (s.waterAccum + deltaTime)⌋.toNat) :=
    fun level0 => fillLoopF32_terminates s.waterFillPerSecond _ _ level0 fuel hA hA0 hA2 rfl hfuel
  refine ⟨hloop, ?_⟩
  have hacc : (spaceAction s spacePressed dot).waterAccum = s.waterAccum :=
    (spaceAction_fields s spacePressed dot).2.2.2.1
  have hfill : (spaceAction s spacePressed dot).waterFillPerSecond = s.waterFillPerSecond :=
    (spaceAction_fields s spacePressed dot).2.2.2.2
  have hon : (spaceAction s spacePressed dot).isOn = s.isOn :=
    (spaceAction_fields s spacePressed dot).1
  have hunl : s.lockedByFullBowl = false →
      (spaceAction s spacePressed dot).lockedByFullBowl = false := by
    intro hl
    rw [spaceAction_eq]
    split_ifs <;> first | rfl | exact hl
  by_cases hact : (spaceAction s spacePressed dot).isOn = true ∧
      (spaceAction s spacePressed dot).lockedByFullBowl = false
  · obtain ⟨level1, hl⟩ := hloop (spaceAction s spacePressed dot).waterLevel
    refine ⟨{ capAndLock { spaceAction s spacePressed dot with
        waterAccum := f32 (s.waterAccum + deltaTime) - ⌊f32 (s.waterAccum + deltaTime)⌋,
        waterLevel := level1 } with prevSpacePressed := spacePressed }, ?_, ?_, ?_, ?_, ?_⟩
    · unfold updateWaterF32 fillStepF32
      dsimp only
      rw [if_pos hact, hacc, hfill, hl]
      rfl
    · show 0 ≤ (capAndLock _).waterAccum
      rw [(capAndLock_fields _).2.2.1]
      exact sub_nonneg.mpr (Int.floor_le _)
    · show (capAndLock _).waterAccum < 1
      rw [(capAndLock_fields _).2.2.1]
      show f32 (s.waterAccum + deltaTime) - ⌊f32 (s.waterAccum + deltaTime)⌋ < 1
      linarith [Int.lt_floor_add_one (f32 (s.waterAccum + deltaTime))]
    · intro _ _
      show (capAndLock _).waterAccum = _
      rw [(capAndLock_fields _).2.2.1]
    · intro h
      exfalso
      rcases h with h | h
      · rw [hon, h] at hact; exact absurd hact.1 (by decide)
      · rw [h] at hact; exact absurd hact.2 (by decide)
  · refine ⟨{ capAndLock (spaceAction s spacePressed dot) with
        prevSpacePressed := spacePressed }, ?_, ?_, ?_, ?_, ?_⟩
    · unfold updateWaterF32 fillStepF32
      dsimp only
      rw [if_neg hact]
      rfl
    · show 0 ≤ (capAndLock _).waterAccum
      rw [(capAndLock_fields _).2.2.1, hacc]
      exact h0
    · show (capAndLock _).waterAccum < 1
      rw [(capAndLock_fields _).2.2.1, hacc]
      exact h1
    · intro hi hl
      exact absurd ⟨hon.trans hi, hunl hl⟩ hact
    · intro _
      show (capAndLock _).waterAccum = _
      rw [(capAndLock_fields _).2.2.1, hacc]

/-- Witness for C29: the scenario state (on, unlocked, carry 0) with a frame
of 5/2 seconds and fuel for three tests: two passes, carry 1/2. -/
theorem fill_loop_count_and_carry_witness :
    ∃ level1,
      fillLoopF32 scenarioState.waterFillPerSecond 3 (f32 (scenarioState.waterAccum + 5 / 2))
          scenarioState.waterLevel =
        some (f32 (scenarioState.waterAccum + 5 / 2) - ⌊f32 (scenarioState.waterAccum + 5 / 2)⌋,
          level1, ⌊f32 (scenarioState.waterAccum + 5 / 2)⌋.toNat) :=
  (fill_loop_count_and_carry scenarioState (5 / 2) 0 false 3
    (by norm_num [scenarioState]) (by norm_num [scenarioState]) (by norm_num)
    (by norm_num [scenarioState])
    (by
      have e : scenarioState.waterAccum + 5 / 2 = 5 / 2 := by norm_num [scenarioState]
      have hfl : ⌊(5 / 2 : ℚ)⌋ = 2 := by
        rw [Int.floor_eq_iff]; constructor <;> norm_num
      rw [e, f32_half_values.2, hfl]
      decide)).1 scenarioState.waterLevel

/-! ## Temperature drift in binary32 -/

/-- The constant `frame75` is the binary32 rounding of 1/75. -/
theorem frame75_eq : f32 (1 / 75) = frame75 := by
  have h := f32_eq_of_close (1 / 75) (-7) 14316558 (by norm_num)
    (by rw [abs_of_pos (by norm_num)]; norm_num)
    (by rw [abs_of_pos (by norm_num)]; norm_num)
    (by rw [abs_lt]; constructor <;> norm_num)
  rw [h]
  norm_num [frame75]

theorem f32_99999999 : f32 99999999 = 100000000 := by
  have a := f32_eq_of_close 99999999 26 12500000 (by norm_num)
    (by rw [abs_of_pos (by norm_num)]; norm_num) (by rw [abs_of_pos (by norm_num)]; norm_num)
    (by rw [abs_lt]; constructor <;> norm_num)
  norm_num at a
  exact a

theorem f32_100000001 : f32 100000001 = 100000000 := by
  have b := f32_eq_of_close 100000001 26 12500000 (by norm_num)
    (by rw [abs_of_pos (by norm_num)]; norm_num) (by rw [abs_of_pos (by norm_num)]; norm_num)
    (by rw [abs_lt]; constructor <;> norm_num)
  norm_num at b
  exact b

theorem f32_100000000 : f32 100000000 = 100000000 := by
  have c := f32_of_repr 12500000 3 (by norm_num) (by norm_num)
  norm_num at c
  exact c

theorem f32_neg_99999999 : f32 (-99999999) = -100000000 := by
  have d := f32_eq_of_close (-99999999) 26 (-12500000) (by norm_num)
    (by rw [abs_of_neg (by norm_num)]; norm_num) (by rw [abs_of_neg (by norm_num)]; norm_num)
    (by rw [abs_lt]; constructor <;> norm_num)
  norm_num at d
  exact d

theorem f32_neg_100000001 : f32 (-100000001) = -100000000 := by
  have e := f32_eq_of_close (-100000001) 26 (-12500000) (by norm_num)
    (by rw [abs_of_neg (by norm_num)]; norm_num) (by rw [abs_of_neg (by norm_num)]; norm_num)
    (by rw [abs_lt]; constructor <;> norm_num)
  norm_num at e
  exact e

theorem f32_one : f32 1 = 1 := by
  have f := f32_of_repr 1 0 (by norm_num) (by norm_num)
  norm_num at f
  exact f

theorem f32_neg_one : f32 (-1) = -1 := by
  have g := f32_of_repr (-1) 0 (by norm_num) (by norm_num)
  norm_num at g
  exact g

/-- Around 1e8 the binary32 values are 8 apart: 1e8 - 1 and 1e8 + 1 both round
to 1e8. -/
theorem f32_near_1e8 :
    f32 99999999 = 100000000 ∧ f32 100000001 = 100000000 ∧ f32 100000000 = 100000000 ∧
    f32 (-99999999) = -100000000 ∧ f32 (-100000001) = -100000000 ∧
    f32 1 = 1 ∧ f32 (-1) = -1 :=
  ⟨f32_99999999, f32_100000001, f32_100000000, f32_neg_99999999, f32_neg_100000001, f32_one,
    f32_neg_one⟩

theorem unitBox_corners_f32 :
    (worldOrigin.sub unitBoxHalf).f32 = { x := -1, y := -1, z := -1 } ∧
    (worldOrigin.add unitBoxHalf).f32 = { x := 1, y := 1, z := 1 } := by
  have e1 : (0 : ℚ) - 1 = -1 := by norm_num
  have e2 : (0 : ℚ) + 1 = 1 := by norm_num
  unfold Vec3.f32 Vec3.sub Vec3.add worldOrigin unitBoxHalf
  dsimp only
  rw [e1, e2, f32_neg_one, f32_one]
  exact ⟨rfl, rfl⟩

theorem slabLoopF32_succ (o d : Vec3) (zs : ZeroSigns) (a b : Vec3) (n i : ℕ)
    (t : FVal × FVal) :
    slabLoopF32 o d zs a b (n + 1) i t =
      (if FVal.le (slabAxisF32 o d zs a b i t).2 (slabAxisF32 o d zs a b i t).1 = true then
        slabAxisF32 o d zs a b i t
      else slabLoopF32 o d zs a b n (i + 1) (slabAxisF32 o d zs a b i t)) := rfl

/-- In binary32 the unit box at the world origin is missed from (0, 0, 1e8)
along (0, 0, -1), toward its centre and well within 1e9: both planes of the
z slab get the parameter 1e8. -/
theorem hitAABBF32_misses_from_1e8 :
    hitAABBF32 distantOrigin { x := 0, y := 0, z := -1 } plusZeros worldOrigin unitBoxHalf
      = false := by
  have hxy : ∀ i, i < 2 →
      slabAxisF32 distantOrigin { x := 0, y := 0, z := -1 } plusZeros
        ({ x := -1, y := -1, z := -1 } : Vec3) { x := 1, y := 1, z := 1 } i
        (FVal.fin 0, FVal.fin 1000000000) = (FVal.fin 0, FVal.fin 1000000000) := by
    intro i hi
    have e1 : (-1 : ℚ) - 0 = -1 := by norm_num
    have e2 : (1 : ℚ) - 0 = 1 := by norm_num
    have hi2 : i = 0 ∨ i = 1 := by omega
    rcases hi2 with rfl | rfl <;>
    · unfold slabAxisF32 distantOrigin plusZeros
      simp only [Vec3.comp, ZeroSigns.comp, FVal.recipF32, if_true, e1, e2, f32_neg_one, f32_one]
      norm_num [FVal.scaleF32, FVal.lt, FVal.max, FVal.min]
  have hz : slabAxisF32 distantOrigin { x := 0, y := 0, z := -1 } plusZeros
        ({ x := -1, y := -1, z := -1 } : Vec3) { x := 1, y := 1, z := 1 } 2
        (FVal.fin 0, FVal.fin 1000000000) = (FVal.fin 100000000, FVal.fin 100000000) := by
    have e1 : (-1 : ℚ) - 100000000 = -100000001 := by norm_num
    have e2 : (1 : ℚ) - 100000000 = -99999999 := by norm_num
    have e3 : (1 : ℚ) / -1 = -1 := by norm_num
    have e4 : (-100000000 : ℚ) * -1 = 100000000 := by norm_num
    have hne : (-1 : ℚ) ≠ 0 := by norm_num
    unfold slabAxisF32 distantOrigin plusZeros
    simp only [Vec3.comp, ZeroSigns.comp, FVal.recipF32, if_neg hne, e1, e2, e3,
      f32_neg_100000001, f32_neg_99999999, f32_neg_one, FVal.scaleF32, e4, f32_100000000]
    norm_num [FVal.lt, FVal.max, FVal.min]
  have hle0 : FVal.le (FVal.fin 1000000000) (FVal.fin 0) = false := by
    simp [FVal.le]
  have hlt : FVal.lt (FVal.fin 100000000) (FVal.fin 100000000) = false := by
    simp [FVal.lt]
  unfold hitAABBF32
  rw [unitBox_corners_f32.1, unitBox_corners_f32.2]
  dsimp only
  rw [show slabLoopF32 distantOrigin _ plusZeros _ _ 3 0 _ = _ from
      slabLoopF32_succ _ _ _ _ _ 2 0 _,
    hxy 0 (by decide)]
  dsimp only
  rw [if_neg (by rw [hle0]; decide), slabLoopF32_succ, hxy 1 (by decide)]
  dsimp only
  rw [if_neg (by rw [hle0]; decide), slabLoopF32_succ, hz]
  dsimp only
  rw [if_pos (by simp [FVal.le]), hlt]
  rfl

theorem fetch_resolvesTo {α : Type} (elems : List α) (zero : α) (ref : ℤ) :
    resolvesTo elems zero ref (fetch elems zero ref) :=
  ⟨fun h => fetch_of_some elems zero ref _ (resolveIndex_positive ref _ h.1 h.2),
    fun h => fetch_of_some elems zero ref _ (resolveIndex_negative ref _ h.1 h.2),
    fun h => fetch_of_none elems zero ref (resolveIndex_none ref _ h)⟩

/-- C22: OBJ face index resolution in `loadOBJModel`. For every state of the
read loop (the positions, normals and texture coordinates parsed so far) and
every face token, the eight floats `process` pushes are a position, a normal
and a texture coordinate that are resolved from `vi`, `ni`, `ti` against the
three vectors: element `ref - 1` for `1 <= ref <= n`, element `n + ref` for
`-n <= ref <= -1`, the zero vector for 0 or an out-of-range reference; every
index at which a vector is read lies in `0 .. n-1`; and a face line after any
lines resolves its tokens against the state those lines leave. -/
theorem obj_index_resolution (st : ObjState) (tok : FaceRef) :
    (∃ (pos nor : Vec3) (tex : Vec2),
      resolvesTo st.positions { x := 0, y := 0, z := 0 } tok.vi pos ∧
      resolvesTo st.normals { x := 0, y := 0, z := 0 } tok.ni nor ∧
      resolvesTo st.texcoords { x := 0, y := 0 } tok.ti tex ∧
      vertexOf st tok = [pos.x, pos.y, pos.z, nor.x, nor.y, nor.z, tex.x, tex.y] ∧
      (process st tok).interleaved =
        st.interleaved ++ [pos.x, pos.y, pos.z, nor.x, nor.y, nor.z, tex.x, tex.y]) ∧
    (∀ idx, resolveIndex tok.vi st.positions.length = some idx →
      0 ≤ idx ∧ idx < (st.positions.length : ℤ)) ∧
    (∀ idx, resolveIndex tok.ni st.normals.length = some idx →
      0 ≤ idx ∧ idx < (st.normals.length : ℤ)) ∧
    (∀ idx, resolveIndex tok.ti st.texcoords.length = some idx →
      0 ≤ idx ∧ idx < (st.texcoords.length : ℤ)) ∧
    (∀ (lines : List ObjLine) (st0 : ObjState) (a b c : FaceRef),
      ((lines ++ [ObjLine.face [a, b, c]]).foldl objLine st0).interleaved =
        (lines.foldl objLine st0).interleaved ++
          (vertexOf (lines.foldl objLine st0) a ++ vertexOf (lines.foldl objLine st0) b ++
            vertexOf (lines.foldl objLine st0) c)) ∧
    (∀ (v : Vec3), (objLine st (ObjLine.position v)).positions = st.positions ++ [v]) :=
  ⟨⟨fetch st.positions { x := 0, y := 0, z := 0 } tok.vi,
      fetch st.normals { x := 0, y := 0, z := 0 } tok.ni,
      fetch st.texcoords { x := 0, y := 0 } tok.ti,
      fetch_resolvesTo _ _ _, fetch_resolvesTo _ _ _, fetch_resolvesTo _ _ _, rfl, rfl⟩,
    fun idx h => resolveIndex_in_bounds _ _ idx h,
    fun idx h => resolveIndex_in_bounds _ _ idx h,
    fun idx h => resolveIndex_in_bounds _ _ idx h,
    fun lines st0 a b c => by
      rw [List.foldl_append, List.foldl_cons, List.foldl_nil, objLine_face_three],
    fun _ => rfl⟩

/-- A file of two positions and one face that uses a relative, an absolute
and an out-of-range reference: the vertices pushed are the second position,
the first position and the zero vector. -/
theorem obj_relative_reference_example :
    ([ObjLine.position { x := 1, y := 2, z := 3 }, ObjLine.position { x := 4, y := 5, z := 6 },
        ObjLine.face [{ vi := -1, ti := 0, ni := 0 }, { vi := 1, ti := 0, ni := 0 },
          { vi := 3, ti := 0, ni := 0 }]].foldl objLine
        { positions := [], normals := [], texcoords := [], interleaved := [] }).interleaved =
      [4, 5, 6, 0, 0, 0, 0, 0, 1, 2, 3, 0, 0, 0, 0, 0, 0, 0, 0, 0, 0, 0, 0, 0] := by
  simp [objLine, process, vertexOf, fetch, resolveIndex, emptyRef]

end ACSim
